import Mathlib

/-!
Window registry and event dispatcher of the Clutter compositor.

A shallow embedding of `src/compositor/compositor-clutter.c`.

* A `MetaCompWindow` lives on a heap addressed by `NodeId`; GLib containers hold
  addresses, exactly as the C containers hold pointers.
* `GList` / `GSList` are Lean lists of addresses; a list link (`GList *`) is the
  position of a cell, `NULL` is `none`.
* `GHashTable` with direct hashing is a finite map `Window → Option NodeId`.
* Everything the code asks the X server, the window manager or Clutter for is
  read from an `Env` record; only the compositor's own data is state.
* One screen is modelled (the scope fixed in §1 of the specification); the
  stacking of actors inside the Clutter stage is not part of the state.
* A C execution that dereferences `NULL` or a freed list link has no defined
  result: the embedded function returns `none` there.
-/

namespace CompositorClutter

/-! ## X and window-manager vocabulary -/

/-- X resource identifier of a window. -/
abbrev Window := Nat
/-- X resource identifier of a pixmap. -/
abbrev Pixmap := Nat
/-- X resource identifier of a damage object. -/
abbrev Damage := Nat
/-- Identifier of an X visual. -/
abbrev Visual := Nat
/-- Address of a `MetaWindow` owned by the window manager. -/
abbrev MetaWindow := Nat
/-- Address of a `MetaCompWindow`. -/
abbrev NodeId := Nat

/-- The X constant `None` (the null resource identifier). -/
def None : Nat := 0

/-- Interned atoms the compositor compares against; `None` is the null atom and
`other` stands for every atom the file never names. Distinct constructors are
distinct atoms, as interned atoms are. -/
inductive Atom where
  | None
  | NET_WM_WINDOW_OPACITY
  | NET_WM_WINDOW_TYPE
  | NET_WM_WINDOW_TYPE_DND
  | NET_WM_WINDOW_TYPE_DESKTOP
  | NET_WM_WINDOW_TYPE_DOCK
  | NET_WM_WINDOW_TYPE_TOOLBAR
  | NET_WM_WINDOW_TYPE_MENU
  | NET_WM_WINDOW_TYPE_DIALOG
  | NET_WM_WINDOW_TYPE_NORMAL
  | NET_WM_WINDOW_TYPE_UTILITY
  | NET_WM_WINDOW_TYPE_SPLASH
  | other (id : Nat)
  deriving DecidableEq, Repr

/-- Window types of the window manager (`window.h` is outside the sources): the
four enumerators the compositor shares are named, every remaining one is carried
by its numeric code. -/
inductive MetaWindowType where
  | NORMAL
  | DESKTOP
  | DOCK
  | MENU
  | other (code : Nat)
  deriving DecidableEq, Repr

/-- The enum `MetaCompWindowType`. `wm` is the image under the cast
`(MetaCompWindowType)` of a window-manager type that has no named enumerator. -/
inductive MetaCompWindowType where
  | NORMAL
  | DESKTOP
  | DOCK
  | MENU
  | TOOLTIP
  | DROP_DOWN_MENU
  | DND
  | wm (code : Nat)
  deriving DecidableEq, Repr

/-- The cast `(MetaCompWindowType) meta_window_get_type (...)`. -/
def MetaCompWindowType.ofWindowType : MetaWindowType → MetaCompWindowType
  | .NORMAL => .NORMAL
  | .DESKTOP => .DESKTOP
  | .DOCK => .DOCK
  | .MENU => .MENU
  | .other c => .wm c

/-- Values of `XWindowAttributes.map_state`. -/
inductive MapState where
  | IsUnmapped
  | IsUnviewable
  | IsViewable
  deriving DecidableEq, Repr

/-- Values of `XWindowAttributes.class`. -/
inductive WindowClass where
  | InputOutput
  | InputOnly
  deriving DecidableEq, Repr

/-- The fields of `XWindowAttributes` the compositor reads or writes. -/
structure XWindowAttributes where
  x : Int
  y : Int
  width : Int
  height : Int
  border_width : Int
  override_redirect : Bool
  map_state : MapState
  window_class : WindowClass
  visual : Visual
  deriving DecidableEq, Repr

/-- Values of `XCirculateEvent.place`. -/
inductive Place where
  | PlaceOnTop
  | PlaceOnBottom
  deriving DecidableEq, Repr

/-- X events by type, with the fields the handlers read. `DestroyNotify` keeps
both the window the event was reported to (`event`, which is what
`XCheckTypedWindowEvent` matches on) and the destroyed `window`. -/
inductive XEvent where
  | CirculateNotify (window : Window) (place : Place)
  | ConfigureNotify (window : Window) (above : Window) (x y width height border_width : Int)
      (override_redirect : Bool)
  | PropertyNotify (window : Window) (atom : Atom)
  | Expose
  | UnmapNotify (window : Window) (from_configure : Bool)
  | MapNotify (window : Window)
  | ReparentNotify (window : Window) (parent : Window)
  | CreateNotify (window : Window) (parent : Window)
  | DestroyNotify (event : Window) (window : Window)
  | DamageNotify (drawable : Window)
  | other (type : Nat)
  deriving DecidableEq, Repr

/-! ## Compositor data -/

/-- Values of `ClutterGravity` the compositor uses. -/
inductive ClutterGravity where
  | NORTH_WEST
  | SOUTH_WEST
  | CENTER
  deriving DecidableEq, Repr

/-- The Clutter state of the group actor a `MetaCompWindow` is: whether it is
shown, its opacity, the position last given to `clutter_actor_set_position`,
its scale factors and the gravity of its anchor point. -/
structure ClutterActor where
  visible : Bool
  opacity : Nat
  x : Int
  y : Int
  scale_x : Int
  scale_y : Int
  anchor : ClutterGravity
  deriving DecidableEq, Repr

/-- The two effect templates of a screen. -/
inductive EffectTemplate where
  | destroy_effect
  | minimize_effect
  deriving DecidableEq, Repr

/-- Completion callbacks handed to `clutter_effect_fade`. -/
inductive EffectCallback where
  | on_destroy_effect_complete
  | on_minimize_effect_complete
  deriving DecidableEq, Repr

/-- A running effect timeline: a fade to `opacity_end` or a scale to
`(x_scale_end, y_scale_end)`, the actor it drives and the callback to run, with
the node given as user data, when it completes. -/
inductive Effect where
  | fade (template : EffectTemplate) (actor : NodeId) (opacity_end : Nat)
      (callback : Option EffectCallback)
  | scale (template : EffectTemplate) (actor : NodeId) (x_scale_end y_scale_end : Int)
      (callback : Option EffectCallback)
  deriving DecidableEq, Repr

/-- The texture actor `priv->actor`. -/
structure TextureActor where
  pixmap : Pixmap
  width : Int
  height : Int
  updates : Nat
  deriving DecidableEq, Repr

/-- The shadow frame actor `priv->shadow`. -/
structure ShadowActor where
  x : Int
  y : Int
  width : Int
  height : Int
  deriving DecidableEq, Repr

/-- The struct `MetaCompWindowPrivate`. -/
structure MetaCompWindowPrivate where
  attrs : XWindowAttributes
  window : Option MetaWindow
  xwindow : Window
  actor : TextureActor
  shadow : Option ShadowActor
  back_pixmap : Pixmap
  type : MetaCompWindowType
  damage : Damage
  opacity : Nat
  needs_shadow : Bool
  shaped : Bool
  destroy_pending : Bool
  argb32 : Bool
  minimize_in_progress : Bool
  disposed : Bool
  deriving DecidableEq, Repr

/-- The struct `MetaCompWindow`: the parent actor instance and the private part. -/
structure MetaCompWindow where
  parent : ClutterActor
  priv : MetaCompWindowPrivate
  deriving DecidableEq, Repr

/-- The struct `MetaCompScreen` (registry of one screen). The effect templates,
the stage and the shadow source texture are Clutter objects and carry no data
the registry reads. -/
structure MetaCompScreen where
  windows : List NodeId
  windows_by_xid : Window → Option NodeId
  focus_window : Option MetaWindow
  output : Window
  dock_windows : List NodeId

/-- Everything the compositor mutates: the object heap, the allocator, the
screen's compositor data (`meta_screen_get_compositor_data`, `NULL` until the
screen is managed), the pending X event queue, the error-trap nesting and the
effect timelines Clutter is running. -/
structure CompState where
  heap : NodeId → MetaCompWindow
  next_alloc : NodeId
  compositor_data : Option MetaCompScreen
  xroot : Window
  queue : List XEvent
  trap_depth : Nat
  effects : List Effect

/-- Answers of the X server, the window manager and Clutter at the time of a
call. -/
structure Env where
  XGetWindowAttributes : Window → Option XWindowAttributes
  window_type_atoms : Window → List Atom
  meta_display_has_shape : Bool
  bounding_shaped : Window → Bool
  XDamageCreate : Window → Damage
  visual_has_alpha : Visual → Bool
  meta_window_get_type_atom : MetaWindow → Atom
  meta_window_get_type : MetaWindow → MetaWindowType
  meta_window_get_frame : MetaWindow → Option Window
  meta_window_get_xwindow : MetaWindow → Window
  meta_prop_get_cardinal : Window → Bool × Nat
  XQueryTree_parent : Window → Window
  XCompositeNameWindowPixmap : Window → Pixmap
  pixmap_size : Pixmap → Int × Int
  XFixesFetchRegionAndBounds : Damage → Option Nat
  stage_window : Window
  using_extension : Bool
  XCompositeRedirect_error : Bool
  XCompositeGetOverlayWindow : Window
  meta_display_get_focus_window : Option MetaWindow

/-! ## GLib containers -/

/-- Position of the first cell holding `data` (`g_list_find`). -/
def g_list_find : List NodeId → NodeId → Option Nat
  | [], _ => none
  | d :: rest, data => if d = data then some 0 else (g_list_find rest data).map (· + 1)

/-- Data of the cell after `link` (`g_list_next` followed by `->data`). -/
def g_list_next_data (list : List NodeId) : Option Nat → Option NodeId
  | none => none
  | some i => list.get? (i + 1)

/-- Unlink and free the cell `link_`; a `NULL` link leaves the list as is. -/
def g_list_delete_link (list : List NodeId) : Option Nat → List NodeId
  | none => list
  | some i => list.take i ++ list.drop (i + 1)

/-- Position, in the list that `g_list_delete_link list deleted` returns, of the
cell that was at position `link` before; `none` when `link` is the freed cell. -/
def link_after_delete (link : Nat) : Option Nat → Option Nat
  | none => some link
  | some i => if link < i then some link else if link = i then none else some (link - 1)

/-- Insert `data` in a new cell before the cell at position `sibling`. -/
def g_list_insert_before (list : List NodeId) (sibling : Nat) (data : NodeId) : List NodeId :=
  list.take sibling ++ data :: list.drop sibling

/-- Append at the tail (`g_list_append`, `g_slist_append`). -/
def g_list_append (list : List NodeId) (data : NodeId) : List NodeId :=
  list ++ [data]

/-- Push at the head (`g_list_prepend`). -/
def g_list_prepend (list : List NodeId) (data : NodeId) : List NodeId :=
  data :: list

/-- Remove the first cell holding `data` (`g_list_remove`, `g_slist_remove`). -/
def g_list_remove (list : List NodeId) (data : NodeId) : List NodeId :=
  list.erase data

/-- The call `g_hash_table_new (g_direct_hash, g_direct_equal)`. -/
def g_hash_table_new : Window → Option NodeId :=
  fun _ => none

/-- Insert or replace the value of `key`. -/
def g_hash_table_insert (table : Window → Option NodeId) (key : Window) (value : NodeId) :
    Window → Option NodeId :=
  fun k => if k = key then some value else table k

/-- Drop `key`. -/
def g_hash_table_remove (table : Window → Option NodeId) (key : Window) :
    Window → Option NodeId :=
  fun k => if k = key then none else table k

/-- Value of `key`, `NULL` when absent. -/
def g_hash_table_lookup (table : Window → Option NodeId) (key : Window) : Option NodeId :=
  table key

/-! ## State access -/

/-- Store `p` as the private part of object `cw`. -/
def CompState.set_priv (s : CompState) (cw : NodeId) (p : MetaCompWindowPrivate) : CompState :=
  { s with heap := fun k => if k = cw then { s.heap cw with priv := p } else s.heap k }

/-- Store `a` as the actor part of object `cw`. -/
def CompState.set_actor (s : CompState) (cw : NodeId) (a : ClutterActor) : CompState :=
  { s with heap := fun k => if k = cw then { s.heap cw with parent := a } else s.heap k }

/-- Store `info` as the screen's compositor data. -/
def CompState.set_info (s : CompState) (info : MetaCompScreen) : CompState :=
  { s with compositor_data := some info }

/-- Replace the pending event queue. -/
def CompState.set_queue (s : CompState) (q : List XEvent) : CompState :=
  { s with queue := q }

/-- Replace the list of running effects. -/
def CompState.set_effects (s : CompState) (l : List Effect) : CompState :=
  { s with effects := l }

/-! ## Lookup -/

/-- The function `find_window_for_screen`. -/
def find_window_for_screen (s : CompState) (xwindow : Window) : Option NodeId :=
  match s.compositor_data with
  | none => none
  | some info => g_hash_table_lookup info.windows_by_xid xwindow

/-- The function `find_window_in_display`: the first hit over the screens of the
display, of which there is one. -/
def find_window_in_display (s : CompState) (xwindow : Window) : Option NodeId :=
  find_window_for_screen s xwindow

/-- The function `find_window_for_child_window_in_display`. -/
def find_window_for_child_window_in_display (env : Env) (s : CompState) (xwindow : Window) :
    Option NodeId :=
  if env.XQueryTree_parent xwindow ≠ None then
    find_window_in_display s (env.XQueryTree_parent xwindow)
  else none

/-! ## Scene node construction -/

/-- The `for` loop of `meta_comp_window_get_window_type` over the atom list,
started with the classification `acc` assumed so far. -/
def window_type_from_atoms (acc : MetaCompWindowType) : List Atom → MetaCompWindowType
  | [] => acc
  | a :: rest =>
    if a = Atom.NET_WM_WINDOW_TYPE_DND then MetaCompWindowType.DND
    else if a = Atom.NET_WM_WINDOW_TYPE_DESKTOP then MetaCompWindowType.DESKTOP
    else if a = Atom.NET_WM_WINDOW_TYPE_DOCK then MetaCompWindowType.DOCK
    else if a = Atom.NET_WM_WINDOW_TYPE_TOOLBAR ∨ a = Atom.NET_WM_WINDOW_TYPE_MENU ∨
        a = Atom.NET_WM_WINDOW_TYPE_DIALOG ∨ a = Atom.NET_WM_WINDOW_TYPE_NORMAL ∨
        a = Atom.NET_WM_WINDOW_TYPE_UTILITY ∨ a = Atom.NET_WM_WINDOW_TYPE_SPLASH then
      MetaCompWindowType.NORMAL
    else window_type_from_atoms acc rest

/-- The function `meta_comp_window_get_window_type`, on the private part. -/
def meta_comp_window_get_window_type (env : Env) (priv : MetaCompWindowPrivate) :
    MetaCompWindowPrivate :=
  match priv.window with
  | some w =>
    if env.meta_window_get_type_atom w ≠ Atom.None then
      { priv with type := MetaCompWindowType.ofWindowType (env.meta_window_get_type w) }
    else
      { priv with type :=
          window_type_from_atoms MetaCompWindowType.NORMAL (env.window_type_atoms priv.xwindow) }
  | none =>
    { priv with type :=
        window_type_from_atoms MetaCompWindowType.NORMAL (env.window_type_atoms priv.xwindow) }

/-- The function `is_shaped`. -/
def is_shaped (env : Env) (xwindow : Window) : Bool :=
  if env.meta_display_has_shape then env.bounding_shaped xwindow else false

/-- The function `meta_comp_window_has_shadow`. -/
def meta_comp_window_has_shadow (env : Env) (priv : MetaCompWindowPrivate) : Bool :=
  if priv.argb32 ∨ priv.opacity ≠ 0xff then false
  else if priv.attrs.override_redirect then true
  else if (match priv.window with
      | some w => (env.meta_window_get_frame w).isSome
      | none => false) then true
  else if priv.shaped then false
  else if priv.type = MetaCompWindowType.DND ∨ priv.type = MetaCompWindowType.DESKTOP then false
  else if priv.type = MetaCompWindowType.MENU then true
  else false

/-- The constant `SHADOW_RADIUS`. -/
def SHADOW_RADIUS : Int := 8
/-- The constant `SHADOW_OFFSET_X`. -/
def SHADOW_OFFSET_X : Int := SHADOW_RADIUS
/-- The constant `SHADOW_OFFSET_Y`. -/
def SHADOW_OFFSET_Y : Int := SHADOW_RADIUS

/-- A zero-filled instance after `meta_comp_window_init` and after the four
construct properties have been stored by `meta_comp_window_set_property`. -/
def meta_comp_window_init (window : Option MetaWindow) (xwindow : Window)
    (attrs : XWindowAttributes) : MetaCompWindowPrivate :=
  { attrs := attrs
    window := window
    xwindow := xwindow
    actor := { pixmap := None, width := 0, height := 0, updates := 0 }
    shadow := none
    back_pixmap := None
    type := MetaCompWindowType.NORMAL
    damage := None
    opacity := 0xff
    needs_shadow := false
    shaped := false
    destroy_pending := false
    argb32 := false
    minimize_in_progress := false
    disposed := false }

/-- The function `meta_comp_window_constructed`, on the private part. -/
def meta_comp_window_constructed (env : Env) (priv : MetaCompWindowPrivate) :
    MetaCompWindowPrivate :=
  let p1 := meta_comp_window_get_window_type env priv
  let p2 := { p1 with shaped := is_shaped env p1.xwindow }
  let p3 := { p2 with damage :=
    if p2.attrs.window_class = WindowClass.InputOnly then None else env.XDamageCreate p2.xwindow }
  let p4 := if env.visual_has_alpha p3.attrs.visual then { p3 with argb32 := true } else p3
  let p5 := if meta_comp_window_has_shadow env p4 then
      { p4 with shadow := some { x := SHADOW_OFFSET_X, y := SHADOW_OFFSET_Y, width := 0, height := 0 } }
    else p4
  { p5 with actor := { pixmap := None, width := 0, height := 0, updates := 0 } }

/-- The call `g_object_new (META_TYPE_COMP_WINDOW, ...)`: the object stored at a
fresh address. -/
def meta_comp_window_new (env : Env) (window : Option MetaWindow) (xwindow : Window)
    (attrs : XWindowAttributes) : MetaCompWindow :=
  { parent :=
      { visible := false, opacity := 0xff, x := 0, y := 0, scale_x := 1, scale_y := 1
        anchor := ClutterGravity.NORTH_WEST }
    priv := meta_comp_window_constructed env (meta_comp_window_init window xwindow attrs) }

/-! ## Registry operations -/

/-- The function `meta_comp_window_detach`. -/
def meta_comp_window_detach (s : CompState) (self : NodeId) : CompState :=
  if (s.heap self).priv.back_pixmap ≠ None then
    s.set_priv self { (s.heap self).priv with back_pixmap := None }
  else s

/-- The function `map_win`. -/
def map_win (s : CompState) (id : Window) : CompState :=
  match find_window_for_screen s id with
  | none => s
  | some cw =>
    let priv := (s.heap cw).priv
    let s1 := s.set_priv cw
      { priv with attrs := { priv.attrs with map_state := MapState.IsViewable },
                  minimize_in_progress := false }
    s1.set_actor cw { (s1.heap cw).parent with visible := true }

/-- The function `add_win`. -/
def add_win (env : Env) (s : CompState) (window : Option MetaWindow) (xwindow : Window) :
    CompState :=
  match s.compositor_data with
  | none => s
  | some info =>
    if xwindow = info.output then s
    else
      match env.XGetWindowAttributes xwindow with
      | none => s
      | some attrs =>
        let cw := s.next_alloc
        let obj := meta_comp_window_new env window xwindow attrs
        let obj := { obj with parent :=
          { obj.parent with x := obj.priv.attrs.x, y := obj.priv.attrs.y, visible := false } }
        let dock := if obj.priv.type = MetaCompWindowType.DOCK then
            g_list_append info.dock_windows cw
          else info.dock_windows
        let s1 : CompState :=
          { s with
            heap := fun k => if k = cw then obj else s.heap k
            next_alloc := s.next_alloc + 1
            compositor_data := some
              { info with
                dock_windows := dock
                windows := g_list_prepend info.windows cw
                windows_by_xid := g_hash_table_insert info.windows_by_xid xwindow cw } }
        if obj.priv.attrs.map_state = MapState.IsViewable then map_win s1 xwindow else s1

/-- The block of `meta_comp_window_dispose` that destroys the damage object:
`if (priv->damage != None) { ...; priv->damage = None; }`. The error trap it
pushes is popped inside the block. -/
def dispose_damage (s : CompState) (self : NodeId) : CompState :=
  if (s.heap self).priv.damage ≠ None then
    s.set_priv self { (s.heap self).priv with damage := None }
  else s

/-- The function `meta_comp_window_dispose`. The parent class's `dispose`
releases Clutter resources only. -/
def meta_comp_window_dispose (s : CompState) (self : NodeId) : Option CompState :=
  if (s.heap self).priv.disposed then some s
  else
    let s1 := s.set_priv self { (s.heap self).priv with disposed := true }
    let s2 := dispose_damage (meta_comp_window_detach s1 self) self
    match s2.compositor_data with
    | none => none
    | some info =>
      let priv := (s2.heap self).priv
      let dock := if priv.type = MetaCompWindowType.DOCK then
          g_list_remove info.dock_windows self
        else info.dock_windows
      some (s2.set_info
        { info with
          dock_windows := dock
          windows := g_list_remove info.windows self
          windows_by_xid := g_hash_table_remove info.windows_by_xid priv.xwindow })

/-- The call `clutter_actor_destroy (CLUTTER_ACTOR (cw))`: runs the object's
`dispose`. -/
def clutter_actor_destroy (s : CompState) (cw : NodeId) : Option CompState :=
  meta_comp_window_dispose s cw

/-- The function `destroy_win`. -/
def destroy_win (s : CompState) (xwindow : Window) : Option CompState :=
  match find_window_in_display s xwindow with
  | none => some s
  | some cw => clutter_actor_destroy s cw

/-- The `for` loop of `restack_win`: position of the first cell whose node has
handle `above`. -/
def find_above (s : CompState) (above : Window) : List NodeId → Option Nat
  | [] => none
  | cw2 :: rest =>
    if (s.heap cw2).priv.xwindow = above then some 0
    else (find_above s above rest).map (· + 1)

/-- The function `restack_win`. -/
def restack_win (s : CompState) (cw : NodeId) (above : Window) : Option CompState :=
  match s.compositor_data with
  | none => none
  | some info =>
    let sibling := g_list_find info.windows cw
    let previous_above : Window :=
      match g_list_next_data info.windows sibling with
      | some ncw => (s.heap ncw).priv.xwindow
      | none => None
    if above = None then
      some (s.set_info
        { info with windows := g_list_append (g_list_delete_link info.windows sibling) cw })
    else if previous_above ≠ above then
      match find_above s above info.windows with
      | none => some s
      | some index =>
        match link_after_delete index sibling with
        | none => none
        | some index1 =>
          some (s.set_info
            { info with windows :=
                g_list_insert_before (g_list_delete_link info.windows sibling) index1 cw })
    else some s

/-- The function `resize_win`. -/
def resize_win (s : CompState) (cw : NodeId) (x y width height border_width : Int)
    (override_redirect : Bool) : CompState :=
  let priv := (s.heap cw).priv
  let s1 := s.set_priv cw { priv with attrs := { priv.attrs with x := x, y := y } }
  let s2 := s1.set_actor cw { (s1.heap cw).parent with x := x, y := y }
  let s3 := if (s2.heap cw).priv.attrs.width ≠ width ∨ (s2.heap cw).priv.attrs.height ≠ height then
      meta_comp_window_detach s2 cw
    else s2
  let priv3 := (s3.heap cw).priv
  s3.set_priv cw
    { priv3 with attrs :=
        { priv3.attrs with
          width := width
          height := height
          border_width := border_width
          override_redirect := override_redirect } }

/-- The function `unmap_win`. -/
def unmap_win (s : CompState) (id : Window) : CompState :=
  match find_window_for_screen s id, s.compositor_data with
  | some cw, some info =>
    let priv := (s.heap cw).priv
    let s1 := if priv.window.isSome ∧ priv.window = info.focus_window then
        s.set_info { info with focus_window := none }
      else s
    let s2 := s1.set_priv cw
      { (s1.heap cw).priv with attrs := { (s1.heap cw).priv.attrs with map_state := MapState.IsUnmapped } }
    let s3 := meta_comp_window_detach s2 cw
    if ¬ (s3.heap cw).priv.minimize_in_progress then
      s3.set_actor cw { (s3.heap cw).parent with visible := false }
    else s3
  | _, _ => s

/-- The call `meta_error_trap_push`. -/
def meta_error_trap_push (s : CompState) : CompState :=
  { s with trap_depth := s.trap_depth + 1 }

/-- The call `meta_error_trap_pop`. -/
def meta_error_trap_pop (s : CompState) : CompState :=
  { s with trap_depth := s.trap_depth - 1 }

/-- The part of `repair_win` after the backing pixmap is known to be bound:
the texture update and the closing `meta_error_trap_pop`. `updates` of the
texture counts the calls of `clutter_x11_texture_pixmap_update_area`. -/
def repair_win_update (env : Env) (s : CompState) (cw : NodeId) : CompState :=
  let p := (s.heap cw).priv
  let count : Nat :=
    if env.using_extension then 1
    else
      match env.XFixesFetchRegionAndBounds p.damage with
      | some r_count => r_count
      | none => 0
  meta_error_trap_pop
    (s.set_priv cw { p with actor := { p.actor with updates := p.actor.updates + count } })

/-- The function `repair_win`. -/
def repair_win (env : Env) (s : CompState) (cw : NodeId) : Option CompState :=
  match s.compositor_data with
  | none => none
  | some _ =>
    let xwindow := (s.heap cw).priv.xwindow
    if xwindow = s.xroot ∨ xwindow = env.stage_window then some s
    else
      let s1 := meta_error_trap_push s
      if (s1.heap cw).priv.back_pixmap = None then
        let pixmap := env.XCompositeNameWindowPixmap xwindow
        let s2 := s1.set_priv cw { (s1.heap cw).priv with back_pixmap := pixmap }
        if pixmap = None then some s2
        else
          let size := env.pixmap_size pixmap
          let p := (s2.heap cw).priv
          let s3 := s2.set_priv cw
            { p with
              actor := { p.actor with pixmap := pixmap, width := size.1, height := size.2 }
              shadow := p.shadow.map (fun sh => { sh with width := size.1, height := size.2 }) }
          some (repair_win_update env s3 cw)
      else some (repair_win_update env s1 cw)

/-- The function `process_destroy`. -/
def process_destroy (s : CompState) (window : Window) : Option CompState :=
  destroy_win s window

/-- The function `process_create`. -/
def process_create (env : Env) (s : CompState) (window : Option MetaWindow)
    (event_window event_parent : Window) : Option CompState :=
  if event_parent = s.xroot then
    if (find_window_in_display s event_window).isNone then
      some (add_win env s window event_window)
    else some s
  else some s

/-- The function `process_reparent`. -/
def process_reparent (env : Env) (s : CompState) (window : Option MetaWindow)
    (event_window event_parent : Window) : Option CompState :=
  if event_parent = s.xroot then some (add_win env s window event_window)
  else destroy_win s event_window

/-- The call `XCheckTypedWindowEvent (dpy, w, DestroyNotify, &next)`: the first
queued `DestroyNotify` reported to `w` is taken out of the queue. The result is
the destroyed window of that event and the remaining queue. -/
def XCheckTypedWindowEvent_DestroyNotify (w : Window) : List XEvent → Option (Window × List XEvent)
  | [] => none
  | XEvent.DestroyNotify event window :: rest =>
    if event = w then some (window, rest)
    else
      (XCheckTypedWindowEvent_DestroyNotify w rest).map
        (fun r => (r.1, XEvent.DestroyNotify event window :: r.2))
  | e :: rest =>
    (XCheckTypedWindowEvent_DestroyNotify w rest).map (fun r => (r.1, e :: r.2))

/-- The function `process_damage`. -/
def process_damage (env : Env) (s : CompState) (drawable : Window) : Option CompState :=
  match find_window_in_display s drawable with
  | none => some s
  | some cw =>
    if (s.heap cw).priv.destroy_pending then some s
    else
      match XCheckTypedWindowEvent_DestroyNotify drawable s.queue with
      | some (next_window, rest) =>
        let s1 := s.set_queue rest
        let s2 := s1.set_priv cw { (s1.heap cw).priv with destroy_pending := true }
        process_destroy s2 next_window
      | none => repair_win env s cw

/-- The function `process_configure_notify`. Resizing the stage changes no
modelled data. -/
def process_configure_notify (s : CompState) (window above : Window)
    (x y width height border_width : Int) (override_redirect : Bool) : Option CompState :=
  match find_window_in_display s window with
  | some cw =>
    (restack_win s cw above).map
      (fun s1 => resize_win s1 cw x y width height border_width override_redirect)
  | none =>
    if window = s.xroot then
      match s.compositor_data with
      | none => none
      | some _ => some s
    else some s

/-- The function `process_circulate_notify`. -/
def process_circulate_notify (s : CompState) (window : Window) (place : Place) :
    Option CompState :=
  match find_window_in_display s window with
  | none => some s
  | some cw =>
    match s.compositor_data with
    | none => none
    | some info =>
      match info.windows with
      | [] => none
      | top :: _ =>
        let above := if place = Place.PlaceOnTop then (s.heap top).priv.xwindow else None
        restack_win s cw above

/-- The function `process_unmap`. -/
def process_unmap (s : CompState) (xwin : Window) (from_configure : Bool) : Option CompState :=
  if from_configure then some s
  else
    match find_window_in_display s xwin with
    | none => some s
    | some cw =>
      if (s.heap cw).priv.destroy_pending then some s
      else
        match XCheckTypedWindowEvent_DestroyNotify xwin s.queue with
        | some (next_window, rest) =>
          let s1 := s.set_queue rest
          let s2 := s1.set_priv cw { (s1.heap cw).priv with destroy_pending := true }
          process_destroy s2 next_window
        | none => some (unmap_win s xwin)

/-- The function `process_map`. -/
def process_map (s : CompState) (window : Window) : Option CompState :=
  match find_window_in_display s window with
  | none => some s
  | some _ => some (map_win s window)

/-- Number of low bits a conversion to `gfloat` rounds away: how often the
value is halved until it fits the 24-bit significand (at most 40 times for a
64-bit `gulong`). -/
def excess_bits : Nat → Nat → Nat
  | 0, _ => 0
  | fuel + 1, v => if v < 2 ^ 24 then 0 else excess_bits fuel (v / 2) + 1

/-- The conversion `(gfloat) value` of an unsigned integer: the nearest number
with a 24-bit significand, ties to the even significand. -/
def gfloat_of_gulong (value : Nat) : Nat :=
  let e := excess_bits 64 value
  if e = 0 then value
  else
    let q := value / 2 ^ e
    let r := value % 2 ^ e
    let half := 2 ^ (e - 1)
    let q1 := if half < r ∨ (r = half ∧ q % 2 = 1) then q + 1 else q
    q1 * 2 ^ e

/-- The expression `(guint8)((gfloat)value * 255.0 / ((gfloat)0xffffffff))`.
The product and the quotient are formed in double precision and are exact; the
divisor `(gfloat)0xffffffff` is `2 ^ 32`; the conversion to `guint8` drops the
fraction and keeps the low eight bits. -/
def opacity_of_cardinal (value : Nat) : Nat :=
  (gfloat_of_gulong value * 255 / gfloat_of_gulong 0xffffffff) % 2 ^ 8

/-- The function `process_property_notify`. `meta_prop_get_cardinal` answers
with its return value and the content of `value` after the call. -/
def process_property_notify (env : Env) (s : CompState) (window : Window) (atom : Atom) :
    Option CompState :=
  if atom = Atom.NET_WM_WINDOW_OPACITY then
    let found :=
      match find_window_in_display s window with
      | some cw => some cw
      | none => find_window_for_child_window_in_display env s window
    match found with
    | none => some s
    | some cw =>
      if (env.meta_prop_get_cardinal window).1 = false then
        let opacity := opacity_of_cardinal (env.meta_prop_get_cardinal window).2
        let s1 := s.set_priv cw { (s.heap cw).priv with opacity := opacity }
        some (s1.set_actor cw { (s1.heap cw).parent with opacity := opacity })
      else some s
  else if atom = Atom.NET_WM_WINDOW_TYPE then
    match find_window_in_display s window with
    | none => some s
    | some cw => some (s.set_priv cw (meta_comp_window_get_window_type env (s.heap cw).priv))
  else some s

/-- The function `clutter_cmp_manage_screen`. -/
def clutter_cmp_manage_screen (env : Env) (s : CompState) : CompState :=
  if s.compositor_data.isSome then s
  else if env.XCompositeRedirect_error then s
  else
    s.set_info
      { windows := []
        windows_by_xid := g_hash_table_new
        focus_window := env.meta_display_get_focus_window
        output := env.XCompositeGetOverlayWindow
        dock_windows := [] }

/-- The function `clutter_cmp_add_window`. -/
def clutter_cmp_add_window (env : Env) (s : CompState) (window : Option MetaWindow)
    (xwindow : Window) : CompState :=
  meta_error_trap_pop (add_win env (meta_error_trap_push s) window xwindow)

/-- The function `clutter_cmp_process_event`. -/
def clutter_cmp_process_event (env : Env) (s : CompState) (event : XEvent)
    (window : Option MetaWindow) : Option CompState :=
  let s0 := meta_error_trap_push s
  let handled : Option CompState :=
    match event with
    | XEvent.CirculateNotify w place => process_circulate_notify s0 w place
    | XEvent.ConfigureNotify w above x y width height border_width override_redirect =>
      process_configure_notify s0 w above x y width height border_width override_redirect
    | XEvent.PropertyNotify w atom => process_property_notify env s0 w atom
    | XEvent.Expose => some s0
    | XEvent.UnmapNotify w from_configure => process_unmap s0 w from_configure
    | XEvent.MapNotify w => process_map s0 w
    | XEvent.ReparentNotify w parent => process_reparent env s0 window w parent
    | XEvent.CreateNotify w parent => process_create env s0 window w parent
    | XEvent.DestroyNotify _ w => process_destroy s0 w
    | XEvent.DamageNotify drawable => process_damage env s0 drawable
    | XEvent.other _ => some s0
  handled.map meta_error_trap_pop

/-- The window a logical window is looked up under in `clutter_cmp_destroy_window`
and `clutter_cmp_minimize_window`: its frame's window when it has a frame. -/
def frame_or_xwindow (env : Env) (window : MetaWindow) : Window :=
  match env.meta_window_get_frame window with
  | some f => f
  | none => env.meta_window_get_xwindow window

/-- The function `clutter_cmp_destroy_window`. -/
def clutter_cmp_destroy_window (env : Env) (s : CompState) (window : MetaWindow) : CompState :=
  match find_window_for_screen s (frame_or_xwindow env window), s.compositor_data with
  | some cw, some info =>
    let s1 := s.set_info
      { info with
        windows := g_list_remove info.windows cw
        windows_by_xid := g_hash_table_remove info.windows_by_xid (frame_or_xwindow env window) }
    let s2 := s1.set_actor cw { (s1.heap cw).parent with anchor := ClutterGravity.CENTER }
    s2.set_effects (s2.effects ++
        [Effect.fade EffectTemplate.destroy_effect cw 0
            (some EffectCallback.on_destroy_effect_complete),
         Effect.scale EffectTemplate.destroy_effect cw 1 0 none])
  | _, _ => s

/-- The function `on_destroy_effect_complete`. -/
def on_destroy_effect_complete (s : CompState) (actor : NodeId) : Option CompState :=
  clutter_actor_destroy s actor

/-- The function `on_minimize_effect_complete`. -/
def on_minimize_effect_complete (s : CompState) (cw : NodeId) : CompState :=
  s.set_actor cw
    { (s.heap cw).parent with
      visible := false
      opacity := (s.heap cw).priv.opacity
      scale_x := 1
      scale_y := 1
      anchor := ClutterGravity.NORTH_WEST }

/-- The function `clutter_cmp_minimize_window`. -/
def clutter_cmp_minimize_window (env : Env) (s : CompState) (window : MetaWindow) : CompState :=
  match find_window_for_screen s (frame_or_xwindow env window) with
  | none => s
  | some cw =>
    let s1 := s.set_priv cw { (s.heap cw).priv with minimize_in_progress := true }
    let s2 := s1.set_actor cw { (s1.heap cw).parent with anchor := ClutterGravity.SOUTH_WEST }
    s2.set_effects (s2.effects ++
        [Effect.fade EffectTemplate.minimize_effect cw 0
            (some EffectCallback.on_minimize_effect_complete),
         Effect.scale EffectTemplate.minimize_effect cw 0 0 none])

/-- Run a completion callback on the node it was registered with. -/
def run_callback (s : CompState) (cw : NodeId) : Option EffectCallback → Option CompState
  | none => some s
  | some EffectCallback.on_destroy_effect_complete => on_destroy_effect_complete s cw
  | some EffectCallback.on_minimize_effect_complete => some (on_minimize_effect_complete s cw)

/-- Clutter completes the running effect at position `i`: the animated property
takes its end value, the timeline is dropped and the callback runs. -/
def effect_complete (s : CompState) (i : Nat) : Option CompState :=
  match s.effects.get? i with
  | none => some s
  | some (Effect.fade _ cw opacity_end callback) =>
    let s1 := s.set_effects (s.effects.eraseIdx i)
    run_callback (s1.set_actor cw { (s1.heap cw).parent with opacity := opacity_end })
      cw callback
  | some (Effect.scale _ cw x_end y_end callback) =>
    let s1 := s.set_effects (s.effects.eraseIdx i)
    run_callback
      (s1.set_actor cw { (s1.heap cw).parent with scale_x := x_end, scale_y := y_end })
      cw callback

/-! ## Runs -/

/-- One object of the zero-filled heap. -/
def blank_object : MetaCompWindow :=
  { parent :=
      { visible := false, opacity := 0, x := 0, y := 0, scale_x := 0, scale_y := 0
        anchor := ClutterGravity.NORTH_WEST }
    priv :=
      { attrs :=
          { x := 0, y := 0, width := 0, height := 0, border_width := 0
            override_redirect := false, map_state := MapState.IsUnmapped
            window_class := WindowClass.InputOutput, visual := 0 }
        window := none
        xwindow := None
        actor := { pixmap := None, width := 0, height := 0, updates := 0 }
        shadow := none
        back_pixmap := None
        type := MetaCompWindowType.NORMAL
        damage := None
        opacity := 0
        needs_shadow := false
        shaped := false
        destroy_pending := false
        argb32 := false
        minimize_in_progress := false
        disposed := false } }

/-- The state when the compositor is created for a display whose screen has
root window `xroot`: nothing allocated, the screen not yet managed. -/
def CompState.start (xroot : Window) : CompState :=
  { heap := fun _ => blank_object
    next_alloc := 0
    compositor_data := none
    xroot := xroot
    queue := []
    trap_depth := 0
    effects := [] }

/-- Operations of the window registry. -/
inductive RegistryOp where
  | register (env : Env) (window : Option MetaWindow) (xwindow : Window)
  | remove (cw : NodeId)
  | restack (cw : NodeId) (above : Window)

/-- One registry operation. -/
def RegistryOp.apply (s : CompState) : RegistryOp → Option CompState
  | .register env window xwindow => some (add_win env s window xwindow)
  | .remove cw => meta_comp_window_dispose s cw
  | .restack cw above => restack_win s cw above

/-- A sequence of registry operations, in order. -/
def run_ops (s : CompState) : List RegistryOp → Option CompState
  | [] => some s
  | op :: rest => (op.apply s).bind (fun s1 => run_ops s1 rest)

/-- A sequence of dispatched events, each with the environment's answers at
that time and the logical window the host passes along. -/
def run_events (s : CompState) : List (Env × XEvent × Option MetaWindow) → Option CompState
  | [] => some s
  | (env, event, window) :: rest =>
    (clutter_cmp_process_event env s event window).bind (fun s1 => run_events s1 rest)

/-- Attributes of an unmapped 1x1 input-output window at the origin. -/
def XWindowAttributes.unmapped : XWindowAttributes :=
  { x := 0, y := 0, width := 1, height := 1, border_width := 0
    override_redirect := false, map_state := MapState.IsUnmapped
    window_class := WindowClass.InputOutput, visual := 0 }

/-- An environment in which every window exists as an unmapped input-output
window of an opaque visual, carries no type hint and no logical-window data,
reading the opacity property succeeds with value 0, and no request fails. -/
def Env.quiet : Env :=
  { XGetWindowAttributes := fun _ => some XWindowAttributes.unmapped
    window_type_atoms := fun _ => []
    meta_display_has_shape := false
    bounding_shaped := fun _ => false
    XDamageCreate := fun w => w + 1
    visual_has_alpha := fun _ => false
    meta_window_get_type_atom := fun _ => Atom.None
    meta_window_get_type := fun _ => MetaWindowType.NORMAL
    meta_window_get_frame := fun _ => none
    meta_window_get_xwindow := fun w => w
    meta_prop_get_cardinal := fun _ => (true, 0)
    XQueryTree_parent := fun _ => None
    XCompositeNameWindowPixmap := fun w => w + 1
    pixmap_size := fun _ => (1, 1)
    XFixesFetchRegionAndBounds := fun _ => some 0
    stage_window := 2
    using_extension := true
    XCompositeRedirect_error := false
    XCompositeGetOverlayWindow := 3
    meta_display_get_focus_window := none }

/-- The environment `Env.quiet` in which every window is viewable. -/
def Env.viewable : Env :=
  { Env.quiet with
    XGetWindowAttributes := fun _ =>
      some { XWindowAttributes.unmapped with map_state := MapState.IsViewable } }

/-- The registry of root window 1 right after `clutter_cmp_manage_screen`
succeeded: managed, nothing tracked, overlay window 3. -/
def CompState.managed : CompState :=
  clutter_cmp_manage_screen Env.quiet (CompState.start 1)

/-- States the compositor can be in: from the start state, the host calls the
entry points `manage_screen`, `add_window`, `process_event`, `destroy_window`
and `minimize_window`, the X server queues events, and Clutter completes
running effects. -/
inductive Reachable : CompState → Prop where
  | start (xroot : Window) : Reachable (CompState.start xroot)
  | enqueue {s : CompState} (q : List XEvent) : Reachable s → Reachable (s.set_queue q)
  | manage_screen {s : CompState} (env : Env) :
      Reachable s → Reachable (clutter_cmp_manage_screen env s)
  | add_window {s : CompState} (env : Env) (window : Option MetaWindow) (xwindow : Window) :
      Reachable s → Reachable (clutter_cmp_add_window env s window xwindow)
  | process_event {s s1 : CompState} (env : Env) (event : XEvent) (window : Option MetaWindow) :
      Reachable s → clutter_cmp_process_event env s event window = some s1 → Reachable s1
  | destroy_window {s : CompState} (env : Env) (window : MetaWindow) :
      Reachable s → Reachable (clutter_cmp_destroy_window env s window)
  | minimize_window {s : CompState} (env : Env) (window : MetaWindow) :
      Reachable s → Reachable (clutter_cmp_minimize_window env s window)
  | effect_complete {s s1 : CompState} (i : Nat) :
      Reachable s → effect_complete s i = some s1 → Reachable s1

/-- The registry of a state; the empty registry of an unmanaged screen. -/
def CompState.registry (s : CompState) : MetaCompScreen :=
  match s.compositor_data with
  | some info => info
  | none =>
    { windows := [], windows_by_xid := g_hash_table_new, focus_window := none
      output := None, dock_windows := [] }

/-- The managed screen after the host added windows 10, 11 and 12 in this
order: nodes 0, 1 and 2, node 2 on top. -/
def CompState.three_windows : CompState :=
  clutter_cmp_add_window Env.quiet
    (clutter_cmp_add_window Env.quiet
      (clutter_cmp_add_window Env.quiet CompState.managed none 10) none 11) none 12

/-- The environment `Env.quiet` with the given type hints on every window. -/
def Env.with_type_atoms (atoms : List Atom) : Env :=
  { Env.quiet with window_type_atoms := fun _ => atoms }

/-- The environment `Env.quiet` in which reading the opacity property of any
window succeeds with value `v`. -/
def Env.with_opacity (v : Nat) : Env :=
  { Env.quiet with meta_prop_get_cardinal := fun _ => (true, v) }

/-- The managed screen after window 7 was registered twice. -/
def CompState.registered_twice : Option CompState :=
  run_ops CompState.managed
    [RegistryOp.register Env.quiet none 7, RegistryOp.register Env.quiet none 7]

/-- The managed screen (root window 1) after a `CreateNotify` for window 7 under
the root and a `ReparentNotify` of window 7 to the root. -/
def CompState.reparented_tracked : Option CompState :=
  run_events CompState.managed
    [(Env.quiet, XEvent.CreateNotify 7 1, none), (Env.quiet, XEvent.ReparentNotify 7 1, none)]

/-- The managed screen after window 7 was created with the Dock type hint and
its type hint then changed to Normal. -/
def CompState.dock_retyped : Option CompState :=
  run_events CompState.managed
    [(Env.with_type_atoms [Atom.NET_WM_WINDOW_TYPE_DOCK], XEvent.CreateNotify 7 1, none),
     (Env.with_type_atoms [Atom.NET_WM_WINDOW_TYPE_NORMAL],
        XEvent.PropertyNotify 7 Atom.NET_WM_WINDOW_TYPE, none)]

/-- The managed screen after window 7 was created without type hint and its
type hint then changed to Dock. -/
def CompState.normal_retyped : Option CompState :=
  run_events CompState.managed
    [(Env.quiet, XEvent.CreateNotify 7 1, none),
     (Env.with_type_atoms [Atom.NET_WM_WINDOW_TYPE_DOCK],
        XEvent.PropertyNotify 7 Atom.NET_WM_WINDOW_TYPE, none)]

/-- No node of the order sequence and no node the handle map points to has the
overlay window as its handle. -/
def overlay_excluded (s : CompState) : Prop :=
  ∀ info, s.compositor_data = some info →
    (∀ n ∈ info.windows, (s.heap n).priv.xwindow ≠ info.output) ∧
    (∀ h n, info.windows_by_xid h = some n → (s.heap n).priv.xwindow ≠ info.output)

/-- A transition that keeps every node's handle and the overlay window, adds no
entry to the handle map, and adds to the order sequence at most nodes the handle
map pointed to. -/
def narrows (s s1 : CompState) : Prop :=
  (∀ k, (s1.heap k).priv.xwindow = (s.heap k).priv.xwindow) ∧
  ∀ info1, s1.compositor_data = some info1 →
    ∃ info, s.compositor_data = some info ∧ info1.output = info.output ∧
      (∀ n ∈ info1.windows, n ∈ info.windows ∨ ∃ h, info.windows_by_xid h = some n) ∧
      (∀ h n, info1.windows_by_xid h = some n → info.windows_by_xid h = some n)

/-- The registry is consistent: the order sequence holds each node once, its
nodes are allocated and not disposed, the handle map sends the handle of each
node of the sequence to that node, and every entry of the handle map is the
handle of a node of the sequence. -/
def consistent (s : CompState) : Prop :=
  ∀ info, s.compositor_data = some info →
    info.windows.Nodup ∧
    (∀ n ∈ info.windows, n < s.next_alloc ∧ (s.heap n).priv.disposed = false ∧
      info.windows_by_xid (s.heap n).priv.xwindow = some n) ∧
    (∀ h n, info.windows_by_xid h = some n → n ∈ info.windows ∧ (s.heap n).priv.xwindow = h)

/-- A registry operation as the dispatcher issues it: a registration is for a
handle that is not tracked, a removal or a restack is for a node of the order
sequence. -/
def RegistryOp.guarded (s : CompState) : RegistryOp → Prop
  | .register _ _ xwindow => find_window_for_screen s xwindow = none
  | .remove cw => ∃ info, s.compositor_data = some info ∧ cw ∈ info.windows
  | .restack cw _ => ∃ info, s.compositor_data = some info ∧ cw ∈ info.windows

/-- Every operation of the sequence is guarded in the state it is applied to. -/
def guarded_run (s : CompState) : List RegistryOp → Prop
  | [] => True
  | op :: rest => op.guarded s ∧ ∀ s1, op.apply s = some s1 → guarded_run s1 rest

/-- The environment `Env.quiet` in which reading the opacity property of any
window fails and leaves `v` in `value`. -/
def Env.opacity_unreadable (v : Nat) : Env :=
  { Env.quiet with meta_prop_get_cardinal := fun _ => (false, v) }

/-- The scaling `value * 255 / 0xFFFFFFFF` in exact arithmetic, the fraction
dropped as the conversion to `guint8` drops it. -/
def opacity_exact (value : Nat) : Nat :=
  value * 255 / 0xffffffff

/-- Whether the node has a logical window that has a frame. -/
def has_frame (env : Env) (priv : MetaCompWindowPrivate) : Bool :=
  match priv.window with
  | some w => (env.meta_window_get_frame w).isSome
  | none => false

/-- The shadow rules of the specification as (condition, result) pairs, in the
order they are tried. -/
def shadow_rules (alpha : Bool) (opacity : Nat) (override_redirect framed shaped : Bool)
    (type : MetaCompWindowType) : List (Bool × Bool) :=
  [(alpha || decide (opacity ≠ 255), false),
   (override_redirect, true),
   (framed, true),
   (shaped, false),
   (decide (type = MetaCompWindowType.DESKTOP) || decide (type = MetaCompWindowType.DND), false),
   (decide (type = MetaCompWindowType.MENU), true)]

/-- Result of the first rule whose condition holds, `false` when none does. -/
def first_matching_rule (rules : List (Bool × Bool)) : Bool :=
  match rules.find? (fun r => r.1) with
  | some r => r.2
  | none => false

/-- A freshly initialised private part for an unmanaged, unmapped window with
handle 7, the base of the representative shadow inputs. -/
def MetaCompWindowPrivate.plain : MetaCompWindowPrivate :=
  meta_comp_window_init none 7 XWindowAttributes.unmapped

/-- The environment `Env.quiet` in which every logical window has the frame
window 8. -/
def Env.framed : Env :=
  { Env.quiet with meta_window_get_frame := fun _ => some 8 }

/-- The three-window registry with a `DestroyNotify` of window 10, reported to
window 10 itself, at the head of the pending queue. -/
def CompState.destroy_queued : CompState :=
  CompState.three_windows.set_queue [XEvent.DestroyNotify 10 10, XEvent.MapNotify 11]

/-- The state after the dispatcher handled a `DamageNotify` for window 10 in
`CompState.destroy_queued`. -/
def CompState.destroy_coalesced : CompState :=
  (clutter_cmp_process_event Env.quiet CompState.destroy_queued (XEvent.DamageNotify 10)
    none).getD CompState.destroy_queued

/-- The environment `Env.quiet` in which every logical window is an unframed
window with X window 7 whose cached type is `type`, its type atom being set. -/
def Env.managed (type : MetaWindowType) : Env :=
  { Env.quiet with
    meta_window_get_type_atom := fun _ => Atom.NET_WM_WINDOW_TYPE
    meta_window_get_type := fun _ => type
    meta_window_get_xwindow := fun _ => 7 }

/-- The managed screen after the host added the logical window 5 (X window 7,
cached type Dock) and the window's type then changed to Normal. -/
def CompState.managed_dock_retyped : Option CompState :=
  clutter_cmp_process_event (Env.managed MetaWindowType.NORMAL)
    (clutter_cmp_add_window (Env.managed MetaWindowType.DOCK) CompState.managed (some 5) 7)
    (XEvent.PropertyNotify 7 Atom.NET_WM_WINDOW_TYPE) (some 5)

/-- The state `CompState.managed_dock_retyped` after `clutter_cmp_destroy_window`
for the logical window 5. -/
def CompState.dock_destroy_started : Option CompState :=
  CompState.managed_dock_retyped.map
    (fun s => clutter_cmp_destroy_window (Env.managed MetaWindowType.NORMAL) s 5)

/-- The environment `Env.quiet` in which no window pixmap can be named. -/
def Env.pixmap_unavailable : Env :=
  { Env.quiet with XCompositeNameWindowPixmap := fun _ => None }

/-- The environment `Env.quiet` in which every window is override-redirect and
window pixmaps are 640 by 480. -/
def Env.menus : Env :=
  { Env.quiet with
    XGetWindowAttributes := fun _ =>
      some { XWindowAttributes.unmapped with override_redirect := true }
    pixmap_size := fun _ => (640, 480) }

/-- The managed screen after the override-redirect window 10 was added: node 0,
which has a shadow. -/
def CompState.one_menu : CompState :=
  clutter_cmp_add_window Env.menus CompState.managed none 10

/-- The environment `Env.quiet` in which every logical window has the cached
type Dock while its type atom is `None`, and every X window carries the type
hints `atoms`. -/
def Env.type_atom_unset (atoms : List Atom) : Env :=
  { Env.quiet with
    meta_window_get_type := fun _ => MetaWindowType.DOCK
    window_type_atoms := fun _ => atoms }

/-- The fixed atom-to-classification table of the specification: the
classification a recognised type hint stands for, `none` for an atom the table
does not hold. -/
def type_hint_table : Atom → Option MetaCompWindowType
  | Atom.NET_WM_WINDOW_TYPE_DND => some MetaCompWindowType.DND
  | Atom.NET_WM_WINDOW_TYPE_DESKTOP => some MetaCompWindowType.DESKTOP
  | Atom.NET_WM_WINDOW_TYPE_DOCK => some MetaCompWindowType.DOCK
  | Atom.NET_WM_WINDOW_TYPE_TOOLBAR => some MetaCompWindowType.NORMAL
  | Atom.NET_WM_WINDOW_TYPE_MENU => some MetaCompWindowType.NORMAL
  | Atom.NET_WM_WINDOW_TYPE_DIALOG => some MetaCompWindowType.NORMAL
  | Atom.NET_WM_WINDOW_TYPE_NORMAL => some MetaCompWindowType.NORMAL
  | Atom.NET_WM_WINDOW_TYPE_UTILITY => some MetaCompWindowType.NORMAL
  | Atom.NET_WM_WINDOW_TYPE_SPLASH => some MetaCompWindowType.NORMAL
  | _ => none

/-- Classification a type-hint list stands for in the specification: the table
entry of the first atom of the list that the table recognises, Normal when the
list holds no recognised atom. -/
def first_recognised_hint (atoms : List Atom) : MetaCompWindowType :=
  match atoms.findSome? type_hint_table with
  | some t => t
  | none => MetaCompWindowType.NORMAL

/-- The environment `Env.quiet` in which another compositing manager owns the
screen: redirecting the subwindows of the root raises an X error. -/
def Env.redirect_refused : Env :=
  { Env.quiet with XCompositeRedirect_error := true }

/-- A transition under which destroy-pending is a latch: every allocated node
stays allocated, and a node whose `destroy_pending` flag is set keeps it set. -/
def latches (s s1 : CompState) : Prop :=
  s.next_alloc ≤ s1.next_alloc ∧
  ∀ k, k < s.next_alloc → (s.heap k).priv.destroy_pending = true →
    (s1.heap k).priv.destroy_pending = true

/-- The three-window registry in which node 1 (window 11) has been flagged
destroy-pending: a `DamageNotify` for window 11 was dispatched while a
`DestroyNotify` reported to window 11 for its child window 20 was queued. -/
def CompState.pending_node : CompState :=
  (clutter_cmp_process_event Env.quiet
    (CompState.three_windows.set_queue [XEvent.DestroyNotify 11 20])
    (XEvent.DamageNotify 11) none).getD CompState.three_windows

/-- The three-window registry in which the host has added window 13 for the
logical window 5 (node 3) and the window manager's focus is on that logical
window, node 3 having its backing pixmap bound. -/
def CompState.focused_window : CompState :=
  let s := clutter_cmp_add_window Env.viewable CompState.three_windows (some 5) 13
  (s.set_info { s.registry with focus_window := some 5 }).set_priv 3
    { (s.heap 3).priv with back_pixmap := 14 }

/-- The managed screen after the host added window 2, which is the stage window
of `Env.quiet`: node 0. -/
def CompState.stage_tracked : CompState :=
  clutter_cmp_add_window Env.quiet CompState.managed none 2

/-! ## GLib list facts -/

theorem g_list_delete_link_find (l : List NodeId) (n : NodeId) :
    g_list_delete_link l (g_list_find l n) = l.erase n := by
  induction l with
  | nil => simp [g_list_find, g_list_delete_link]
  | cons d rest ih =>
    by_cases h : d = n
    · subst h
      simp [g_list_find, g_list_delete_link]
    · have hbeq : (d == n) = false := by simpa using h
      cases hf : g_list_find rest n with
      | none =>
        rw [hf] at ih
        simp only [g_list_delete_link] at ih
        simp [g_list_find, h, hf, g_list_delete_link, List.erase_cons, hbeq, ← ih]
      | some i =>
        rw [hf] at ih
        simp only [g_list_delete_link] at ih
        simp [g_list_find, h, hf, g_list_delete_link, List.erase_cons, hbeq, ← ih]

theorem find_above_none (s : CompState) (H : Window) (l : List NodeId)
    (h : ∀ m ∈ l, (s.heap m).priv.xwindow ≠ H) : find_above s H l = none := by
  induction l with
  | nil => rfl
  | cons d rest ih =>
    have hd : (s.heap d).priv.xwindow ≠ H := h d (List.mem_cons_self _ _)
    have hr := ih (fun m hm => h m (List.mem_cons_of_mem _ hm))
    simp [find_above, hd, hr]

theorem filter_ne_erase (l : List NodeId) (n : NodeId) :
    (l.erase n).filter (fun k => decide (k ≠ n)) = l.filter (fun k => decide (k ≠ n)) := by
  induction l with
  | nil => rfl
  | cons d rest ih =>
    by_cases h : d = n
    · subst h
      simp
    · have hbeq : (d == n) = false := by simpa using h
      simp only [decide_not] at ih
      simp [List.erase_cons, hbeq, List.filter_cons, h, ih]

theorem g_list_find_append (A B : List NodeId) (n : NodeId) (h : n ∉ A) :
    g_list_find (A ++ n :: B) n = some A.length := by
  induction A with
  | nil => simp [g_list_find]
  | cons d rest ih =>
    have hd : d ≠ n := fun e => h (e ▸ List.mem_cons_self _ _)
    have hr : n ∉ rest := fun e => h (List.mem_cons_of_mem _ e)
    simp [g_list_find, hd, ih hr]

theorem find_above_append (s : CompState) (H : Window) (C D : List NodeId) (m : NodeId)
    (hC : ∀ c ∈ C, (s.heap c).priv.xwindow ≠ H) (hm : (s.heap m).priv.xwindow = H) :
    find_above s H (C ++ m :: D) = some C.length := by
  induction C with
  | nil => simp [find_above, hm]
  | cons d rest ih =>
    have hd : (s.heap d).priv.xwindow ≠ H := hC d (List.mem_cons_self _ _)
    have hr := ih (fun c hc => hC c (List.mem_cons_of_mem _ hc))
    simp [find_above, hd, hr]

theorem g_list_next_data_append (A B : List NodeId) (n : NodeId) :
    g_list_next_data (A ++ n :: B) (some A.length) = B.head? := by
  induction A with
  | nil => cases B <;> simp [g_list_next_data]
  | cons d rest ih => simpa [g_list_next_data] using ih

theorem g_list_delete_link_append (A B : List NodeId) (n : NodeId) :
    g_list_delete_link (A ++ n :: B) (some A.length) = A ++ B := by
  simp [g_list_delete_link, List.take_left, List.drop_append]

theorem g_list_insert_before_append (A B : List NodeId) (n : NodeId) :
    g_list_insert_before (A ++ B) A.length n = A ++ n :: B := by
  simp [g_list_insert_before, List.take_left, List.drop_left]

theorem next_of_nodup (A B pre post : List NodeId) (n m : NodeId) (hA : n ∉ A) (hB : n ∉ B)
    (h : A ++ n :: B = pre ++ n :: m :: post) : B = m :: post := by
  rcases List.append_eq_append_iff.1 h with ⟨a, hp, ha⟩ | ⟨c, hp, hc⟩
  · cases a with
    | nil => simpa using ha
    | cons x a1 =>
      simp only [List.cons_append, List.cons.injEq] at ha
      exact absurd (by rw [ha.2]; simp) hB
  · cases c with
    | nil => simpa using hc.symm
    | cons x c1 =>
      simp only [List.cons_append, List.cons.injEq] at hc
      exact absurd (by rw [hp, ← hc.1]; simp) hA

theorem distinct_handles (s : CompState) (l : List NodeId)
    (hdist : l.Pairwise (fun a b => (s.heap a).priv.xwindow ≠ (s.heap b).priv.xwindow))
    {a b : NodeId} (ha : a ∈ l) (hb : b ∈ l) (hab : a ≠ b) :
    (s.heap a).priv.xwindow ≠ (s.heap b).priv.xwindow :=
  List.Pairwise.forall (fun _ _ h => Ne.symm h) hdist ha hb hab

theorem nodup_of_distinct_handles (s : CompState) (l : List NodeId)
    (hdist : l.Pairwise (fun a b => (s.heap a).priv.xwindow ≠ (s.heap b).priv.xwindow)) :
    l.Nodup :=
  List.Pairwise.imp (fun h e => h (by rw [e])) hdist

/-! ## Restacking -/

/-- C4: `restack_win (n, None)` on a node of the order sequence returns, and in
the state it returns the order sequence ends in `n`, is a permutation of the
previous sequence, and lists the nodes other than `n` in their previous order. -/
theorem restack_win_bottom (s : CompState) (info : MetaCompScreen) (n : NodeId)
    (hinfo : s.compositor_data = some info) (hn : n ∈ info.windows) :
    ∃ s1 info1, restack_win s n None = some s1 ∧ s1.compositor_data = some info1 ∧
      info1.windows.getLast? = some n ∧
      info1.windows.Perm info.windows ∧
      info1.windows.filter (fun k => decide (k ≠ n)) =
        info.windows.filter (fun k => decide (k ≠ n)) := by
  refine ⟨s.set_info { info with windows := info.windows.erase n ++ [n] },
    { info with windows := info.windows.erase n ++ [n] }, ?_, rfl, ?_, ?_, ?_⟩
  · simp [restack_win, hinfo, CompState.set_info, g_list_append, g_list_delete_link_find]
  · simp
  · exact (List.perm_append_comm.trans (List.perm_cons_erase hn).symm)
  · have hf := filter_ne_erase info.windows n
    simp only [decide_not] at hf
    simp [List.filter_append, hf]

/-- Restacking node 2, the top of the three-window registry, to the bottom. -/
theorem restack_win_bottom_witness :
    CompState.three_windows.compositor_data = some CompState.three_windows.registry ∧
    2 ∈ CompState.three_windows.registry.windows ∧
    ∃ s1 info1, restack_win CompState.three_windows 2 None = some s1 ∧
      s1.compositor_data = some info1 ∧
      info1.windows.getLast? = some 2 ∧
      info1.windows.Perm CompState.three_windows.registry.windows ∧
      info1.windows.filter (fun k => decide (k ≠ 2)) =
        CompState.three_windows.registry.windows.filter (fun k => decide (k ≠ 2)) :=
  ⟨rfl, by decide, restack_win_bottom CompState.three_windows _ 2 rfl (by decide)⟩

/-- C5: for a handle `H` other than `None` that no node of the order sequence
holds, `restack_win (n, H)` returns the state it was given: order sequence,
handle map and every other field are unchanged, for every node `n`. -/
theorem restack_win_untracked_above (s : CompState) (info : MetaCompScreen) (n : NodeId)
    (H : Window) (hinfo : s.compositor_data = some info) (hH : H ≠ None)
    (hun : ∀ m ∈ info.windows, (s.heap m).priv.xwindow ≠ H) :
    restack_win s n H = some s := by
  have hfa := find_above_none s H info.windows hun
  simp only [restack_win, hinfo, hfa, hH, if_false]
  split <;> rfl

/-- Restacking node 1 of the three-window registry above the unknown handle 99. -/
theorem restack_win_untracked_above_witness :
    CompState.three_windows.compositor_data = some CompState.three_windows.registry ∧
    (99 : Window) ≠ None ∧
    (∀ m ∈ CompState.three_windows.registry.windows,
      (CompState.three_windows.heap m).priv.xwindow ≠ 99) ∧
    restack_win CompState.three_windows 1 99 = some CompState.three_windows :=
  ⟨rfl, by decide, by decide,
    restack_win_untracked_above CompState.three_windows _ 1 99 rfl (by decide) (by decide)⟩

/-- C6: in a registry whose nodes have pairwise distinct handles, for a node `n`
of the order sequence and the handle `H` (a window handle, so not `None`) of
another node `m` of the sequence, `restack_win (n, H)` returns; afterwards `n` is
the element immediately before `m`, the sequence is a permutation of the
previous one in which the nodes other than `n` keep their order, and when `m`
already followed `n` immediately the state is the one given. -/
theorem restack_win_above (s : CompState) (info : MetaCompScreen) (n m : NodeId) (H : Window)
    (hinfo : s.compositor_data = some info)
    (hdist : info.windows.Pairwise
      (fun a b => (s.heap a).priv.xwindow ≠ (s.heap b).priv.xwindow))
    (hn : n ∈ info.windows) (hm : m ∈ info.windows) (hmn : m ≠ n)
    (hH : (s.heap m).priv.xwindow = H) (hHne : H ≠ None) :
    ∃ s1 info1, restack_win s n H = some s1 ∧ s1.compositor_data = some info1 ∧
      (∃ pre post, info1.windows = pre ++ n :: m :: post) ∧
      info1.windows.Perm info.windows ∧
      info1.windows.filter (fun k => decide (k ≠ n)) =
        info.windows.filter (fun k => decide (k ≠ n)) ∧
      ((∃ pre post, info.windows = pre ++ n :: m :: post) → s1 = s) := by
  have hnd := nodup_of_distinct_handles s info.windows hdist
  have hother : ∀ c ∈ info.windows, c ≠ m → (s.heap c).priv.xwindow ≠ H := fun c hc hcm =>
    hH ▸ distinct_handles s info.windows hdist hc hm hcm
  obtain ⟨A, B, hl⟩ := List.append_of_mem hn
  have hnA : n ∉ A := by
    intro h
    rw [hl] at hnd
    exact (List.nodup_append.1 hnd).2.2 h (List.mem_cons_self _ _)
  have hnB : n ∉ B := by
    rw [hl] at hnd
    exact (List.nodup_cons.1 (List.nodup_append.1 hnd).2.1).1
  have hfind : g_list_find info.windows n = some A.length := by
    rw [hl]; exact g_list_find_append A B n hnA
  have hnext : g_list_next_data info.windows (some A.length) = B.head? := by
    rw [hl]; exact g_list_next_data_append A B n
  by_cases hB : ∃ B1, B = m :: B1
  · obtain ⟨B1, rfl⟩ := hB
    refine ⟨s, info, ?_, hinfo, ⟨A, B1, hl⟩, List.Perm.refl _, rfl, fun _ => rfl⟩
    simp [restack_win, hinfo, hfind, hnext, hH, hHne]
  · have hprev : (match B.head? with
        | some ncw => (s.heap ncw).priv.xwindow
        | none => None) ≠ H := by
      cases B with
      | nil => exact fun e => hHne e.symm
      | cons b B1 =>
        have hbm : b ≠ m := fun e => hB ⟨B1, by rw [e]⟩
        exact hother b (by rw [hl]; simp) hbm
    have hmem : m ∈ A ∨ m ∈ B := by
      rw [hl] at hm
      simpa [hmn] using hm
    rcases hmem with hmA | hmB
    · obtain ⟨C, A2, rfl⟩ := List.append_of_mem hmA
      have hC : ∀ c ∈ C, (s.heap c).priv.xwindow ≠ H := by
        intro c hc
        refine hother c (by rw [hl]; simp [hc]) ?_
        rintro rfl
        rw [hl] at hnd
        have h1 := (List.nodup_append.1 hnd).1
        exact (List.nodup_append.1 h1).2.2 hc (List.mem_cons_self _ _)
      have habove : find_above s H info.windows = some C.length := by
        rw [hl, List.append_assoc, List.cons_append]
        exact find_above_append s H C _ m hC hH
      have hdel : g_list_delete_link info.windows (some (C ++ m :: A2).length) =
          C ++ (m :: A2 ++ B) := by
        rw [hl, g_list_delete_link_append]; simp
      have hlt : C.length < (C ++ m :: A2).length := by simp
      refine ⟨s.set_info { info with windows := C ++ n :: (m :: A2 ++ B) },
        { info with windows := C ++ n :: (m :: A2 ++ B) }, ?_, rfl, ⟨C, A2 ++ B, by simp⟩,
        ?_, ?_, ?_⟩
      · simp only [restack_win, hinfo, hfind, hnext, hHne, if_false, hprev, ne_eq,
          not_false_eq_true, if_true, habove, link_after_delete, hlt, hdel,
          g_list_insert_before_append]
      · rw [hl, List.append_assoc]
        exact List.Perm.append_left C
          (@List.perm_middle _ n (m :: A2) B).symm
      · rw [hl]
        simp [List.filter_append, List.filter_cons, hmn]
      · rintro ⟨pre, post, hpp⟩
        exact absurd ⟨post, next_of_nodup _ B pre post n m hnA hnB (hl ▸ hpp)⟩ hB
    · obtain ⟨B1, D, rfl⟩ := List.append_of_mem hmB
      have hC : ∀ c ∈ A ++ n :: B1, (s.heap c).priv.xwindow ≠ H := by
        intro c hc
        refine hother c (by rw [hl]; simp at hc ⊢; tauto) ?_
        rintro rfl
        rw [hl] at hnd
        have h0 : (A ++ n :: (B1 ++ c :: D)) = (A ++ n :: B1) ++ c :: D := by simp
        rw [h0] at hnd
        exact (List.nodup_append.1 hnd).2.2 hc (List.mem_cons_self _ _)
      have habove : find_above s H info.windows = some (A ++ n :: B1).length := by
        have h0 : (A ++ n :: (B1 ++ m :: D)) = (A ++ n :: B1) ++ m :: D := by simp
        rw [hl, h0]
        exact find_above_append s H _ D m hC hH
      have hdel : g_list_delete_link info.windows (some A.length) = (A ++ B1) ++ m :: D := by
        rw [hl, g_list_delete_link_append]; simp
      have hlink : link_after_delete (A ++ n :: B1).length (some A.length) =
          some (A ++ B1).length := by
        have h1 : ¬ (A ++ n :: B1).length < A.length := by simp
        have h2 : (A ++ n :: B1).length ≠ A.length := by simp
        simp only [link_after_delete, h1, h2, if_false]
        simp
      refine ⟨s.set_info { info with windows := (A ++ B1) ++ n :: m :: D },
        { info with windows := (A ++ B1) ++ n :: m :: D }, ?_, rfl, ⟨A ++ B1, D, rfl⟩,
        ?_, ?_, ?_⟩
      · simp only [restack_win, hinfo, hfind, hnext, hHne, if_false, hprev, ne_eq,
          not_false_eq_true, if_true, habove, hlink, hdel, g_list_insert_before_append]
      · rw [hl]
        simp only [List.append_assoc]
        refine List.Perm.append_left A ?_
        exact @List.perm_middle _ n B1 (m :: D)
      · rw [hl]
        simp [List.filter_append, List.filter_cons, hmn]
      · rintro ⟨pre, post, hpp⟩
        exact absurd ⟨post, next_of_nodup _ _ pre post n m hnA hnB (hl ▸ hpp)⟩ hB

/-- Restacking node 2 of the three-window registry above window 10, held by
node 0. -/
theorem restack_win_above_witness :
    CompState.three_windows.compositor_data = some CompState.three_windows.registry ∧
    CompState.three_windows.registry.windows.Pairwise
      (fun a b => (CompState.three_windows.heap a).priv.xwindow ≠
        (CompState.three_windows.heap b).priv.xwindow) ∧
    2 ∈ CompState.three_windows.registry.windows ∧
    0 ∈ CompState.three_windows.registry.windows ∧ (0 : NodeId) ≠ 2 ∧
    (CompState.three_windows.heap 0).priv.xwindow = 10 ∧ (10 : Window) ≠ None ∧
    ∃ s1 info1, restack_win CompState.three_windows 2 10 = some s1 ∧
      s1.compositor_data = some info1 ∧
      (∃ pre post, info1.windows = pre ++ 2 :: 0 :: post) ∧
      info1.windows.Perm CompState.three_windows.registry.windows ∧
      info1.windows.filter (fun k => decide (k ≠ 2)) =
        CompState.three_windows.registry.windows.filter (fun k => decide (k ≠ 2)) ∧
      ((∃ pre post, CompState.three_windows.registry.windows = pre ++ 2 :: 0 :: post) →
        s1 = CompState.three_windows) :=
  ⟨rfl, by decide, by decide, by decide, by decide, by decide, by decide,
    restack_win_above CompState.three_windows _ 2 0 10 rfl (by decide) (by decide) (by decide)
      (by decide) (by decide) (by decide)⟩

/-! ## Registration -/

theorem get_window_type_xwindow (env : Env) (p : MetaCompWindowPrivate) :
    (meta_comp_window_get_window_type env p).xwindow = p.xwindow := by
  unfold meta_comp_window_get_window_type
  split
  · split <;> rfl
  · rfl

theorem get_window_type_attrs (env : Env) (p : MetaCompWindowPrivate) :
    (meta_comp_window_get_window_type env p).attrs = p.attrs := by
  unfold meta_comp_window_get_window_type
  split
  · split <;> rfl
  · rfl

theorem constructed_xwindow (env : Env) (p : MetaCompWindowPrivate) :
    (meta_comp_window_constructed env p).xwindow = p.xwindow := by
  simp only [meta_comp_window_constructed]
  split_ifs <;> simp [get_window_type_xwindow]

theorem constructed_attrs (env : Env) (p : MetaCompWindowPrivate) :
    (meta_comp_window_constructed env p).attrs = p.attrs := by
  simp only [meta_comp_window_constructed]
  split_ifs <;> simp [get_window_type_attrs]

/-- C7: `add_win` on a managed screen, for a handle `h` other than the overlay
window whose attribute query succeeds, yields the order sequence made of the
newly allocated node followed by the previous sequence; the new node carries
handle `h`, `find_window_for_screen` returns it for `h`, and when the window is
viewable the node has been shown by `map_win`. -/
theorem add_win_prepends (env : Env) (s : CompState) (info : MetaCompScreen)
    (window : Option MetaWindow) (h : Window) (attrs : XWindowAttributes)
    (hinfo : s.compositor_data = some info) (hout : h ≠ info.output)
    (hattrs : env.XGetWindowAttributes h = some attrs) :
    ∃ info1, (add_win env s window h).compositor_data = some info1 ∧
      info1.windows = s.next_alloc :: info.windows ∧
      ((add_win env s window h).heap s.next_alloc).priv.xwindow = h ∧
      find_window_for_screen (add_win env s window h) h = some s.next_alloc ∧
      (attrs.map_state = MapState.IsViewable →
        ((add_win env s window h).heap s.next_alloc).parent.visible = true ∧
        ((add_win env s window h).heap s.next_alloc).priv.attrs.map_state =
          MapState.IsViewable) := by
  by_cases hv : attrs.map_state = MapState.IsViewable
  · simp [add_win, hinfo, hout, hattrs, meta_comp_window_new, constructed_attrs,
      constructed_xwindow, meta_comp_window_init, hv, map_win, find_window_for_screen,
      g_hash_table_lookup, g_hash_table_insert, g_list_prepend, CompState.set_priv,
      CompState.set_actor]
  · simp [add_win, hinfo, hout, hattrs, meta_comp_window_new, constructed_attrs,
      constructed_xwindow, meta_comp_window_init, hv, find_window_for_screen,
      g_hash_table_lookup, g_hash_table_insert, g_list_prepend]

/-- Registering the viewable window 10 on the empty registry. -/
theorem add_win_prepends_witness :
    CompState.managed.compositor_data = some CompState.managed.registry ∧
    (10 : Window) ≠ CompState.managed.registry.output ∧
    Env.viewable.XGetWindowAttributes 10 =
      some { XWindowAttributes.unmapped with map_state := MapState.IsViewable } ∧
    ∃ info1, (add_win Env.viewable CompState.managed none 10).compositor_data = some info1 ∧
      info1.windows = CompState.managed.next_alloc :: CompState.managed.registry.windows ∧
      ((add_win Env.viewable CompState.managed none 10).heap
        CompState.managed.next_alloc).priv.xwindow = 10 ∧
      find_window_for_screen (add_win Env.viewable CompState.managed none 10) 10 =
        some CompState.managed.next_alloc ∧
      (({ XWindowAttributes.unmapped with map_state := MapState.IsViewable } :
          XWindowAttributes).map_state = MapState.IsViewable →
        ((add_win Env.viewable CompState.managed none 10).heap
          CompState.managed.next_alloc).parent.visible = true ∧
        ((add_win Env.viewable CompState.managed none 10).heap
          CompState.managed.next_alloc).priv.attrs.map_state = MapState.IsViewable) :=
  ⟨rfl, by decide, rfl,
    add_win_prepends Env.viewable CompState.managed _ none 10 _ rfl (by decide) rfl⟩

theorem add_win_output (env : Env) (s : CompState) (info : MetaCompScreen)
    (window : Option MetaWindow) (hinfo : s.compositor_data = some info) :
    add_win env s window info.output = s := by
  simp [add_win, hinfo]

/-! ## Self-exclusion of the overlay window -/

theorem narrows_refl (s : CompState) : narrows s s :=
  ⟨fun _ => rfl, fun info h => ⟨info, h, rfl, fun _ hn => Or.inl hn, fun _ _ hm => hm⟩⟩

theorem narrows_trans {s s1 s2 : CompState} (h1 : narrows s s1) (h2 : narrows s1 s2) :
    narrows s s2 := by
  refine ⟨fun k => (h2.1 k).trans (h1.1 k), fun info2 hi2 => ?_⟩
  obtain ⟨info1, hi1, ho1, hw1, hm1⟩ := h2.2 info2 hi2
  obtain ⟨info, hi, ho, hw, hm⟩ := h1.2 info1 hi1
  refine ⟨info, hi, ho1.trans ho, fun n hn => ?_, fun h n hh => hm h n (hm1 h n hh)⟩
  rcases hw1 n hn with hn1 | ⟨h, hh⟩
  · exact hw n hn1
  · exact Or.inr ⟨h, hm h n hh⟩

theorem overlay_excluded_of_narrows {s s1 : CompState} (h : narrows s s1)
    (hs : overlay_excluded s) : overlay_excluded s1 := by
  intro info1 hi1
  obtain ⟨info, hi, ho, hw, hm⟩ := h.2 info1 hi1
  obtain ⟨hsw, hsm⟩ := hs info hi
  refine ⟨fun n hn => ?_, fun x n hx => ?_⟩
  · rw [h.1 n, ho]
    rcases hw n hn with hn1 | ⟨x, hx⟩
    · exact hsw n hn1
    · exact hsm x n hx
  · rw [h.1 n, ho]
    exact hsm x n (hm x n hx)

theorem narrows_eq {s t t1 : CompState} (h : narrows s t) (hh : t1.heap = t.heap)
    (hc : t1.compositor_data = t.compositor_data) : narrows s t1 :=
  narrows_trans h ⟨fun k => by rw [hh], fun info hi =>
    ⟨info, hc ▸ hi, rfl, fun _ hn => Or.inl hn, fun _ _ hm => hm⟩⟩

theorem narrows_set_priv {s t : CompState} (cw : NodeId) (p : MetaCompWindowPrivate)
    (hp : p.xwindow = (t.heap cw).priv.xwindow) (h : narrows s t) :
    narrows s (t.set_priv cw p) := by
  refine narrows_trans h ⟨fun k => ?_, fun info hi =>
    ⟨info, hi, rfl, fun _ hn => Or.inl hn, fun _ _ hm => hm⟩⟩
  by_cases hk : k = cw
  · subst hk; simp [CompState.set_priv, hp]
  · simp [CompState.set_priv, hk]

theorem narrows_set_actor {s t : CompState} (cw : NodeId) (a : ClutterActor)
    (h : narrows s t) : narrows s (t.set_actor cw a) := by
  refine narrows_trans h ⟨fun k => ?_, fun info hi =>
    ⟨info, hi, rfl, fun _ hn => Or.inl hn, fun _ _ hm => hm⟩⟩
  by_cases hk : k = cw
  · subst hk; simp [CompState.set_actor]
  · simp [CompState.set_actor, hk]

theorem narrows_set_info {s t : CompState} (info info1 : MetaCompScreen)
    (hi : t.compositor_data = some info) (ho : info1.output = info.output)
    (hw : ∀ n ∈ info1.windows, n ∈ info.windows ∨ ∃ h, info.windows_by_xid h = some n)
    (hm : ∀ h n, info1.windows_by_xid h = some n → info.windows_by_xid h = some n)
    (h : narrows s t) : narrows s (t.set_info info1) := by
  refine narrows_trans h ⟨fun _ => rfl, fun i hi1 => ?_⟩
  simp only [CompState.set_info, Option.some.injEq] at hi1
  subst hi1
  exact ⟨info, hi, ho, hw, hm⟩

theorem narrows_ite {s a b : CompState} {c : Prop} [Decidable c] (ha : narrows s a)
    (hb : narrows s b) : narrows s (if c then a else b) := by
  split
  · exact ha
  · exact hb

theorem narrows_detach {s t : CompState} (self : NodeId) (h : narrows s t) :
    narrows s (meta_comp_window_detach t self) :=
  narrows_ite (narrows_set_priv self _ rfl h) h

theorem narrows_dispose_damage {s t : CompState} (self : NodeId) (h : narrows s t) :
    narrows s (dispose_damage t self) :=
  narrows_ite (narrows_set_priv self _ rfl h) h

theorem mem_of_mem_g_list_remove {l : List NodeId} {n cw : NodeId}
    (h : n ∈ g_list_remove l cw) : n ∈ l :=
  List.mem_of_mem_erase h

theorem of_g_hash_table_remove {table : Window → Option NodeId} {key h : Window} {n : NodeId}
    (hx : g_hash_table_remove table key h = some n) : table h = some n := by
  simp only [g_hash_table_remove] at hx
  split at hx
  · cases hx
  · exact hx

theorem narrows_dispose {s s1 : CompState} {self : NodeId}
    (h : meta_comp_window_dispose s self = some s1) : narrows s s1 := by
  unfold meta_comp_window_dispose at h
  split at h
  · cases h; exact narrows_refl s
  · have hB : narrows s (dispose_damage (meta_comp_window_detach
        (s.set_priv self { (s.heap self).priv with disposed := true }) self) self) :=
      narrows_dispose_damage self (narrows_detach self (narrows_set_priv self _ rfl (narrows_refl s)))
    dsimp only at h
    split at h
    · cases h
    · rename_i info hcd
      cases h
      exact narrows_set_info info _ hcd rfl (fun n hn => Or.inl (mem_of_mem_g_list_remove hn))
        (fun x n hx => of_g_hash_table_remove hx) hB

theorem narrows_destroy_win {s s1 : CompState} {xwindow : Window}
    (h : destroy_win s xwindow = some s1) : narrows s s1 := by
  unfold destroy_win at h
  split at h
  · cases h; exact narrows_refl s
  · exact narrows_dispose h

theorem mem_g_list_delete_link {l : List NodeId} {link : Option Nat} {n : NodeId}
    (h : n ∈ g_list_delete_link l link) : n ∈ l := by
  cases link with
  | none => exact h
  | some i =>
    simp only [g_list_delete_link, List.mem_append] at h
    rcases h with h | h
    · exact List.mem_of_mem_take h
    · exact List.mem_of_mem_drop h

theorem mem_g_list_insert_before {l : List NodeId} {i : Nat} {cw n : NodeId}
    (h : n ∈ g_list_insert_before l i cw) : n = cw ∨ n ∈ l := by
  simp only [g_list_insert_before, List.mem_append, List.mem_cons] at h
  rcases h with h | h | h
  · exact Or.inr (List.mem_of_mem_take h)
  · exact Or.inl h
  · exact Or.inr (List.mem_of_mem_drop h)

theorem narrows_restack_win {s s1 : CompState} {cw : NodeId} {above : Window}
    (hcw : ∀ info, s.compositor_data = some info →
      cw ∈ info.windows ∨ ∃ h, info.windows_by_xid h = some cw)
    (h : restack_win s cw above = some s1) : narrows s s1 := by
  unfold restack_win at h
  split at h
  · cases h
  · rename_i info hcd
    dsimp only at h
    split at h
    · cases h
      refine narrows_set_info info _ hcd rfl (fun n hn => ?_) (fun _ _ hx => hx) (narrows_refl s)
      simp only [g_list_append, List.mem_append, List.mem_singleton] at hn
      rcases hn with hn | rfl
      · exact Or.inl (mem_g_list_delete_link hn)
      · exact hcw info hcd
    · split at h
      · split at h
        · cases h; exact narrows_refl s
        · split at h
          · cases h
          · cases h
            refine narrows_set_info info _ hcd rfl (fun n hn => ?_) (fun _ _ hx => hx)
              (narrows_refl s)
            rcases mem_g_list_insert_before hn with rfl | hn
            · exact hcw info hcd
            · exact Or.inl (mem_g_list_delete_link hn)
      · cases h; exact narrows_refl s

theorem lookup_tracked {s : CompState} {w : Window} {cw : NodeId}
    (h : find_window_in_display s w = some cw) :
    ∀ info, s.compositor_data = some info →
      cw ∈ info.windows ∨ ∃ h, info.windows_by_xid h = some cw := by
  intro info hi
  simp only [find_window_in_display, find_window_for_screen, hi, g_hash_table_lookup] at h
  exact Or.inr ⟨w, h⟩

theorem narrows_resize_win (s : CompState) (cw : NodeId) (x y width height border_width : Int)
    (override_redirect : Bool) {s0 : CompState} (h : narrows s0 s) :
    narrows s0 (resize_win s cw x y width height border_width override_redirect) := by
  unfold resize_win
  refine narrows_set_priv cw _ rfl (narrows_ite (narrows_detach cw ?_) ?_) <;>
    exact narrows_set_actor cw _ (narrows_set_priv cw _ rfl h)

theorem narrows_map_win (s : CompState) (id : Window) {s0 : CompState} (h : narrows s0 s) :
    narrows s0 (map_win s id) := by
  unfold map_win
  split
  · exact h
  · exact narrows_set_actor _ _ (narrows_set_priv _ _ rfl h)

theorem narrows_unmap_win (s : CompState) (id : Window) {s0 : CompState} (h : narrows s0 s) :
    narrows s0 (unmap_win s id) := by
  unfold unmap_win
  split
  · rename_i cw info _ hcd
    have h1 : narrows s0 (if (s.heap cw).priv.window.isSome ∧
        (s.heap cw).priv.window = info.focus_window then
          s.set_info { info with focus_window := none } else s) :=
      narrows_ite (narrows_set_info info _ hcd rfl (fun _ hn => Or.inl hn) (fun _ _ hx => hx) h) h
    refine narrows_ite (narrows_set_actor cw _ ?_) ?_ <;>
      exact narrows_detach cw (narrows_set_priv cw _ rfl h1)
  · exact h

theorem narrows_set_queue {s t : CompState} (q : List XEvent) (h : narrows s t) :
    narrows s (t.set_queue q) :=
  narrows_eq h rfl rfl

theorem narrows_set_effects {s t : CompState} (l : List Effect) (h : narrows s t) :
    narrows s (t.set_effects l) :=
  narrows_eq h rfl rfl

theorem narrows_trap_push {s t : CompState} (h : narrows s t) :
    narrows s (meta_error_trap_push t) :=
  narrows_eq h rfl rfl

theorem narrows_trap_pop {s t : CompState} (h : narrows s t) :
    narrows s (meta_error_trap_pop t) :=
  narrows_eq h rfl rfl

theorem narrows_repair_win_update (env : Env) (s : CompState) (cw : NodeId) {s0 : CompState}
    (h : narrows s0 s) : narrows s0 (repair_win_update env s cw) := by
  unfold repair_win_update
  exact narrows_trap_pop (narrows_set_priv cw _ rfl h)

theorem narrows_repair_win {env : Env} {s s1 : CompState} {cw : NodeId}
    (h : repair_win env s cw = some s1) : narrows s s1 := by
  unfold repair_win at h
  split at h
  · cases h
  · dsimp only at h
    have hp : narrows s (meta_error_trap_push s) := narrows_trap_push (narrows_refl s)
    split at h
    · cases h; exact narrows_refl s
    · split at h
      · split at h
        · cases h
          exact narrows_set_priv cw _ rfl hp
        · cases h
          exact narrows_repair_win_update env _ cw
            (narrows_set_priv cw _ rfl (narrows_set_priv cw _ rfl hp))
      · cases h
        exact narrows_repair_win_update env _ cw hp

theorem narrows_process_destroy {s s1 : CompState} {window : Window}
    (h : process_destroy s window = some s1) : narrows s s1 :=
  narrows_destroy_win h

theorem narrows_process_damage {env : Env} {s s1 : CompState} {drawable : Window}
    (h : process_damage env s drawable = some s1) : narrows s s1 := by
  unfold process_damage at h
  split at h
  · cases h; exact narrows_refl s
  · split at h
    · cases h; exact narrows_refl s
    · split at h
      · refine narrows_trans ?_ (narrows_process_destroy h)
        exact narrows_set_priv _ _ rfl (narrows_set_queue _ (narrows_refl s))
      · exact narrows_repair_win h

theorem narrows_process_unmap {s s1 : CompState} {xwin : Window} {from_configure : Bool}
    (h : process_unmap s xwin from_configure = some s1) : narrows s s1 := by
  unfold process_unmap at h
  split at h
  · cases h; exact narrows_refl s
  · split at h
    · cases h; exact narrows_refl s
    · split at h
      · cases h; exact narrows_refl s
      · split at h
        · refine narrows_trans ?_ (narrows_process_destroy h)
          exact narrows_set_priv _ _ rfl (narrows_set_queue _ (narrows_refl s))
        · cases h; exact narrows_unmap_win s xwin (narrows_refl s)

theorem narrows_process_configure_notify {s s1 : CompState} {window above : Window}
    {x y width height border_width : Int} {override_redirect : Bool}
    (h : process_configure_notify s window above x y width height border_width
      override_redirect = some s1) : narrows s s1 := by
  unfold process_configure_notify at h
  split at h
  · rename_i cw hcw
    cases hr : restack_win s cw above with
    | none => simp [hr] at h
    | some s2 =>
      simp only [hr, Option.map_some', Option.some.injEq] at h
      subst h
      exact narrows_resize_win s2 cw x y width height border_width override_redirect
        (narrows_restack_win (lookup_tracked hcw) hr)
  · split at h
    · split at h
      · cases h
      · cases h; exact narrows_refl s
    · cases h; exact narrows_refl s

theorem narrows_process_circulate_notify {s s1 : CompState} {window : Window} {place : Place}
    (h : process_circulate_notify s window place = some s1) : narrows s s1 := by
  unfold process_circulate_notify at h
  split at h
  · cases h; exact narrows_refl s
  · rename_i cw hcw
    split at h
    · cases h
    · split at h
      · cases h
      · exact narrows_restack_win (lookup_tracked hcw) h

theorem narrows_process_map {s s1 : CompState} {window : Window}
    (h : process_map s window = some s1) : narrows s s1 := by
  unfold process_map at h
  split at h
  · cases h; exact narrows_refl s
  · cases h; exact narrows_map_win s window (narrows_refl s)

theorem narrows_process_property_notify {env : Env} {s s1 : CompState} {window : Window}
    {atom : Atom} (h : process_property_notify env s window atom = some s1) : narrows s s1 := by
  unfold process_property_notify at h
  split at h
  · dsimp only at h
    split at h
    · cases h; exact narrows_refl s
    · split at h
      · cases h
        exact narrows_set_actor _ _ (narrows_set_priv _ _ rfl (narrows_refl s))
      · cases h; exact narrows_refl s
  · split at h
    · split at h
      · cases h; exact narrows_refl s
      · cases h
        exact narrows_set_priv _ _ (get_window_type_xwindow _ _) (narrows_refl s)
    · cases h; exact narrows_refl s

theorem overlay_excluded_add_win (env : Env) (s : CompState) (window : Option MetaWindow)
    (xwindow : Window) (hs : overlay_excluded s) :
    overlay_excluded (add_win env s window xwindow) := by
  unfold add_win
  split
  · exact hs
  · rename_i info hcd
    split
    · exact hs
    · rename_i hout
      split
      · exact hs
      · rename_i attrs hattrs
        dsimp only
        have hobj : (meta_comp_window_new env window xwindow attrs).priv.xwindow = xwindow := by
          simp [meta_comp_window_new, constructed_xwindow, meta_comp_window_init]
        obtain ⟨hw, hm⟩ := hs info hcd
        refine overlay_excluded_of_narrows (narrows_ite (narrows_map_win _ _ (narrows_refl _))
          (narrows_refl _)) ?_
        intro i hi
        simp only [Option.some.injEq] at hi
        subst hi
        have hheap : ∀ n, (∃ h, info.windows_by_xid h = some n) ∨ n ∈ info.windows ∨
            n = s.next_alloc →
            ((if n = s.next_alloc then
              { meta_comp_window_new env window xwindow attrs with
                parent :=
                  { (meta_comp_window_new env window xwindow attrs).parent with
                    x := (meta_comp_window_new env window xwindow attrs).priv.attrs.x
                    y := (meta_comp_window_new env window xwindow attrs).priv.attrs.y
                    visible := false } }
              else s.heap n : MetaCompWindow).priv.xwindow) ≠ info.output := by
          intro n hn
          by_cases hk : n = s.next_alloc
          · simp only [hk, if_true, hobj]; exact hout
          · simp only [hk, if_false]
            rcases hn with ⟨h, hh⟩ | hn | hn
            · exact hm h n hh
            · exact hw n hn
            · exact absurd hn hk
        refine ⟨fun n hn => hheap n ?_, fun h n hh => hheap n ?_⟩
        · simp only [g_list_prepend, List.mem_cons] at hn
          tauto
        · simp only [g_hash_table_insert] at hh
          split at hh
          · cases hh; exact Or.inr (Or.inr rfl)
          · exact Or.inl ⟨h, hh⟩

theorem overlay_excluded_manage_screen (env : Env) (s : CompState) (hs : overlay_excluded s) :
    overlay_excluded (clutter_cmp_manage_screen env s) := by
  unfold clutter_cmp_manage_screen
  split
  · exact hs
  · split
    · exact hs
    · intro i hi
      simp only [CompState.set_info, Option.some.injEq] at hi
      subst hi
      exact ⟨fun n hn => (by cases hn), fun h n hh => (by simp [g_hash_table_new] at hh)⟩

theorem overlay_excluded_process_event {env : Env} {s s1 : CompState} {event : XEvent}
    {window : Option MetaWindow} (hs : overlay_excluded s)
    (h : clutter_cmp_process_event env s event window = some s1) : overlay_excluded s1 := by
  unfold clutter_cmp_process_event at h
  dsimp only at h
  have hp : overlay_excluded (meta_error_trap_push s) :=
    overlay_excluded_of_narrows (narrows_trap_push (narrows_refl s)) hs
  obtain ⟨s2, h2, rfl⟩ := Option.map_eq_some'.1 h
  refine overlay_excluded_of_narrows (narrows_trap_pop (narrows_refl s2)) ?_
  cases event with
  | CirculateNotify w place =>
    exact overlay_excluded_of_narrows (narrows_process_circulate_notify h2) hp
  | ConfigureNotify w above x y width height border_width override_redirect =>
    exact overlay_excluded_of_narrows (narrows_process_configure_notify h2) hp
  | PropertyNotify w atom =>
    exact overlay_excluded_of_narrows (narrows_process_property_notify h2) hp
  | Expose => cases h2; exact hp
  | UnmapNotify w from_configure =>
    exact overlay_excluded_of_narrows (narrows_process_unmap h2) hp
  | MapNotify w => exact overlay_excluded_of_narrows (narrows_process_map h2) hp
  | ReparentNotify w parent =>
    simp only [process_reparent] at h2
    split at h2
    · cases h2; exact overlay_excluded_add_win env _ window w hp
    · exact overlay_excluded_of_narrows (narrows_destroy_win h2) hp
  | CreateNotify w parent =>
    simp only [process_create] at h2
    split at h2
    · split at h2
      · cases h2; exact overlay_excluded_add_win env _ window w hp
      · cases h2; exact hp
    · cases h2; exact hp
  | DestroyNotify e w => exact overlay_excluded_of_narrows (narrows_process_destroy h2) hp
  | DamageNotify drawable => exact overlay_excluded_of_narrows (narrows_process_damage h2) hp
  | other t => cases h2; exact hp

theorem overlay_excluded_add_window (env : Env) (s : CompState) (window : Option MetaWindow)
    (xwindow : Window) (hs : overlay_excluded s) :
    overlay_excluded (clutter_cmp_add_window env s window xwindow) := by
  unfold clutter_cmp_add_window
  refine overlay_excluded_of_narrows (narrows_trap_pop (narrows_refl _)) ?_
  exact overlay_excluded_add_win env _ window xwindow
    (overlay_excluded_of_narrows (narrows_trap_push (narrows_refl s)) hs)

theorem narrows_destroy_window (env : Env) (s : CompState) (window : MetaWindow) :
    narrows s (clutter_cmp_destroy_window env s window) := by
  unfold clutter_cmp_destroy_window
  split
  · rename_i cw info _ hcd
    refine narrows_set_effects _ (narrows_set_actor cw _ (narrows_set_info info _ hcd rfl
      (fun n hn => Or.inl (mem_of_mem_g_list_remove hn))
      (fun x n hx => of_g_hash_table_remove hx) (narrows_refl s)))
  · exact narrows_refl s

theorem narrows_minimize_window (env : Env) (s : CompState) (window : MetaWindow) :
    narrows s (clutter_cmp_minimize_window env s window) := by
  unfold clutter_cmp_minimize_window
  split
  · exact narrows_refl s
  · exact narrows_set_effects _ (narrows_set_actor _ _ (narrows_set_priv _ _ rfl (narrows_refl s)))

theorem narrows_run_callback {s s1 : CompState} {cw : NodeId} {callback : Option EffectCallback}
    (h : run_callback s cw callback = some s1) : narrows s s1 := by
  unfold run_callback at h
  split at h
  · cases h; exact narrows_refl s
  · exact narrows_dispose h
  · cases h; exact narrows_set_actor _ _ (narrows_refl s)

theorem narrows_effect_complete {s s1 : CompState} {i : Nat}
    (h : effect_complete s i = some s1) : narrows s s1 := by
  unfold effect_complete at h
  split at h
  · cases h; exact narrows_refl s
  · refine narrows_trans ?_ (narrows_run_callback h)
    exact narrows_set_actor _ _ (narrows_set_effects _ (narrows_refl s))
  · refine narrows_trans ?_ (narrows_run_callback h)
    exact narrows_set_actor _ _ (narrows_set_effects _ (narrows_refl s))

theorem overlay_excluded_of_reachable {s : CompState} (h : Reachable s) : overlay_excluded s := by
  induction h with
  | start xroot => intro i hi; cases hi
  | enqueue q _ ih => exact overlay_excluded_of_narrows (narrows_set_queue q (narrows_refl _)) ih
  | manage_screen env _ ih => exact overlay_excluded_manage_screen env _ ih
  | add_window env window xwindow _ ih => exact overlay_excluded_add_window env _ window xwindow ih
  | process_event env event window _ hstep ih => exact overlay_excluded_process_event ih hstep
  | destroy_window env window _ ih =>
    exact overlay_excluded_of_narrows (narrows_destroy_window env _ window) ih
  | minimize_window env window _ ih =>
    exact overlay_excluded_of_narrows (narrows_minimize_window env _ window) ih
  | effect_complete i _ hstep ih =>
    exact overlay_excluded_of_narrows (narrows_effect_complete hstep) ih

/-- C8: `add_win` called with the overlay window (`info->output`) as handle
returns the state it was given, so no node is created and order sequence, handle
map and Dock subset are unchanged; and in every reachable state no node of the
order sequence, and no node the handle map points to, has the overlay window as
its handle. -/
theorem overlay_self_exclusion :
    (∀ (env : Env) (s : CompState) (info : MetaCompScreen) (window : Option MetaWindow),
      s.compositor_data = some info → add_win env s window info.output = s) ∧
    (∀ (s : CompState) (info : MetaCompScreen), Reachable s → s.compositor_data = some info →
      (∀ n ∈ info.windows, (s.heap n).priv.xwindow ≠ info.output) ∧
      (∀ h n, info.windows_by_xid h = some n → (s.heap n).priv.xwindow ≠ info.output)) :=
  ⟨fun env s info window hinfo => add_win_output env s info window hinfo,
   fun _ info hr hinfo => overlay_excluded_of_reachable hr info hinfo⟩

/-- The three-window registry is reached by managing the screen and adding the
three windows. -/
theorem reachable_three_windows : Reachable CompState.three_windows :=
  Reachable.add_window _ _ _ (Reachable.add_window _ _ _ (Reachable.add_window _ _ _
    (Reachable.manage_screen _ (Reachable.start 1))))

/-- Registering the overlay window 3 on the empty registry, and the
three-window registry as a reachable state. -/
theorem overlay_self_exclusion_witness :
    (CompState.managed.compositor_data = some CompState.managed.registry ∧
      add_win Env.quiet CompState.managed none CompState.managed.registry.output =
        CompState.managed) ∧
    (Reachable CompState.three_windows ∧
      CompState.three_windows.compositor_data = some CompState.three_windows.registry ∧
      (∀ n ∈ CompState.three_windows.registry.windows,
        (CompState.three_windows.heap n).priv.xwindow ≠ CompState.three_windows.registry.output) ∧
      (∀ h n, CompState.three_windows.registry.windows_by_xid h = some n →
        (CompState.three_windows.heap n).priv.xwindow ≠
          CompState.three_windows.registry.output)) :=
  ⟨⟨rfl, overlay_self_exclusion.1 Env.quiet CompState.managed _ none rfl⟩,
   ⟨reachable_three_windows, rfl,
    overlay_self_exclusion.2 CompState.three_windows _ reachable_three_windows rfl⟩⟩

/-! ## Removal -/

theorem detach_disposed (s : CompState) (self : NodeId) :
    ((meta_comp_window_detach s self).heap self).priv.disposed = (s.heap self).priv.disposed := by
  unfold meta_comp_window_detach
  split <;> simp [CompState.set_priv]

theorem dispose_damage_disposed (s : CompState) (self : NodeId) :
    ((dispose_damage s self).heap self).priv.disposed = (s.heap self).priv.disposed := by
  unfold dispose_damage
  split <;> simp [CompState.set_priv]

theorem detach_type (s : CompState) (self : NodeId) :
    ((meta_comp_window_detach s self).heap self).priv.type = (s.heap self).priv.type := by
  unfold meta_comp_window_detach
  split <;> simp [CompState.set_priv]

theorem dispose_damage_type (s : CompState) (self : NodeId) :
    ((dispose_damage s self).heap self).priv.type = (s.heap self).priv.type := by
  unfold dispose_damage
  split <;> simp [CompState.set_priv]

theorem detach_compositor_data (s : CompState) (self : NodeId) :
    (meta_comp_window_detach s self).compositor_data = s.compositor_data := by
  unfold meta_comp_window_detach
  split <;> rfl

theorem dispose_damage_compositor_data (s : CompState) (self : NodeId) :
    (dispose_damage s self).compositor_data = s.compositor_data := by
  unfold dispose_damage
  split <;> rfl

/-- A node that has been disposed is marked so: whenever `meta_comp_window_dispose`
returns, the node's `disposed` flag is set in the state it returns. -/
theorem dispose_sets_disposed {s s1 : CompState} {self : NodeId}
    (h : meta_comp_window_dispose s self = some s1) : (s1.heap self).priv.disposed = true := by
  unfold meta_comp_window_dispose at h
  split at h
  · rename_i hd
    cases h; exact hd
  · dsimp only at h
    split at h
    · cases h
    · cases h
      show ((dispose_damage (meta_comp_window_detach _ self) self).heap self).priv.disposed = true
      rw [dispose_damage_disposed, detach_disposed]
      simp [CompState.set_priv]

/-- Disposing twice is disposing once: the second `meta_comp_window_dispose` of a
node returns the state the first one returned, `disposed` being set by then. -/
theorem dispose_idempotent (s : CompState) (self : NodeId) :
    (meta_comp_window_dispose s self).bind (fun s1 => meta_comp_window_dispose s1 self) =
      meta_comp_window_dispose s self := by
  cases h : meta_comp_window_dispose s self with
  | none => rfl
  | some s1 =>
    have hd := dispose_sets_disposed h
    simp [meta_comp_window_dispose, hd]

/-- What `meta_comp_window_dispose` does to the registry of a live node: on a
managed screen and for a node not yet disposed it returns; the order sequence
loses the first cell of the node (so the node is gone when it occurred once, and
the other nodes keep their order), the node's handle leaves the handle map, and
the Dock subset loses the node when its classification is Dock and is untouched
otherwise. -/
theorem dispose_live_node (s : CompState) (info : MetaCompScreen) (n : NodeId)
    (hinfo : s.compositor_data = some info) (hlive : (s.heap n).priv.disposed = false) :
    ∃ s1 info1, meta_comp_window_dispose s n = some s1 ∧ s1.compositor_data = some info1 ∧
      info1.windows = info.windows.erase n ∧
      find_window_for_screen s1 (s.heap n).priv.xwindow = none ∧
      (∀ h, h ≠ (s.heap n).priv.xwindow → info1.windows_by_xid h = info.windows_by_xid h) ∧
      info1.dock_windows =
        (if (s.heap n).priv.type = MetaCompWindowType.DOCK then info.dock_windows.erase n
         else info.dock_windows) := by
  have hcd : (dispose_damage (meta_comp_window_detach
      (s.set_priv n { (s.heap n).priv with disposed := true }) n) n).compositor_data =
      some info := by
    rw [dispose_damage_compositor_data, detach_compositor_data]; exact hinfo
  have hty : ((dispose_damage (meta_comp_window_detach
      (s.set_priv n { (s.heap n).priv with disposed := true }) n) n).heap n).priv.type =
      (s.heap n).priv.type := by
    rw [dispose_damage_type, detach_type]; simp [CompState.set_priv]
  have hxw := (narrows_dispose_damage n (narrows_detach n
    (narrows_set_priv n { (s.heap n).priv with disposed := true } rfl (narrows_refl s)))).1 n
  simp only [meta_comp_window_dispose, hlive, Bool.false_eq_true, if_false, hcd, hty, hxw]
  refine ⟨_, _, rfl, rfl, rfl, ?_, ?_, rfl⟩
  · simp [find_window_for_screen, CompState.set_info, g_hash_table_lookup, g_hash_table_remove]
  · intro h hh
    simp [g_hash_table_remove, hh]

/-! ## Consistency of handle map and order sequence -/

theorem consistent_of_frame {s s1 : CompState} (hs : consistent s)
    (hc : s1.compositor_data = s.compositor_data) (hn : s1.next_alloc = s.next_alloc)
    (hx : ∀ k, (s1.heap k).priv.xwindow = (s.heap k).priv.xwindow)
    (hd : ∀ k, (s1.heap k).priv.disposed = (s.heap k).priv.disposed) : consistent s1 := by
  intro info hi
  obtain ⟨h1, h2, h3⟩ := hs info (hc ▸ hi)
  refine ⟨h1, fun n hn1 => ?_, fun h n hh => ?_⟩
  · rw [hn, hx, hd]; exact h2 n hn1
  · rw [hx]; exact h3 h n hh

theorem consistent_map_win (s : CompState) (id : Window) (hs : consistent s) :
    consistent (map_win s id) := by
  unfold map_win
  split
  · exact hs
  · rename_i cw _
    refine consistent_of_frame hs rfl rfl (fun k => ?_) (fun k => ?_)
    · by_cases hk : k = cw <;> simp [CompState.set_priv, CompState.set_actor, hk]
    · by_cases hk : k = cw <;> simp [CompState.set_priv, CompState.set_actor, hk]

theorem get_window_type_disposed (env : Env) (p : MetaCompWindowPrivate) :
    (meta_comp_window_get_window_type env p).disposed = p.disposed := by
  unfold meta_comp_window_get_window_type
  split
  · split <;> rfl
  · rfl

theorem constructed_disposed (env : Env) (p : MetaCompWindowPrivate) :
    (meta_comp_window_constructed env p).disposed = p.disposed := by
  simp only [meta_comp_window_constructed]
  split_ifs <;> simp [get_window_type_disposed]

theorem consistent_add_win (env : Env) (s : CompState) (window : Option MetaWindow)
    (xwindow : Window) (hfresh : find_window_for_screen s xwindow = none)
    (hs : consistent s) : consistent (add_win env s window xwindow) := by
  unfold add_win
  split
  · exact hs
  · rename_i info hcd
    split
    · exact hs
    · split
      · exact hs
      · rename_i attrs hattrs
        dsimp only
        have hxw : (meta_comp_window_new env window xwindow attrs).priv.xwindow = xwindow := by
          simp [meta_comp_window_new, constructed_xwindow, meta_comp_window_init]
        have hdis : (meta_comp_window_new env window xwindow attrs).priv.disposed = false := by
          simp [meta_comp_window_new, constructed_disposed, meta_comp_window_init]
        obtain ⟨hnd, hw, hm⟩ := hs info hcd
        have hmap : info.windows_by_xid xwindow = none := by
          simpa [find_window_for_screen, hcd, g_hash_table_lookup] using hfresh
        have hnew : s.next_alloc ∉ info.windows := fun hmem =>
          absurd (hw _ hmem).1 (Nat.lt_irrefl _)
        have hcons : ∀ t : CompState, consistent t →
            consistent (if (meta_comp_window_new env window xwindow attrs).priv.attrs.map_state =
              MapState.IsViewable then map_win t xwindow else t) := by
          intro t ht
          split
          · exact consistent_map_win t xwindow ht
          · exact ht
        apply hcons
        intro i hi
        simp only [Option.some.injEq] at hi
        subst hi
        refine ⟨?_, fun n hn => ?_, fun h n hh => ?_⟩
        · exact List.nodup_cons.2 ⟨hnew, hnd⟩
        · simp only [g_list_prepend, List.mem_cons] at hn
          by_cases hk : n = s.next_alloc
          · subst hk
            simp [hxw, hdis, g_hash_table_insert]
          · have hmem : n ∈ info.windows := by tauto
            obtain ⟨h1, h2, h3⟩ := hw n hmem
            have hne : (s.heap n).priv.xwindow ≠ xwindow := by
              intro e
              rw [e, hmap] at h3
              cases h3
            simp only [hk, if_false, g_hash_table_insert, hne]
            exact ⟨Nat.lt_succ_of_lt h1, h2, h3⟩
        · simp only [g_hash_table_insert] at hh
          split at hh
          · rename_i hkey
            cases hh
            simp [g_list_prepend, hxw, hkey]
          · obtain ⟨h1, h2⟩ := hm h n hh
            have hk : n ≠ s.next_alloc := fun e => hnew (e ▸ h1)
            simp [g_list_prepend, hk, h1, h2]

theorem dispose_frame {s s1 : CompState} {self : NodeId}
    (h : meta_comp_window_dispose s self = some s1) :
    s1.next_alloc = s.next_alloc ∧ ∀ k, k ≠ self → s1.heap k = s.heap k := by
  unfold meta_comp_window_dispose at h
  split at h
  · cases h; exact ⟨rfl, fun _ _ => rfl⟩
  · dsimp only at h
    split at h
    · cases h
    · cases h
      refine ⟨?_, fun k hk => ?_⟩
      · simp only [CompState.set_info, dispose_damage, meta_comp_window_detach]
        split_ifs <;> rfl
      · simp only [CompState.set_info, dispose_damage, meta_comp_window_detach]
        split_ifs <;> simp [CompState.set_priv, hk]

theorem consistent_dispose {s s1 : CompState} {cw : NodeId}
    (hcw : ∃ info, s.compositor_data = some info ∧ cw ∈ info.windows)
    (h : meta_comp_window_dispose s cw = some s1) (hs : consistent s) : consistent s1 := by
  obtain ⟨info, hcd, hmem⟩ := hcw
  obtain ⟨hnd, hw, hm⟩ := hs info hcd
  obtain ⟨s2, info2, h2, hcd2, hwin, _, hmap, _⟩ := dispose_live_node s info cw hcd (hw cw hmem).2.1
  rw [h] at h2
  cases h2
  obtain ⟨hna, hheap⟩ := dispose_frame h
  have hxw := (narrows_dispose h).1
  intro i hi
  rw [hcd2] at hi
  cases hi
  have hlookup : info2.windows_by_xid (s.heap cw).priv.xwindow = none := by
    have := (dispose_live_node s info cw hcd (hw cw hmem).2.1)
    obtain ⟨s3, info3, h3, hcd3, _, hf, _, _⟩ := this
    rw [h] at h3
    cases h3
    rw [hcd2] at hcd3
    cases hcd3
    simpa [find_window_for_screen, hcd2, g_hash_table_lookup] using hf
  refine ⟨?_, fun n hn => ?_, fun x n hx => ?_⟩
  · rw [hwin]; exact hnd.erase cw
  · rw [hwin] at hn
    have hne : n ≠ cw := fun e => (List.Nodup.mem_erase_iff hnd).1 hn |>.1 e
    have hn0 : n ∈ info.windows := List.mem_of_mem_erase hn
    obtain ⟨h1, h2, h3⟩ := hw n hn0
    have hxne : (s.heap n).priv.xwindow ≠ (s.heap cw).priv.xwindow := by
      intro e
      have h4 := (hw cw hmem).2.2
      rw [← e, h3] at h4
      exact hne (Option.some.inj h4)
    rw [hna, hheap n hne, hmap _ hxne]
    exact ⟨h1, h2, h3⟩
  · have hxne : x ≠ (s.heap cw).priv.xwindow := by
      intro e
      rw [e, hlookup] at hx
      cases hx
    rw [hmap x hxne] at hx
    obtain ⟨h1, h2⟩ := hm x n hx
    have hne : n ≠ cw := fun e => hxne (by rw [← h2, e])
    rw [hwin, hxw n]
    exact ⟨(List.Nodup.mem_erase_iff hnd).2 ⟨hne, h1⟩, h2⟩

theorem g_list_insert_before_perm (l : List NodeId) (i : Nat) (cw : NodeId) :
    (g_list_insert_before l i cw).Perm (cw :: l) := by
  unfold g_list_insert_before
  refine List.perm_middle.trans (List.Perm.cons cw ?_)
  rw [List.take_append_drop]

/-- Whatever `above` is, a `restack_win` of a node of the order sequence that
returns leaves heap, allocator and handle map as they were and permutes the
order sequence. -/
theorem restack_win_frame {s s1 : CompState} {info : MetaCompScreen} {cw : NodeId}
    {above : Window} (hinfo : s.compositor_data = some info) (hcw : cw ∈ info.windows)
    (h : restack_win s cw above = some s1) :
    s1.heap = s.heap ∧ s1.next_alloc = s.next_alloc ∧
      ∃ info1, s1.compositor_data = some info1 ∧ info1.windows.Perm info.windows ∧
        info1.windows_by_xid = info.windows_by_xid := by
  have herase : (cw :: info.windows.erase cw).Perm info.windows :=
    (List.perm_cons_erase hcw).symm
  simp only [restack_win, hinfo, g_list_delete_link_find] at h
  split at h
  · cases h
    refine ⟨rfl, rfl, _, rfl, ?_, rfl⟩
    exact List.perm_append_comm.trans herase
  · split at h
    · split at h
      · cases h; exact ⟨rfl, rfl, info, hinfo, List.Perm.refl _, rfl⟩
      · split at h
        · cases h
        · cases h
          exact ⟨rfl, rfl, _, rfl, (g_list_insert_before_perm _ _ cw).trans herase, rfl⟩
    · cases h; exact ⟨rfl, rfl, info, hinfo, List.Perm.refl _, rfl⟩

theorem consistent_restack_win {s s1 : CompState} {cw : NodeId} {above : Window}
    (hcw : ∃ info, s.compositor_data = some info ∧ cw ∈ info.windows)
    (h : restack_win s cw above = some s1) (hs : consistent s) : consistent s1 := by
  obtain ⟨info, hcd, hmem⟩ := hcw
  obtain ⟨hheap, hna, info1, hcd1, hperm, hmap⟩ := restack_win_frame hcd hmem h
  obtain ⟨hnd, hw, hm⟩ := hs info hcd
  intro i hi
  rw [hcd1] at hi
  cases hi
  refine ⟨hperm.nodup_iff.2 hnd, fun n hn => ?_, fun x n hx => ?_⟩
  · rw [hna, hheap, hmap]
    exact hw n (hperm.mem_iff.1 hn)
  · rw [hheap]
    rw [hmap] at hx
    exact ⟨hperm.mem_iff.2 (hm x n hx).1, (hm x n hx).2⟩

theorem consistent_apply {s s1 : CompState} {op : RegistryOp} (hg : op.guarded s)
    (h : op.apply s = some s1) (hs : consistent s) : consistent s1 := by
  cases op with
  | register env window xwindow =>
    simp only [RegistryOp.apply, Option.some.injEq] at h
    subst h
    exact consistent_add_win env s window xwindow hg hs
  | remove cw => exact consistent_dispose hg h hs
  | restack cw above => exact consistent_restack_win hg h hs

theorem consistent_run_ops (ops : List RegistryOp) :
    ∀ (s s1 : CompState), guarded_run s ops → run_ops s ops = some s1 → consistent s →
      consistent s1 := by
  induction ops with
  | nil =>
    intro s s1 _ h hs
    simp only [run_ops, Option.some.injEq] at h
    exact h ▸ hs
  | cons op rest ih =>
    intro s s1 hg h hs
    simp only [run_ops] at h
    cases hop : op.apply s with
    | none => simp [hop] at h
    | some s2 =>
      simp only [hop, Option.some_bind] at h
      exact ih s2 s1 (hg.2 s2 hop) h (consistent_apply hg.1 hop hs)

theorem consistent_managed (env : Env) (xroot : Window) :
    consistent (clutter_cmp_manage_screen env (CompState.start xroot)) := by
  intro i hi
  simp only [clutter_cmp_manage_screen, CompState.start, Option.isSome_none, Bool.false_eq_true,
    if_false] at hi
  split at hi
  · cases hi
  · simp only [CompState.set_info, Option.some.injEq] at hi
    subst hi
    exact ⟨List.nodup_nil, fun n hn => (by cases hn), fun h n hh => (by simp [g_hash_table_new] at hh)⟩

/-- Membership in the order sequence and in the handle map agree after every
sequence of register, remove and restack operations on the empty registry in
which each registration is for a handle that is not tracked at that time and
each removal or restack is for a node of the order sequence. -/
theorem registry_consistent_of_guarded_ops (env : Env) (xroot : Window) (ops : List RegistryOp)
    (s : CompState) (info : MetaCompScreen)
    (hg : guarded_run (clutter_cmp_manage_screen env (CompState.start xroot)) ops)
    (hrun : run_ops (clutter_cmp_manage_screen env (CompState.start xroot)) ops = some s)
    (hinfo : s.compositor_data = some info) (n : NodeId) :
    n ∈ info.windows ↔ info.windows_by_xid (s.heap n).priv.xwindow = some n := by
  obtain ⟨_, hw, hm⟩ := consistent_run_ops ops _ s hg hrun (consistent_managed env xroot) info hinfo
  exact ⟨fun h => (hw n h).2.2, fun h => (hm _ n h).1⟩

/-! ## Opacity notifications -/

/-- An opacity `PropertyNotify` whose property is read successfully changes
nothing, whatever the value read: `process_property_notify` returns the state it
was given. -/
theorem process_property_notify_opacity_read (env : Env) (s : CompState) (window : Window)
    (hok : (env.meta_prop_get_cardinal window).1 = true) :
    process_property_notify env s window Atom.NET_WM_WINDOW_OPACITY = some s := by
  simp only [process_property_notify, hok, if_true]
  split <;> simp

/-! ## Inputs on which the code departs from the specification -/

/-- C1: registering handle 7 twice on the empty registry leaves node 0 in the
order sequence, with handle 7, while the handle map sends 7 to node 1. -/
theorem register_twice_splits_registry :
    CompState.registered_twice.map (fun s => s.registry.windows) = some [1, 0] ∧
    CompState.registered_twice.map (fun s => (s.heap 0).priv.xwindow) = some 7 ∧
    CompState.registered_twice.map (fun s => s.registry.windows_by_xid 7) = some (some 1) := by
  decide

/-- C2: a `ReparentNotify` to the root for the tracked window 7 leaves two nodes
with handle 7 in the order sequence; `find_window_for_screen` returns the newer
one. -/
theorem reparent_tracked_duplicates_handle :
    CompState.reparented_tracked.map (fun s => s.registry.windows) = some [1, 0] ∧
    CompState.reparented_tracked.map
      (fun s => ((s.heap 1).priv.xwindow, (s.heap 0).priv.xwindow)) = some (7, 7) ∧
    CompState.reparented_tracked.map (fun s => find_window_for_screen s 7) = some (some 1) := by
  decide

/-- C3: a node registered as Dock whose type hint changes to Normal stays in the
Dock subset, also after its window is destroyed; a node registered as Normal
whose type hint changes to Dock is not in the Dock subset. -/
theorem retyped_node_dock_subset :
    CompState.dock_retyped.map
      (fun s => (s.registry.windows, (s.heap 0).priv.type, s.registry.dock_windows)) =
      some ([0], MetaCompWindowType.NORMAL, [0]) ∧
    (CompState.dock_retyped.bind
      (fun s => clutter_cmp_process_event Env.quiet s (XEvent.DestroyNotify 1 7) none)).map
      (fun s => (s.registry.windows, s.registry.dock_windows)) = some ([], [0]) ∧
    CompState.normal_retyped.map
      (fun s => (s.registry.windows, (s.heap 0).priv.type, s.registry.dock_windows)) =
      some ([0], MetaCompWindowType.DOCK, []) := by
  decide

/-- C9: node 0 is tracked and not disposed, lies in the Dock subset and has been
re-classified Normal; `meta_comp_window_dispose` removes it from the order
sequence and the handle map and leaves it in the Dock subset. -/
theorem dispose_retyped_dock_stays :
    CompState.dock_retyped.map
      (fun s => (s.registry.windows, s.registry.windows_by_xid 7, (s.heap 0).priv.disposed,
        s.registry.dock_windows)) = some ([0], some 0, false, [0]) ∧
    (CompState.dock_retyped.bind (fun s => meta_comp_window_dispose s 0)).map
      (fun s => (s.registry.windows, s.registry.windows_by_xid 7, s.registry.dock_windows)) =
      some ([], none, [0]) := by
  decide

/-- C10: an opacity `PropertyNotify` for the tracked window 10 whose property is
read successfully with value 0 leaves the stored opacity and the actor's opacity
at 255, where the scaled value is 0. -/
theorem opacity_notify_read_ignored :
    (clutter_cmp_process_event (Env.with_opacity 0) CompState.three_windows
      (XEvent.PropertyNotify 10 Atom.NET_WM_WINDOW_OPACITY) none).map
      (fun s => (find_window_for_screen s 10, (s.heap 0).priv.opacity, (s.heap 0).parent.opacity)) =
      some (some 0, 255, 255) ∧
    opacity_of_cardinal 0 = 0 := by
  decide

/-! ## Opacity scaling -/

/-- C11: an opacity `PropertyNotify` for the tracked window 10 whose property
cannot be read (the call leaves 0 in `value`) replaces the stored opacity and
the actor's opacity, both 255 before, by 0. -/
theorem opacity_notify_failed_read_applied :
    ((CompState.three_windows.heap 0).priv.opacity,
      (CompState.three_windows.heap 0).parent.opacity) = (255, 255) ∧
    (clutter_cmp_process_event (Env.opacity_unreadable 0) CompState.three_windows
      (XEvent.PropertyNotify 10 Atom.NET_WM_WINDOW_OPACITY) none).map
      (fun s => (find_window_for_screen s 10, (s.heap 0).priv.opacity, (s.heap 0).parent.opacity)) =
      some (some 0, 0, 0) := by
  decide

theorem excess_bits_bound (fuel : Nat) :
    ∀ v, v < 2 ^ (24 + fuel) → v < 2 ^ (24 + excess_bits fuel v) := by
  induction fuel with
  | zero => intro v hv; simpa [excess_bits] using hv
  | succ f ih =>
    intro v hv
    unfold excess_bits
    split
    · rename_i h; simpa using h
    · have h2 : v / 2 < 2 ^ (24 + f) := by
        rw [Nat.div_lt_iff_lt_mul (by norm_num)]
        calc v < 2 ^ (24 + (f + 1)) := hv
          _ = 2 ^ (24 + f) * 2 := by rw [← Nat.add_assoc, Nat.pow_succ]
      have h3 := ih (v / 2) h2
      rw [Nat.div_lt_iff_lt_mul (by norm_num)] at h3
      calc v < 2 ^ (24 + excess_bits f (v / 2)) * 2 := h3
        _ = 2 ^ (24 + (excess_bits f (v / 2) + 1)) := by rw [← Nat.add_assoc, Nat.pow_succ]

theorem excess_bits_le (fuel : Nat) :
    ∀ v k, v < 2 ^ (24 + k) → excess_bits fuel v ≤ k := by
  induction fuel with
  | zero => intro v k _; simp [excess_bits]
  | succ f ih =>
    intro v k hv
    unfold excess_bits
    split
    · exact Nat.zero_le _
    · rename_i hge
      cases k with
      | zero => exact absurd (by simpa using hv) hge
      | succ k1 =>
        have h2 : v / 2 < 2 ^ (24 + k1) := by
          rw [Nat.div_lt_iff_lt_mul (by norm_num)]
          calc v < 2 ^ (24 + (k1 + 1)) := hv
            _ = 2 ^ (24 + k1) * 2 := by rw [← Nat.add_assoc, Nat.pow_succ]
        exact Nat.succ_le_succ (ih (v / 2) k1 h2)

theorem gfloat_of_gulong_le (v : Nat) (hv : v ≤ 0xffffffff) : gfloat_of_gulong v ≤ 2 ^ 32 := by
  have hv32 : v < 2 ^ (24 + 8) := by norm_num; omega
  have he : excess_bits 64 v ≤ 8 := excess_bits_le 64 v 8 hv32
  have hb : v < 2 ^ (24 + excess_bits 64 v) :=
    excess_bits_bound 64 v (lt_of_lt_of_le hv32 (Nat.pow_le_pow_right (by norm_num) (by norm_num)))
  unfold gfloat_of_gulong
  dsimp only
  split
  · norm_num; omega
  · generalize excess_bits 64 v = e at he hb ⊢
    have hq : v / 2 ^ e < 2 ^ 24 := by
      rw [Nat.div_lt_iff_lt_mul (Nat.pos_pow_of_pos e (by norm_num))]
      rwa [← Nat.pow_add]
    have hq1 : (if 2 ^ (e - 1) < v % 2 ^ e ∨ v % 2 ^ e = 2 ^ (e - 1) ∧ v / 2 ^ e % 2 = 1 then
        v / 2 ^ e + 1 else v / 2 ^ e) ≤ 2 ^ 24 := by
      split <;> omega
    calc _ ≤ 2 ^ 24 * 2 ^ e := Nat.mul_le_mul_right _ hq1
      _ = 2 ^ (24 + e) := (Nat.pow_add 2 24 e).symm
      _ ≤ 2 ^ 32 := Nat.pow_le_pow_right (by norm_num) (by omega)

/-- C12: the scaling the property handler applies sends 0 to 0 and 0xFFFFFFFF
to 255, and for every 32-bit input the quotient it converts to `guint8` is at
most 255, so the conversion does not wrap and the output lies in 0..255; the
same holds for `value * 255 / 0xFFFFFFFF` in exact arithmetic. -/
theorem opacity_scaling_bounds :
    opacity_of_cardinal 0 = 0 ∧ opacity_of_cardinal 0xffffffff = 255 ∧
    opacity_exact 0 = 0 ∧ opacity_exact 0xffffffff = 255 ∧
    ∀ v, v ≤ 0xffffffff →
      gfloat_of_gulong v * 255 / gfloat_of_gulong 0xffffffff ≤ 255 ∧
      opacity_of_cardinal v = gfloat_of_gulong v * 255 / gfloat_of_gulong 0xffffffff ∧
      opacity_of_cardinal v ≤ 255 ∧ opacity_exact v ≤ 255 := by
  refine ⟨by decide, by decide, by decide, by decide, fun v hv => ?_⟩
  have h32 : gfloat_of_gulong 0xffffffff = 2 ^ 32 := by decide
  have hq : gfloat_of_gulong v * 255 / gfloat_of_gulong 0xffffffff ≤ 255 := by
    rw [h32]
    calc gfloat_of_gulong v * 255 / 2 ^ 32 ≤ 2 ^ 32 * 255 / 2 ^ 32 :=
          Nat.div_le_div_right (Nat.mul_le_mul_right _ (gfloat_of_gulong_le v hv))
      _ = 255 := by norm_num
  refine ⟨hq, ?_, ?_, ?_⟩
  · unfold opacity_of_cardinal
    exact Nat.mod_eq_of_lt (by omega)
  · unfold opacity_of_cardinal
    exact Nat.le_of_lt_succ (Nat.mod_lt _ (by norm_num))
  · unfold opacity_exact
    exact Nat.div_le_of_le_mul (by omega)

/-- The scaling at the 32-bit input 0x80000000. -/
theorem opacity_scaling_bounds_witness :
    (0x80000000 : Nat) ≤ 0xffffffff ∧
      gfloat_of_gulong 0x80000000 * 255 / gfloat_of_gulong 0xffffffff ≤ 255 ∧
      opacity_of_cardinal 0x80000000 =
        gfloat_of_gulong 0x80000000 * 255 / gfloat_of_gulong 0xffffffff ∧
      opacity_of_cardinal 0x80000000 ≤ 255 ∧ opacity_exact 0x80000000 ≤ 255 :=
  ⟨by decide, opacity_scaling_bounds.2.2.2.2 0x80000000 (by decide)⟩

/-! ## Shadow eligibility -/

/-- C13: `meta_comp_window_has_shadow` returns the result of the first matching
rule of the specification's list, for every alpha flag, stored opacity,
override-redirect flag, frame, shape flag and classification; the seven
representative inputs (alpha window, override-redirect menu, framed normal
window, shaped unframed window, desktop window, menu window, plain normal
window) give false, true, true, false, false, true, false, and a framed shaped
window gets a shadow. -/
theorem has_shadow_first_matching_rule :
    (∀ (env : Env) (priv : MetaCompWindowPrivate),
      meta_comp_window_has_shadow env priv =
        first_matching_rule (shadow_rules priv.argb32 priv.opacity priv.attrs.override_redirect
          (has_frame env priv) priv.shaped priv.type)) ∧
    meta_comp_window_has_shadow Env.quiet
      { MetaCompWindowPrivate.plain with argb32 := true } = false ∧
    meta_comp_window_has_shadow Env.quiet
      { MetaCompWindowPrivate.plain with
        attrs := { XWindowAttributes.unmapped with override_redirect := true }
        type := MetaCompWindowType.MENU } = true ∧
    meta_comp_window_has_shadow Env.framed
      { MetaCompWindowPrivate.plain with window := some 5 } = true ∧
    meta_comp_window_has_shadow Env.quiet
      { MetaCompWindowPrivate.plain with shaped := true } = false ∧
    meta_comp_window_has_shadow Env.quiet
      { MetaCompWindowPrivate.plain with type := MetaCompWindowType.DESKTOP } = false ∧
    meta_comp_window_has_shadow Env.quiet
      { MetaCompWindowPrivate.plain with type := MetaCompWindowType.MENU } = true ∧
    meta_comp_window_has_shadow Env.quiet MetaCompWindowPrivate.plain = false ∧
    meta_comp_window_has_shadow Env.framed
      { MetaCompWindowPrivate.plain with window := some 5, shaped := true } = true := by
  refine ⟨fun env priv => ?_, by decide, by decide, by decide, by decide, by decide, by decide,
    by decide, by decide⟩
  unfold meta_comp_window_has_shadow first_matching_rule shadow_rules has_frame
  cases priv.argb32 <;> cases priv.attrs.override_redirect <;> cases priv.shaped <;>
    by_cases ho : priv.opacity = 255 <;>
    by_cases h1 : priv.type = MetaCompWindowType.DESKTOP <;>
    by_cases h2 : priv.type = MetaCompWindowType.DND <;>
    by_cases h3 : priv.type = MetaCompWindowType.MENU <;>
    cases hw : priv.window <;>
    simp_all [List.find?] <;>
    cases (env.meta_window_get_frame _).isSome <;> simp

/-! ## Destroy coalescing -/

theorem trap_pop_push (s : CompState) : meta_error_trap_pop (meta_error_trap_push s) = s := by
  cases s
  simp [meta_error_trap_pop, meta_error_trap_push]

theorem detach_queue (s : CompState) (self : NodeId) :
    (meta_comp_window_detach s self).queue = s.queue ∧
    (meta_comp_window_detach s self).trap_depth = s.trap_depth ∧
    (meta_comp_window_detach s self).effects = s.effects ∧
    ((meta_comp_window_detach s self).heap self).priv.actor = (s.heap self).priv.actor ∧
    ((meta_comp_window_detach s self).heap self).priv.shadow = (s.heap self).priv.shadow := by
  unfold meta_comp_window_detach
  split <;> simp [CompState.set_priv]

theorem dispose_damage_queue (s : CompState) (self : NodeId) :
    (dispose_damage s self).queue = s.queue ∧
    (dispose_damage s self).trap_depth = s.trap_depth ∧
    (dispose_damage s self).effects = s.effects ∧
    ((dispose_damage s self).heap self).priv.actor = (s.heap self).priv.actor := by
  unfold dispose_damage
  split <;> simp [CompState.set_priv]

theorem dispose_queue {s s1 : CompState} {self : NodeId}
    (h : meta_comp_window_dispose s self = some s1) :
    s1.queue = s.queue ∧ s1.trap_depth = s.trap_depth ∧ s1.effects = s.effects ∧
      (s1.heap self).priv.actor = (s.heap self).priv.actor := by
  unfold meta_comp_window_dispose at h
  split at h
  · cases h; exact ⟨rfl, rfl, rfl, rfl⟩
  · dsimp only at h
    split at h
    · cases h
    · cases h
      obtain ⟨a1, a2, a3, a4⟩ := dispose_damage_queue
        (meta_comp_window_detach (s.set_priv self { (s.heap self).priv with disposed := true })
          self) self
      obtain ⟨b1, b2, b3, b4, _⟩ := detach_queue
        (s.set_priv self { (s.heap self).priv with disposed := true }) self
      refine ⟨a1.trans b1, a2.trans b2, a3.trans b3, ?_⟩
      show ((dispose_damage (meta_comp_window_detach _ self) self).heap self).priv.actor = _
      rw [a4, b4]
      simp [CompState.set_priv]

theorem process_damage_coalesce (env : Env) (s : CompState) (w next : Window) (cw : NodeId)
    (rest : List XEvent) (hfind : find_window_in_display s w = some cw)
    (hpend : (s.heap cw).priv.destroy_pending = false)
    (hq : XCheckTypedWindowEvent_DestroyNotify w s.queue = some (next, rest)) :
    process_damage env s w =
      process_destroy ((s.set_queue rest).set_priv cw
        { (s.heap cw).priv with destroy_pending := true }) next := by
  unfold process_damage
  rw [hfind]
  dsimp only
  rw [if_neg (by simp [hpend]), hq]
  rfl

theorem set_queue_self (s : CompState) : s.set_queue s.queue = s := by
  cases s; rfl

theorem set_queue_set_queue (s : CompState) (q q1 : List XEvent) :
    (s.set_queue q).set_queue q1 = s.set_queue q1 := rfl

theorem set_priv_set_queue (s : CompState) (q : List XEvent) (cw : NodeId)
    (p : MetaCompWindowPrivate) :
    (s.set_queue q).set_priv cw p = (s.set_priv cw p).set_queue q := rfl

theorem set_actor_set_queue (s : CompState) (q : List XEvent) (cw : NodeId) (a : ClutterActor) :
    (s.set_queue q).set_actor cw a = (s.set_actor cw a).set_queue q := rfl

theorem set_info_set_queue (s : CompState) (q : List XEvent) (info : MetaCompScreen) :
    (s.set_queue q).set_info info = (s.set_info info).set_queue q := rfl

theorem trap_push_set_queue (s : CompState) (q : List XEvent) :
    meta_error_trap_push (s.set_queue q) = (meta_error_trap_push s).set_queue q := rfl

theorem trap_pop_set_queue (s : CompState) (q : List XEvent) :
    meta_error_trap_pop (s.set_queue q) = (meta_error_trap_pop s).set_queue q := rfl

theorem detach_set_queue (s : CompState) (q : List XEvent) (self : NodeId) :
    meta_comp_window_detach (s.set_queue q) self =
      (meta_comp_window_detach s self).set_queue q := by
  unfold meta_comp_window_detach
  by_cases h : (s.heap self).priv.back_pixmap = None
  · rw [if_neg (by simpa using h), if_neg (by simpa [CompState.set_queue] using h)]
  · rw [if_pos h, if_pos (by simpa [CompState.set_queue] using h)]
    rfl

theorem dispose_damage_set_queue (s : CompState) (q : List XEvent) (self : NodeId) :
    dispose_damage (s.set_queue q) self = (dispose_damage s self).set_queue q := by
  unfold dispose_damage
  by_cases h : (s.heap self).priv.damage = None
  · rw [if_neg (by simpa using h), if_neg (by simpa [CompState.set_queue] using h)]
  · rw [if_pos h, if_pos (by simpa [CompState.set_queue] using h)]
    rfl

theorem dispose_set_queue (s : CompState) (q : List XEvent) (self : NodeId) :
    meta_comp_window_dispose (s.set_queue q) self =
      (meta_comp_window_dispose s self).map (fun t => t.set_queue q) := by
  unfold meta_comp_window_dispose
  by_cases h : (s.heap self).priv.disposed = true
  · rw [if_pos h, if_pos (by simpa [CompState.set_queue] using h)]
    rfl
  · rw [if_neg h, if_neg (by simpa [CompState.set_queue] using h)]
    dsimp only
    have e : dispose_damage (meta_comp_window_detach
        ((s.set_queue q).set_priv self { ((s.set_queue q).heap self).priv with disposed := true })
        self) self =
        (dispose_damage (meta_comp_window_detach
          (s.set_priv self { (s.heap self).priv with disposed := true }) self) self).set_queue q := by
      rw [← dispose_damage_set_queue, ← detach_set_queue]
      rfl
    rw [e]
    generalize dispose_damage (meta_comp_window_detach
          (s.set_priv self { (s.heap self).priv with disposed := true }) self) self = t
    cases hc : t.compositor_data with
    | none =>
      have hc1 : (t.set_queue q).compositor_data = none := hc
      simp only [hc1, hc, Option.map_none']
    | some info =>
      have hc1 : (t.set_queue q).compositor_data = some info := hc
      simp only [hc1, hc, Option.map_some']
      rfl
theorem restack_win_set_queue (s : CompState) (q : List XEvent) (cw : NodeId) (above : Window) :
    restack_win (s.set_queue q) cw above =
      (restack_win s cw above).map (fun t => t.set_queue q) := by
  cases hc : s.compositor_data with
  | none =>
    have hc1 : (s.set_queue q).compositor_data = none := hc
    simp only [restack_win, hc, hc1, Option.map_none']
  | some info =>
    have hc1 : (s.set_queue q).compositor_data = some info := hc
    have hh : (s.set_queue q).heap = s.heap := rfl
    have hf : find_above (s.set_queue q) above info.windows = find_above s above info.windows := by
      induction info.windows with
      | nil => rfl
      | cons d rest ih => simp only [find_above, hh, ih]
    simp only [restack_win, hc, hc1, hh, hf]
    split
    · rfl
    · split
      · split
        · rfl
        · split <;> rfl
      · rfl

theorem resize_win_set_queue (s : CompState) (q : List XEvent) (cw : NodeId)
    (x y width height border_width : Int) (override_redirect : Bool) :
    resize_win (s.set_queue q) cw x y width height border_width override_redirect =
      (resize_win s cw x y width height border_width override_redirect).set_queue q := by
  cases s
  simp only [resize_win, CompState.set_priv, CompState.set_actor, meta_comp_window_detach,
    CompState.set_queue]
  split_ifs <;> rfl

theorem map_win_set_queue (s : CompState) (q : List XEvent) (id : Window) :
    map_win (s.set_queue q) id = (map_win s id).set_queue q := by
  unfold map_win
  rw [show find_window_for_screen (s.set_queue q) id = find_window_for_screen s id from rfl]
  split <;> rfl

theorem unmap_win_queue (s : CompState) (id : Window) : (unmap_win s id).queue = s.queue := by
  unfold unmap_win
  split
  · dsimp only
    split_ifs <;>
      (show (meta_comp_window_detach _ _).queue = _
       rw [(detach_queue _ _).1]
       rfl)
  · rfl

theorem add_win_set_queue (env : Env) (s : CompState) (q : List XEvent)
    (window : Option MetaWindow) (xwindow : Window) :
    add_win env (s.set_queue q) window xwindow = (add_win env s window xwindow).set_queue q := by
  unfold add_win
  rw [show (s.set_queue q).compositor_data = s.compositor_data from rfl]
  split
  · rfl
  · split
    · rfl
    · split
      · rfl
      · dsimp only
        split
        · rw [← map_win_set_queue]; rfl
        · rfl

theorem destroy_win_set_queue (s : CompState) (q : List XEvent) (xwindow : Window) :
    destroy_win (s.set_queue q) xwindow = (destroy_win s xwindow).map (fun t => t.set_queue q) := by
  unfold destroy_win
  rw [show find_window_in_display (s.set_queue q) xwindow = find_window_in_display s xwindow
    from rfl]
  split
  · rfl
  · exact dispose_set_queue s q _

theorem repair_win_queue {env : Env} {s s1 : CompState} {cw : NodeId}
    (h : repair_win env s cw = some s1) : s1.queue = s.queue := by
  unfold repair_win at h
  split at h
  · cases h
  · dsimp only at h
    split at h
    · cases h; rfl
    · split at h
      · split at h <;> (cases h; rfl)
      · cases h; rfl
theorem process_destroy_set_queue (s : CompState) (q : List XEvent) (window : Window) :
    process_destroy (s.set_queue q) window =
      (process_destroy s window).map (fun t => t.set_queue q) :=
  destroy_win_set_queue s q window

theorem process_create_set_queue (env : Env) (s : CompState) (q : List XEvent)
    (window : Option MetaWindow) (w parent : Window) :
    process_create env (s.set_queue q) window w parent =
      (process_create env s window w parent).map (fun t => t.set_queue q) := by
  unfold process_create
  rw [show (s.set_queue q).xroot = s.xroot from rfl,
    show find_window_in_display (s.set_queue q) w = find_window_in_display s w from rfl,
    add_win_set_queue]
  split_ifs <;> rfl

theorem process_reparent_set_queue (env : Env) (s : CompState) (q : List XEvent)
    (window : Option MetaWindow) (w parent : Window) :
    process_reparent env (s.set_queue q) window w parent =
      (process_reparent env s window w parent).map (fun t => t.set_queue q) := by
  unfold process_reparent
  rw [show (s.set_queue q).xroot = s.xroot from rfl, add_win_set_queue, destroy_win_set_queue]
  split_ifs <;> rfl

theorem process_configure_notify_set_queue (s : CompState) (q : List XEvent)
    (window above : Window) (x y width height border_width : Int) (override_redirect : Bool) :
    process_configure_notify (s.set_queue q) window above x y width height border_width
        override_redirect =
      (process_configure_notify s window above x y width height border_width
        override_redirect).map (fun t => t.set_queue q) := by
  unfold process_configure_notify
  rw [show find_window_in_display (s.set_queue q) window = find_window_in_display s window
    from rfl]
  split
  · rw [restack_win_set_queue]
    cases restack_win s _ above with
    | none => rfl
    | some t => simp only [Option.map_some', resize_win_set_queue]
  · rw [show (s.set_queue q).xroot = s.xroot from rfl,
      show (s.set_queue q).compositor_data = s.compositor_data from rfl]
    split
    · split <;> rfl
    · rfl

theorem process_circulate_notify_set_queue (s : CompState) (q : List XEvent) (window : Window)
    (place : Place) :
    process_circulate_notify (s.set_queue q) window place =
      (process_circulate_notify s window place).map (fun t => t.set_queue q) := by
  unfold process_circulate_notify
  rw [show find_window_in_display (s.set_queue q) window = find_window_in_display s window
    from rfl, show (s.set_queue q).compositor_data = s.compositor_data from rfl]
  split
  · rfl
  · split
    · rfl
    · split
      · rfl
      · exact restack_win_set_queue s q _ _

theorem process_map_set_queue (s : CompState) (q : List XEvent) (window : Window) :
    process_map (s.set_queue q) window = (process_map s window).map (fun t => t.set_queue q) := by
  unfold process_map
  rw [show find_window_in_display (s.set_queue q) window = find_window_in_display s window
    from rfl, map_win_set_queue]
  split <;> rfl

theorem process_property_notify_set_queue (env : Env) (s : CompState) (q : List XEvent)
    (window : Window) (atom : Atom) :
    process_property_notify env (s.set_queue q) window atom =
      (process_property_notify env s window atom).map (fun t => t.set_queue q) := by
  unfold process_property_notify
  rw [show find_window_in_display (s.set_queue q) window = find_window_in_display s window
    from rfl,
    show find_window_for_child_window_in_display env (s.set_queue q) window =
      find_window_for_child_window_in_display env s window from rfl]
  split
  · dsimp only
    split
    · rfl
    · split <;> rfl
  · split
    · split <;> rfl
    · rfl

theorem XCheckTypedWindowEvent_splits (w : Window) :
    ∀ (queue : List XEvent) (next : Window) (rest : List XEvent),
      XCheckTypedWindowEvent_DestroyNotify w queue = some (next, rest) →
      ∃ pre post, queue = pre ++ XEvent.DestroyNotify w next :: post ∧ rest = pre ++ post ∧
        ∀ x, XEvent.DestroyNotify w x ∉ pre := by
  intro queue
  induction queue with
  | nil => intro next rest h; simp [XCheckTypedWindowEvent_DestroyNotify] at h
  | cons e tail ih =>
    intro next rest h
    have hrec : ∀ (hne : ∀ x, e ≠ XEvent.DestroyNotify w x),
        (XCheckTypedWindowEvent_DestroyNotify w tail).map (fun r => (r.1, e :: r.2)) =
          some (next, rest) →
        ∃ pre post, e :: tail = pre ++ XEvent.DestroyNotify w next :: post ∧ rest = pre ++ post ∧
          ∀ x, XEvent.DestroyNotify w x ∉ pre := by
      intro hne hmap
      obtain ⟨⟨n1, r1⟩, hr, heq⟩ := Option.map_eq_some'.1 hmap
      simp only [Prod.mk.injEq] at heq
      obtain ⟨rfl, rfl⟩ := heq
      obtain ⟨pre, post, h1, h2, h3⟩ := ih n1 r1 hr
      refine ⟨e :: pre, post, by rw [h1]; rfl, by rw [h2]; rfl, fun x hx => ?_⟩
      rcases List.mem_cons.1 hx with hx | hx
      · exact hne x hx.symm
      · exact h3 x hx
    cases e with
    | DestroyNotify event window =>
      simp only [XCheckTypedWindowEvent_DestroyNotify] at h
      split at h
      · rename_i hev
        simp only [Option.some.injEq, Prod.mk.injEq] at h
        obtain ⟨rfl, rfl⟩ := h
        exact ⟨[], tail, by rw [hev]; rfl, rfl, fun x hx => by cases hx⟩
      · rename_i hev
        exact hrec (fun x hx => hev (by cases hx; rfl)) h
    | CirculateNotify _ _ => exact hrec (fun x hx => by cases hx) h
    | ConfigureNotify _ _ _ _ _ _ _ _ => exact hrec (fun x hx => by cases hx) h
    | PropertyNotify _ _ => exact hrec (fun x hx => by cases hx) h
    | Expose => exact hrec (fun x hx => by cases hx) h
    | UnmapNotify _ _ => exact hrec (fun x hx => by cases hx) h
    | MapNotify _ => exact hrec (fun x hx => by cases hx) h
    | ReparentNotify _ _ => exact hrec (fun x hx => by cases hx) h
    | CreateNotify _ _ => exact hrec (fun x hx => by cases hx) h
    | DamageNotify _ => exact hrec (fun x hx => by cases hx) h
    | other _ => exact hrec (fun x hx => by cases hx) h

theorem destroy_win_queue {s s1 : CompState} {w : Window} (h : destroy_win s w = some s1) :
    s1.queue = s.queue := by
  unfold destroy_win at h
  split at h
  · cases h; rfl
  · exact (dispose_queue h).1

theorem process_damage_queue {env : Env} {s s1 : CompState} {w : Window}
    (h : process_damage env s w = some s1) :
    s1.queue = s.queue ∨
      ∃ next, XCheckTypedWindowEvent_DestroyNotify w s.queue = some (next, s1.queue) := by
  unfold process_damage at h
  split at h
  · cases h; exact Or.inl rfl
  · split at h
    · cases h; exact Or.inl rfl
    · split at h
      · rename_i next rest hx
        refine Or.inr ⟨next, ?_⟩
        rw [hx, destroy_win_queue h]
        rfl
      · exact Or.inl (repair_win_queue h)

theorem process_unmap_queue {s s1 : CompState} {w : Window} {from_configure : Bool}
    (h : process_unmap s w from_configure = some s1) :
    s1.queue = s.queue ∨
      (from_configure = false ∧
        ∃ next, XCheckTypedWindowEvent_DestroyNotify w s.queue = some (next, s1.queue)) := by
  unfold process_unmap at h
  split at h
  · cases h; exact Or.inl rfl
  · rename_i hfc
    split at h
    · cases h; exact Or.inl rfl
    · split at h
      · cases h; exact Or.inl rfl
      · split at h
        · rename_i next rest hx
          refine Or.inr ⟨by simpa using hfc, next, ?_⟩
          rw [hx, destroy_win_queue h]
          rfl
        · cases h; exact Or.inl (unmap_win_queue s w)
/-- C15 (as stated, fails): with a `DestroyNotify` of window 10 at the head of
the queue, dispatching a `DamageNotify` for window 10 leaves a queue without
that event, and so does dispatching an `UnmapNotify` for window 10; a
`MapNotify` leaves the queue as it was. -/
theorem damage_and_unmap_consume_destroy :
    CompState.destroy_queued.queue = [XEvent.DestroyNotify 10 10, XEvent.MapNotify 11] ∧
    (clutter_cmp_process_event Env.quiet CompState.destroy_queued (XEvent.DamageNotify 10)
      none).map (fun s => s.queue) = some [XEvent.MapNotify 11] ∧
    (clutter_cmp_process_event Env.quiet CompState.destroy_queued (XEvent.UnmapNotify 10 false)
      none).map (fun s => s.queue) = some [XEvent.MapNotify 11] ∧
    (clutter_cmp_process_event Env.quiet CompState.destroy_queued (XEvent.MapNotify 10)
      none).map (fun s => s.queue) = some [XEvent.DestroyNotify 10 10, XEvent.MapNotify 11] := by
  decide

/-- What handling an event can do to the pending queue: nothing, or, for a
`DamageNotify` or an `UnmapNotify` not flagged `from_configure`, the removal of
the first `DestroyNotify` reported to its window; and for every other event the
result is the same whatever the queue holds. -/
theorem event_queue_frame (env : Env) (s s1 : CompState) (event : XEvent)
    (window : Option MetaWindow)
    (h : clutter_cmp_process_event env s event window = some s1) :
    (s1.queue = s.queue ∨
      ∃ w next pre post,
        (event = XEvent.DamageNotify w ∨ event = XEvent.UnmapNotify w false) ∧
        s.queue = pre ++ XEvent.DestroyNotify w next :: post ∧ s1.queue = pre ++ post ∧
        ∀ x, XEvent.DestroyNotify w x ∉ pre) ∧
    ((∀ w, event ≠ XEvent.DamageNotify w) → (∀ w, event ≠ XEvent.UnmapNotify w false) →
      s1.queue = s.queue ∧
      ∀ q, clutter_cmp_process_event env (s.set_queue q) event window = some (s1.set_queue q)) := by
  unfold clutter_cmp_process_event at h
  dsimp only at h
  obtain ⟨s2, h2, rfl⟩ := Option.map_eq_some'.1 h
  have hcomm : ∀ (f : CompState → Option CompState),
      (∀ t q, f (t.set_queue q) = (f t).map (fun u => u.set_queue q)) →
      f (meta_error_trap_push s) = some s2 →
      (meta_error_trap_pop s2).queue = s.queue ∧
      ∀ q, (f (meta_error_trap_push (s.set_queue q))).map meta_error_trap_pop =
        some ((meta_error_trap_pop s2).set_queue q) := by
    intro f hf hs2
    have hq : s2.queue = s.queue := by
      have := hf (meta_error_trap_push s) s.queue
      rw [show (meta_error_trap_push s).set_queue s.queue = meta_error_trap_push s from
        set_queue_self (meta_error_trap_push s), hs2] at this
      simp only [Option.map_some', Option.some.injEq] at this
      exact (congrArg CompState.queue this).trans rfl
    refine ⟨hq, fun q => ?_⟩
    rw [trap_push_set_queue, hf, hs2]
    rfl
  have hsplit : ∀ w, (∃ next, XCheckTypedWindowEvent_DestroyNotify w s.queue =
      some (next, s2.queue)) →
      ∃ next pre post, s.queue = pre ++ XEvent.DestroyNotify w next :: post ∧
        (meta_error_trap_pop s2).queue = pre ++ post ∧ ∀ x, XEvent.DestroyNotify w x ∉ pre := by
    rintro w ⟨next, hx⟩
    obtain ⟨pre, post, a, b, c⟩ := XCheckTypedWindowEvent_splits w _ _ _ hx
    exact ⟨next, pre, post, a, b, c⟩
  cases event with
  | CirculateNotify w place =>
    have := hcomm (fun t => process_circulate_notify t w place)
      (fun t q => process_circulate_notify_set_queue t q w place) h2
    exact ⟨Or.inl this.1, fun _ _ => this⟩
  | ConfigureNotify w above x y width height border_width override_redirect =>
    have := hcomm
      (fun t => process_configure_notify t w above x y width height border_width override_redirect)
      (fun t q => process_configure_notify_set_queue t q w above x y width height border_width
        override_redirect) h2
    exact ⟨Or.inl this.1, fun _ _ => this⟩
  | PropertyNotify w atom =>
    have := hcomm (fun t => process_property_notify env t w atom)
      (fun t q => process_property_notify_set_queue env t q w atom) h2
    exact ⟨Or.inl this.1, fun _ _ => this⟩
  | Expose =>
    have := hcomm (fun t => some t) (fun _ _ => rfl) h2
    exact ⟨Or.inl this.1, fun _ _ => this⟩
  | UnmapNotify w from_configure =>
    have hfr : (meta_error_trap_pop s2).queue = s.queue ∨
        (from_configure = false ∧ ∃ next, XCheckTypedWindowEvent_DestroyNotify w s.queue =
          some (next, s2.queue)) := by
      have h3 : process_unmap (meta_error_trap_push s) w from_configure = some s2 := h2
      have h4 := process_unmap_queue h3
      exact h4
    cases from_configure with
    | true =>
      have := hcomm (fun t => process_unmap t w true) (fun _ _ => rfl) h2
      exact ⟨Or.inl this.1, fun _ _ => this⟩
    | false =>
      refine ⟨?_, fun _ hu => absurd rfl (hu w)⟩
      rcases hfr with hq | ⟨_, hx⟩
      · exact Or.inl hq
      · obtain ⟨next, pre, post, a, b, c⟩ := hsplit w hx
        exact Or.inr ⟨w, next, pre, post, Or.inr rfl, a, b, c⟩
  | MapNotify w =>
    have := hcomm (fun t => process_map t w) (fun t q => process_map_set_queue t q w) h2
    exact ⟨Or.inl this.1, fun _ _ => this⟩
  | ReparentNotify w parent =>
    have := hcomm (fun t => process_reparent env t window w parent)
      (fun t q => process_reparent_set_queue env t q window w parent) h2
    exact ⟨Or.inl this.1, fun _ _ => this⟩
  | CreateNotify w parent =>
    have := hcomm (fun t => process_create env t window w parent)
      (fun t q => process_create_set_queue env t q window w parent) h2
    exact ⟨Or.inl this.1, fun _ _ => this⟩
  | DestroyNotify e w =>
    have := hcomm (fun t => process_destroy t w) (fun t q => process_destroy_set_queue t q w) h2
    exact ⟨Or.inl this.1, fun _ _ => this⟩
  | DamageNotify drawable =>
    have hfr : (meta_error_trap_pop s2).queue = s.queue ∨
        ∃ next, XCheckTypedWindowEvent_DestroyNotify drawable s.queue =
          some (next, s2.queue) := by
      have h3 : process_damage env (meta_error_trap_push s) drawable = some s2 := h2
      have h4 := process_damage_queue h3
      exact h4
    refine ⟨?_, fun hd _ => absurd rfl (hd drawable)⟩
    rcases hfr with hq | hx
    · exact Or.inl hq
    · obtain ⟨next, pre, post, a, b, c⟩ := hsplit drawable hx
      exact Or.inr ⟨drawable, next, pre, post, Or.inl rfl, a, b, c⟩
  | other t =>
    have := hcomm (fun t => some t) (fun _ _ => rfl) h2
    exact ⟨Or.inl this.1, fun _ _ => this⟩
theorem XCheckTypedWindowEvent_of_split (w next : Window) (pre post : List XEvent)
    (hpre : ∀ x, XEvent.DestroyNotify w x ∉ pre) :
    XCheckTypedWindowEvent_DestroyNotify w (pre ++ XEvent.DestroyNotify w next :: post) =
      some (next, pre ++ post) := by
  induction pre with
  | nil => simp [XCheckTypedWindowEvent_DestroyNotify]
  | cons e tail ih =>
    have htail := ih (fun x hx => hpre x (List.mem_cons_of_mem _ hx))
    have he : ∀ x, e ≠ XEvent.DestroyNotify w x := fun x hx =>
      hpre x (hx ▸ List.mem_cons_self _ _)
    cases e with
    | DestroyNotify event window =>
      have hev : event ≠ w := fun hw => he window (by rw [hw])
      simp [XCheckTypedWindowEvent_DestroyNotify, hev, htail]
    | CirculateNotify _ _ => simp [XCheckTypedWindowEvent_DestroyNotify, htail]
    | ConfigureNotify _ _ _ _ _ _ _ _ => simp [XCheckTypedWindowEvent_DestroyNotify, htail]
    | PropertyNotify _ _ => simp [XCheckTypedWindowEvent_DestroyNotify, htail]
    | Expose => simp [XCheckTypedWindowEvent_DestroyNotify, htail]
    | UnmapNotify _ _ => simp [XCheckTypedWindowEvent_DestroyNotify, htail]
    | MapNotify _ => simp [XCheckTypedWindowEvent_DestroyNotify, htail]
    | ReparentNotify _ _ => simp [XCheckTypedWindowEvent_DestroyNotify, htail]
    | CreateNotify _ _ => simp [XCheckTypedWindowEvent_DestroyNotify, htail]
    | DamageNotify _ => simp [XCheckTypedWindowEvent_DestroyNotify, htail]
    | other _ => simp [XCheckTypedWindowEvent_DestroyNotify, htail]

theorem XCheckTypedWindowEvent_none (w : Window) (queue : List XEvent)
    (hq : ∀ x, XEvent.DestroyNotify w x ∉ queue) :
    XCheckTypedWindowEvent_DestroyNotify w queue = none := by
  cases hx : XCheckTypedWindowEvent_DestroyNotify w queue with
  | none => rfl
  | some r =>
    obtain ⟨pre, post, hsplit, _, _⟩ := XCheckTypedWindowEvent_splits w queue r.1 r.2 hx
    exact absurd (by rw [hsplit]; simp) (hq r.1)

theorem process_unmap_coalesce (s : CompState) (w next : Window) (cw : NodeId)
    (rest : List XEvent) (hfind : find_window_in_display s w = some cw)
    (hpend : (s.heap cw).priv.destroy_pending = false)
    (hq : XCheckTypedWindowEvent_DestroyNotify w s.queue = some (next, rest)) :
    process_unmap s w false =
      process_destroy ((s.set_queue rest).set_priv cw
        { (s.heap cw).priv with destroy_pending := true }) next := by
  unfold process_unmap
  rw [if_neg (by simp), hfind]
  dsimp only
  rw [if_neg (by simp [hpend]), hq]
  rfl

theorem process_damage_queue_kept {env : Env} {s s1 : CompState} {w : Window}
    (h : process_damage env s w = some s1)
    (hc : find_window_in_display s w = none ∨
      (∃ cw, find_window_in_display s w = some cw ∧ (s.heap cw).priv.destroy_pending = true) ∨
      XCheckTypedWindowEvent_DestroyNotify w s.queue = none) : s1.queue = s.queue := by
  unfold process_damage at h
  split at h
  · cases h; rfl
  · rename_i cw hcw
    split at h
    · cases h; rfl
    · rename_i hp
      split at h
      · rename_i next rest hx
        rcases hc with hn | ⟨cw1, hf, hp1⟩ | hn
        · rw [hcw] at hn; cases hn
        · rw [hcw] at hf; cases hf; exact absurd hp1 hp
        · rw [hx] at hn; cases hn
      · exact repair_win_queue h

theorem process_unmap_queue_kept {s s1 : CompState} {w : Window}
    (h : process_unmap s w false = some s1)
    (hc : find_window_in_display s w = none ∨
      (∃ cw, find_window_in_display s w = some cw ∧ (s.heap cw).priv.destroy_pending = true) ∨
      XCheckTypedWindowEvent_DestroyNotify w s.queue = none) : s1.queue = s.queue := by
  unfold process_unmap at h
  rw [if_neg (by simp)] at h
  split at h
  · cases h; rfl
  · rename_i cw hcw
    split at h
    · cases h; rfl
    · rename_i hp
      split at h
      · rename_i next rest hx
        rcases hc with hn | ⟨cw1, hf, hp1⟩ | hn
        · rw [hcw] at hn; cases hn
        · rw [hcw] at hf; cases hf; exact absurd hp1 hp
        · rw [hx] at hn; cases hn
      · cases h; exact unmap_win_queue s w

/-- C15 (amended): handling an event leaves the pending queue as it was, except
that a `DamageNotify`, or an `UnmapNotify` not flagged `from_configure`, for a
tracked window whose node is not destroy-pending takes the first queued
`DestroyNotify` reported to that window out of the queue, the other events
keeping their order, flags the node destroy-pending and hands the event to
`process_destroy` at once; when the window is untracked, its node already
destroy-pending or no such `DestroyNotify` queued, these two events leave the
queue as it was too. They are the only event types whose handling reads the
queue: for every other event the result is the same whatever the queue holds. -/
theorem event_queue_effect (env : Env) (s s1 : CompState) (event : XEvent)
    (window : Option MetaWindow)
    (h : clutter_cmp_process_event env s event window = some s1) :
    (s1.queue = s.queue ∨
      ∃ w next pre post,
        (event = XEvent.DamageNotify w ∨ event = XEvent.UnmapNotify w false) ∧
        s.queue = pre ++ XEvent.DestroyNotify w next :: post ∧ s1.queue = pre ++ post ∧
        ∀ x, XEvent.DestroyNotify w x ∉ pre) ∧
    (∀ (w : Window) (cw : NodeId) (next : Window) (pre post : List XEvent),
      (event = XEvent.DamageNotify w ∨ event = XEvent.UnmapNotify w false) →
      find_window_in_display s w = some cw → (s.heap cw).priv.destroy_pending = false →
      s.queue = pre ++ XEvent.DestroyNotify w next :: post →
      (∀ x, XEvent.DestroyNotify w x ∉ pre) →
      s1.queue = pre ++ post ∧
      (process_destroy
        (((meta_error_trap_push s).set_queue (pre ++ post)).set_priv cw
          { (s.heap cw).priv with destroy_pending := true }) next).map meta_error_trap_pop =
        some s1) ∧
    (∀ w : Window, (event = XEvent.DamageNotify w ∨ event = XEvent.UnmapNotify w false) →
      (find_window_in_display s w = none ∨
        (∃ cw, find_window_in_display s w = some cw ∧
          (s.heap cw).priv.destroy_pending = true) ∨
        ∀ x, XEvent.DestroyNotify w x ∉ s.queue) →
      s1.queue = s.queue) ∧
    ((∀ w, event ≠ XEvent.DamageNotify w) → (∀ w, event ≠ XEvent.UnmapNotify w false) →
      s1.queue = s.queue ∧
      ∀ q, clutter_cmp_process_event env (s.set_queue q) event window = some (s1.set_queue q)) := by
  obtain ⟨hframe, hother⟩ := event_queue_frame env s s1 event window h
  refine ⟨hframe, ?_, ?_, hother⟩
  · intro w cw next pre post hev hfind hpend hq hpre
    have hfind0 : find_window_in_display (meta_error_trap_push s) w = some cw := hfind
    have hp0 : ((meta_error_trap_push s).heap cw).priv.destroy_pending = false := hpend
    have hx0 : XCheckTypedWindowEvent_DestroyNotify w (meta_error_trap_push s).queue =
        some (next, pre ++ post) := by
      show XCheckTypedWindowEvent_DestroyNotify w s.queue = _
      rw [hq]
      exact XCheckTypedWindowEvent_of_split w next pre post hpre
    have hres : (process_destroy
        (((meta_error_trap_push s).set_queue (pre ++ post)).set_priv cw
          { (s.heap cw).priv with destroy_pending := true }) next).map meta_error_trap_pop =
        some s1 := by
      rcases hev with rfl | rfl
      · unfold clutter_cmp_process_event at h
        dsimp only at h
        rw [process_damage_coalesce env _ w next cw (pre ++ post) hfind0 hp0 hx0] at h
        exact h
      · unfold clutter_cmp_process_event at h
        dsimp only at h
        rw [process_unmap_coalesce _ w next cw (pre ++ post) hfind0 hp0 hx0] at h
        exact h
    refine ⟨?_, hres⟩
    obtain ⟨s2, h2, rfl⟩ := Option.map_eq_some'.1 hres
    have h3 : destroy_win
        (((meta_error_trap_push s).set_queue (pre ++ post)).set_priv cw
          { (s.heap cw).priv with destroy_pending := true }) next = some s2 := h2
    exact (destroy_win_queue h3).trans rfl
  · intro w hev hc
    have hc0 : find_window_in_display (meta_error_trap_push s) w = none ∨
        (∃ cw, find_window_in_display (meta_error_trap_push s) w = some cw ∧
          ((meta_error_trap_push s).heap cw).priv.destroy_pending = true) ∨
        XCheckTypedWindowEvent_DestroyNotify w (meta_error_trap_push s).queue = none := by
      rcases hc with hn | hp | hq
      · exact Or.inl hn
      · exact Or.inr (Or.inl hp)
      · exact Or.inr (Or.inr (XCheckTypedWindowEvent_none w s.queue hq))
    unfold clutter_cmp_process_event at h
    dsimp only at h
    obtain ⟨s2, h2, rfl⟩ := Option.map_eq_some'.1 h
    rcases hev with rfl | rfl
    · have h3 : process_damage env (meta_error_trap_push s) w = some s2 := h2
      exact (process_damage_queue_kept h3 hc0).trans rfl
    · have h3 : process_unmap (meta_error_trap_push s) w false = some s2 := h2
      exact (process_unmap_queue_kept h3 hc0).trans rfl

/-- The `DamageNotify` for window 10 dispatched while the `DestroyNotify` of
window 10 heads the queue. -/
theorem event_queue_effect_witness :
    clutter_cmp_process_event Env.quiet CompState.destroy_queued (XEvent.DamageNotify 10) none =
      some CompState.destroy_coalesced ∧
    ((CompState.destroy_coalesced.queue = CompState.destroy_queued.queue ∨
      ∃ w next pre post,
        (XEvent.DamageNotify 10 = XEvent.DamageNotify w ∨
          XEvent.DamageNotify 10 = XEvent.UnmapNotify w false) ∧
        CompState.destroy_queued.queue = pre ++ XEvent.DestroyNotify w next :: post ∧
        CompState.destroy_coalesced.queue = pre ++ post ∧
        ∀ x, XEvent.DestroyNotify w x ∉ pre) ∧
    (∀ (w : Window) (cw : NodeId) (next : Window) (pre post : List XEvent),
      (XEvent.DamageNotify 10 = XEvent.DamageNotify w ∨
        XEvent.DamageNotify 10 = XEvent.UnmapNotify w false) →
      find_window_in_display CompState.destroy_queued w = some cw →
      (CompState.destroy_queued.heap cw).priv.destroy_pending = false →
      CompState.destroy_queued.queue = pre ++ XEvent.DestroyNotify w next :: post →
      (∀ x, XEvent.DestroyNotify w x ∉ pre) →
      CompState.destroy_coalesced.queue = pre ++ post ∧
      (process_destroy
        (((meta_error_trap_push CompState.destroy_queued).set_queue (pre ++ post)).set_priv cw
          { (CompState.destroy_queued.heap cw).priv with destroy_pending := true })
        next).map meta_error_trap_pop = some CompState.destroy_coalesced) ∧
    (∀ w : Window,
      (XEvent.DamageNotify 10 = XEvent.DamageNotify w ∨
        XEvent.DamageNotify 10 = XEvent.UnmapNotify w false) →
      (find_window_in_display CompState.destroy_queued w = none ∨
        (∃ cw, find_window_in_display CompState.destroy_queued w = some cw ∧
          (CompState.destroy_queued.heap cw).priv.destroy_pending = true) ∨
        ∀ x, XEvent.DestroyNotify w x ∉ CompState.destroy_queued.queue) →
      CompState.destroy_coalesced.queue = CompState.destroy_queued.queue) ∧
    ((∀ w, XEvent.DamageNotify 10 ≠ XEvent.DamageNotify w) →
      (∀ w, XEvent.DamageNotify 10 ≠ XEvent.UnmapNotify w false) →
      CompState.destroy_coalesced.queue = CompState.destroy_queued.queue ∧
      ∀ q, clutter_cmp_process_event Env.quiet (CompState.destroy_queued.set_queue q)
        (XEvent.DamageNotify 10) none = some (CompState.destroy_coalesced.set_queue q))) :=
  ⟨rfl, event_queue_effect Env.quiet CompState.destroy_queued CompState.destroy_coalesced
    (XEvent.DamageNotify 10) none rfl⟩

/-! ## The destroy effect -/

/-- C16: for a logical window registered as Dock and re-typed Normal, the first
`clutter_cmp_destroy_window` takes node 0 out of the order sequence and the
handle map and starts the two destroy timelines, a second call starts nothing
more, and the completion of the fade disposes the node; the node is in the Dock
subset before, and still there after the disposal. -/
theorem destroy_run_retyped_dock_stays :
    CompState.managed_dock_retyped.map
      (fun s => (s.registry.windows, s.registry.windows_by_xid 7, s.registry.dock_windows,
        s.effects.length)) = some ([0], some 0, [0], 0) ∧
    CompState.dock_destroy_started.map
      (fun s => (s.registry.windows, s.registry.windows_by_xid 7, s.registry.dock_windows,
        s.effects.length)) = some ([], none, [0], 2) ∧
    (CompState.dock_destroy_started.map
      (fun s => clutter_cmp_destroy_window (Env.managed MetaWindowType.NORMAL) s 5)).map
      (fun s => (s.registry.windows, s.registry.windows_by_xid 7, s.registry.dock_windows,
        s.effects.length)) = some ([], none, [0], 2) ∧
    (CompState.dock_destroy_started.bind (fun s => effect_complete s 0)).map
      (fun s => ((s.heap 0).priv.disposed, s.registry.windows, s.registry.windows_by_xid 7,
        s.registry.dock_windows)) = some (true, [], none, [0]) :=
  ⟨by decide, by decide, by decide, by decide⟩

/-- What `clutter_cmp_destroy_window` does for a logical window tracked by node
`cw`: the order sequence loses the node's first cell and the handle map the
window's entry before the two destroy timelines are started, and a second call
returns the state it is given. -/
theorem destroy_window_unregisters (env : Env) (s : CompState) (info : MetaCompScreen)
    (window : MetaWindow) (cw : NodeId) (hinfo : s.compositor_data = some info)
    (htracked : find_window_for_screen s (frame_or_xwindow env window) = some cw) :
    ∃ info1, (clutter_cmp_destroy_window env s window).compositor_data = some info1 ∧
      info1.windows = info.windows.erase cw ∧
      info1.dock_windows = info.dock_windows ∧
      find_window_for_screen (clutter_cmp_destroy_window env s window)
        (frame_or_xwindow env window) = none ∧
      (clutter_cmp_destroy_window env s window).effects = s.effects ++
        [Effect.fade EffectTemplate.destroy_effect cw 0
            (some EffectCallback.on_destroy_effect_complete),
         Effect.scale EffectTemplate.destroy_effect cw 1 0 none] ∧
      clutter_cmp_destroy_window env (clutter_cmp_destroy_window env s window) window =
        clutter_cmp_destroy_window env s window := by
  have e : clutter_cmp_destroy_window env s window =
      (((s.set_info
        { info with
          windows := g_list_remove info.windows cw
          windows_by_xid :=
            g_hash_table_remove info.windows_by_xid (frame_or_xwindow env window) }).set_actor cw
        { (s.heap cw).parent with anchor := ClutterGravity.CENTER }).set_effects
        (s.effects ++
          [Effect.fade EffectTemplate.destroy_effect cw 0
              (some EffectCallback.on_destroy_effect_complete),
           Effect.scale EffectTemplate.destroy_effect cw 1 0 none])) := by
    unfold clutter_cmp_destroy_window
    rw [htracked, hinfo]
    rfl
  have hnone : find_window_for_screen (clutter_cmp_destroy_window env s window)
      (frame_or_xwindow env window) = none := by
    rw [e]
    simp [find_window_for_screen, CompState.set_info, CompState.set_actor, CompState.set_effects,
      g_hash_table_lookup, g_hash_table_remove]
  refine ⟨{ info with
      windows := g_list_remove info.windows cw
      windows_by_xid := g_hash_table_remove info.windows_by_xid (frame_or_xwindow env window) },
    by rw [e]; rfl, rfl, rfl, hnone, by rw [e]; rfl, ?_⟩
  generalize clutter_cmp_destroy_window env s window = t at hnone ⊢
  unfold clutter_cmp_destroy_window
  rw [hnone]

/-- The completion of the fade started by `clutter_cmp_destroy_window` is the
disposal of the node: with the fade at position `i` of the running effects,
`effect_complete` sets the actor's opacity to the end value, drops the timeline
and returns what `meta_comp_window_dispose` returns. -/
theorem destroy_fade_complete (s : CompState) (i : Nat) (cw : NodeId) (opacity_end : Nat)
    (hfade : s.effects.get? i = some (Effect.fade EffectTemplate.destroy_effect cw opacity_end
      (some EffectCallback.on_destroy_effect_complete))) :
    effect_complete s i =
      meta_comp_window_dispose
        ((s.set_effects (s.effects.eraseIdx i)).set_actor cw
          { (s.heap cw).parent with opacity := opacity_end }) cw := by
  unfold effect_complete
  rw [hfade]
  rfl

/-! ## The minimize effect -/

theorem detach_back_pixmap (s : CompState) (self : NodeId) :
    ((meta_comp_window_detach s self).heap self).priv.back_pixmap = None := by
  unfold meta_comp_window_detach
  split
  · simp [CompState.set_priv]
  · rename_i h
    simpa using h

theorem detach_xwindow (s : CompState) (self : NodeId) :
    ((meta_comp_window_detach s self).heap self).priv.xwindow = (s.heap self).priv.xwindow :=
  (narrows_detach self (narrows_refl s)).1 self

theorem detach_xroot (s : CompState) (self : NodeId) :
    (meta_comp_window_detach s self).xroot = s.xroot := by
  unfold meta_comp_window_detach
  split <;> rfl

theorem repair_win_unattached (env : Env) (t : CompState) (info : MetaCompScreen) (cw : NodeId)
    (hinfo : t.compositor_data = some info)
    (hroot : (t.heap cw).priv.xwindow ≠ t.xroot)
    (hstage : (t.heap cw).priv.xwindow ≠ env.stage_window)
    (hun : (t.heap cw).priv.back_pixmap = None)
    (hname : env.XCompositeNameWindowPixmap (t.heap cw).priv.xwindow ≠ None) :
    ∃ s1, repair_win env t cw = some s1 ∧
      (s1.heap cw).priv.back_pixmap = env.XCompositeNameWindowPixmap (t.heap cw).priv.xwindow ∧
      (s1.heap cw).priv.actor.pixmap = env.XCompositeNameWindowPixmap (t.heap cw).priv.xwindow ∧
      (s1.heap cw).priv.actor.width =
        (env.pixmap_size (env.XCompositeNameWindowPixmap (t.heap cw).priv.xwindow)).1 ∧
      (s1.heap cw).priv.actor.height =
        (env.pixmap_size (env.XCompositeNameWindowPixmap (t.heap cw).priv.xwindow)).2 ∧
      (s1.heap cw).priv.shadow = (t.heap cw).priv.shadow.map (fun sh =>
        { sh with
          width := (env.pixmap_size (env.XCompositeNameWindowPixmap (t.heap cw).priv.xwindow)).1
          height :=
            (env.pixmap_size (env.XCompositeNameWindowPixmap (t.heap cw).priv.xwindow)).2 }) ∧
      s1.trap_depth = t.trap_depth := by
  have hun1 : ((meta_error_trap_push t).heap cw).priv.back_pixmap = None := hun
  have key : ∀ r, repair_win env t cw = r → ∃ s1, r = some s1 ∧
      (s1.heap cw).priv.back_pixmap = env.XCompositeNameWindowPixmap (t.heap cw).priv.xwindow ∧
      (s1.heap cw).priv.actor.pixmap = env.XCompositeNameWindowPixmap (t.heap cw).priv.xwindow ∧
      (s1.heap cw).priv.actor.width =
        (env.pixmap_size (env.XCompositeNameWindowPixmap (t.heap cw).priv.xwindow)).1 ∧
      (s1.heap cw).priv.actor.height =
        (env.pixmap_size (env.XCompositeNameWindowPixmap (t.heap cw).priv.xwindow)).2 ∧
      (s1.heap cw).priv.shadow = (t.heap cw).priv.shadow.map (fun sh =>
        { sh with
          width := (env.pixmap_size (env.XCompositeNameWindowPixmap (t.heap cw).priv.xwindow)).1
          height :=
            (env.pixmap_size (env.XCompositeNameWindowPixmap (t.heap cw).priv.xwindow)).2 }) ∧
      s1.trap_depth = t.trap_depth := by
    intro r hr
    unfold repair_win at hr
    rw [hinfo] at hr
    dsimp only at hr
    rw [if_neg (by simp [hroot, hstage]), if_pos hun1, if_neg hname] at hr
    subst hr
    refine ⟨_, rfl, ?_⟩
    simp [repair_win_update, meta_error_trap_pop, meta_error_trap_push, CompState.set_priv]
  obtain ⟨s1, h1, h2⟩ := key _ rfl
  exact ⟨s1, h1, h2⟩

/-- C18 (as stated, fails): when the window pixmap cannot be named, a
`repair_win` of the just detached node 0 returns with the backing buffer still
absent. -/
theorem detach_repair_without_pixmap :
    (repair_win Env.pixmap_unavailable (meta_comp_window_detach CompState.three_windows 0) 0).map
      (fun s => (s.heap 0).priv.back_pixmap) = some None := by
  decide

theorem repair_win_root_or_stage (env : Env) (t : CompState) (info : MetaCompScreen)
    (cw : NodeId) (hinfo : t.compositor_data = some info)
    (h : (t.heap cw).priv.xwindow = t.xroot ∨ (t.heap cw).priv.xwindow = env.stage_window) :
    repair_win env t cw = some t := by
  unfold repair_win
  rw [hinfo]
  dsimp only
  rw [if_pos h]

theorem repair_win_unnamed (env : Env) (t : CompState) (info : MetaCompScreen) (cw : NodeId)
    (hinfo : t.compositor_data = some info)
    (hroot : (t.heap cw).priv.xwindow ≠ t.xroot)
    (hstage : (t.heap cw).priv.xwindow ≠ env.stage_window)
    (hun : (t.heap cw).priv.back_pixmap = None)
    (hname : env.XCompositeNameWindowPixmap (t.heap cw).priv.xwindow = None) :
    ∃ s1, repair_win env t cw = some s1 ∧ (s1.heap cw).priv = (t.heap cw).priv ∧
      (s1.heap cw).parent = (t.heap cw).parent ∧ s1.trap_depth = t.trap_depth + 1 := by
  have hun1 : ((meta_error_trap_push t).heap cw).priv.back_pixmap = None := hun
  have key : ∀ r, repair_win env t cw = r → ∃ s1, r = some s1 ∧
      (s1.heap cw).priv = (t.heap cw).priv ∧ (s1.heap cw).parent = (t.heap cw).parent ∧
      s1.trap_depth = t.trap_depth + 1 := by
    intro r hr
    unfold repair_win at hr
    rw [hinfo] at hr
    dsimp only at hr
    rw [if_neg (by simp [hroot, hstage]), if_pos hun1, if_pos hname] at hr
    subst hr
    refine ⟨_, rfl, ?_, ?_, rfl⟩
    · have hb : (t.heap cw).priv.back_pixmap = env.XCompositeNameWindowPixmap
          (t.heap cw).priv.xwindow := hun.trans hname.symm
      simp only [CompState.set_priv, meta_error_trap_push, if_true]
      rw [← hb]
    · simp [CompState.set_priv, meta_error_trap_push]
  obtain ⟨s1, h1, h2⟩ := key _ rfl
  exact ⟨s1, h1, h2⟩

/-- C18 (amended): `repair_win` after `meta_comp_window_detach` of a node on a
managed screen. If the node's window is neither the root nor the stage window
and its pixmap can be named, the call returns with that pixmap bound as backing
buffer (so the buffer is present), the texture actor bound to it and sized to
the pixmap's width and height, the shadow, when the node has one, set to the
same width and height, and the error trap popped. If the pixmap cannot be named
the call returns with the buffer absent and the node as the detach left it,
texture actor and shadow as before. If the window is the root or the stage
window the call returns the state it was given. -/
theorem detach_repair_binds (env : Env) (s : CompState) (info : MetaCompScreen) (cw : NodeId)
    (hinfo : s.compositor_data = some info) :
    ((s.heap cw).priv.xwindow ≠ s.xroot → (s.heap cw).priv.xwindow ≠ env.stage_window →
      env.XCompositeNameWindowPixmap (s.heap cw).priv.xwindow ≠ None →
      ∃ s1, repair_win env (meta_comp_window_detach s cw) cw = some s1 ∧
        (s1.heap cw).priv.back_pixmap = env.XCompositeNameWindowPixmap (s.heap cw).priv.xwindow ∧
        (s1.heap cw).priv.back_pixmap ≠ None ∧
        (s1.heap cw).priv.actor.pixmap =
          env.XCompositeNameWindowPixmap (s.heap cw).priv.xwindow ∧
        (s1.heap cw).priv.actor.width =
          (env.pixmap_size (env.XCompositeNameWindowPixmap (s.heap cw).priv.xwindow)).1 ∧
        (s1.heap cw).priv.actor.height =
          (env.pixmap_size (env.XCompositeNameWindowPixmap (s.heap cw).priv.xwindow)).2 ∧
        (s1.heap cw).priv.shadow = (s.heap cw).priv.shadow.map (fun sh =>
          { sh with
            width :=
              (env.pixmap_size (env.XCompositeNameWindowPixmap (s.heap cw).priv.xwindow)).1
            height :=
              (env.pixmap_size (env.XCompositeNameWindowPixmap (s.heap cw).priv.xwindow)).2 }) ∧
        s1.trap_depth = s.trap_depth) ∧
    ((s.heap cw).priv.xwindow ≠ s.xroot → (s.heap cw).priv.xwindow ≠ env.stage_window →
      env.XCompositeNameWindowPixmap (s.heap cw).priv.xwindow = None →
      ∃ s1, repair_win env (meta_comp_window_detach s cw) cw = some s1 ∧
        (s1.heap cw).priv.back_pixmap = None ∧
        (s1.heap cw).priv = ((meta_comp_window_detach s cw).heap cw).priv ∧
        (s1.heap cw).priv.actor = (s.heap cw).priv.actor ∧
        (s1.heap cw).priv.shadow = (s.heap cw).priv.shadow) ∧
    ((s.heap cw).priv.xwindow = s.xroot ∨ (s.heap cw).priv.xwindow = env.stage_window →
      repair_win env (meta_comp_window_detach s cw) cw = some (meta_comp_window_detach s cw)) := by
  have hx := detach_xwindow s cw
  obtain ⟨_, hd2, _, hd4, hd5⟩ := detach_queue s cw
  have hcd := (detach_compositor_data s cw).trans hinfo
  refine ⟨fun hroot hstage hname => ?_, fun hroot hstage hname => ?_, fun h => ?_⟩
  · obtain ⟨s1, h1, h2, h3, h4, h5, h6, h7⟩ := repair_win_unattached env
      (meta_comp_window_detach s cw) info cw hcd
      (by rw [hx, detach_xroot]; exact hroot) (by rw [hx]; exact hstage)
      (detach_back_pixmap s cw) (by rw [hx]; exact hname)
    rw [hx] at h2 h3 h4 h5 h6
    rw [hd5] at h6
    exact ⟨s1, h1, h2, by rw [h2]; exact hname, h3, h4, h5, h6, h7.trans hd2⟩
  · obtain ⟨s1, h1, h2, _, _⟩ := repair_win_unnamed env
      (meta_comp_window_detach s cw) info cw hcd
      (by rw [hx, detach_xroot]; exact hroot) (by rw [hx]; exact hstage)
      (detach_back_pixmap s cw) (by rw [hx]; exact hname)
    refine ⟨s1, h1, ?_, h2, ?_, ?_⟩
    · rw [h2]; exact detach_back_pixmap s cw
    · rw [h2]; exact hd4
    · rw [h2]; exact hd5
  · refine repair_win_root_or_stage env _ info cw hcd ?_
    rw [hx, detach_xroot]
    exact h

/-- Detach and repair of the override-redirect window 10, whose node has a
shadow. -/
theorem detach_repair_binds_witness :
    CompState.one_menu.compositor_data = some CompState.one_menu.registry ∧
    (((CompState.one_menu.heap 0).priv.xwindow ≠ CompState.one_menu.xroot →
      (CompState.one_menu.heap 0).priv.xwindow ≠ Env.menus.stage_window →
      Env.menus.XCompositeNameWindowPixmap (CompState.one_menu.heap 0).priv.xwindow ≠ None →
      ∃ s1, repair_win Env.menus (meta_comp_window_detach CompState.one_menu 0) 0 = some s1 ∧
        (s1.heap 0).priv.back_pixmap =
          Env.menus.XCompositeNameWindowPixmap (CompState.one_menu.heap 0).priv.xwindow ∧
        (s1.heap 0).priv.back_pixmap ≠ None ∧
        (s1.heap 0).priv.actor.pixmap =
          Env.menus.XCompositeNameWindowPixmap (CompState.one_menu.heap 0).priv.xwindow ∧
        (s1.heap 0).priv.actor.width =
          (Env.menus.pixmap_size
            (Env.menus.XCompositeNameWindowPixmap (CompState.one_menu.heap 0).priv.xwindow)).1 ∧
        (s1.heap 0).priv.actor.height =
          (Env.menus.pixmap_size
            (Env.menus.XCompositeNameWindowPixmap (CompState.one_menu.heap 0).priv.xwindow)).2 ∧
        (s1.heap 0).priv.shadow = (CompState.one_menu.heap 0).priv.shadow.map (fun sh =>
          { sh with
            width := (Env.menus.pixmap_size
              (Env.menus.XCompositeNameWindowPixmap (CompState.one_menu.heap 0).priv.xwindow)).1
            height := (Env.menus.pixmap_size
              (Env.menus.XCompositeNameWindowPixmap
                (CompState.one_menu.heap 0).priv.xwindow)).2 }) ∧
        s1.trap_depth = CompState.one_menu.trap_depth) ∧
    ((CompState.one_menu.heap 0).priv.xwindow ≠ CompState.one_menu.xroot →
      (CompState.one_menu.heap 0).priv.xwindow ≠ Env.menus.stage_window →
      Env.menus.XCompositeNameWindowPixmap (CompState.one_menu.heap 0).priv.xwindow = None →
      ∃ s1, repair_win Env.menus (meta_comp_window_detach CompState.one_menu 0) 0 = some s1 ∧
        (s1.heap 0).priv.back_pixmap = None ∧
        (s1.heap 0).priv = ((meta_comp_window_detach CompState.one_menu 0).heap 0).priv ∧
        (s1.heap 0).priv.actor = (CompState.one_menu.heap 0).priv.actor ∧
        (s1.heap 0).priv.shadow = (CompState.one_menu.heap 0).priv.shadow) ∧
    ((CompState.one_menu.heap 0).priv.xwindow = CompState.one_menu.xroot ∨
        (CompState.one_menu.heap 0).priv.xwindow = Env.menus.stage_window →
      repair_win Env.menus (meta_comp_window_detach CompState.one_menu 0) 0 =
        some (meta_comp_window_detach CompState.one_menu 0))) :=
  ⟨rfl, detach_repair_binds Env.menus CompState.one_menu _ 0 rfl⟩

/-- The three cases of `repair_win` after a detach on concrete nodes: the
override-redirect window 10 with a nameable 640 by 480 pixmap is bound and
sized, shadow included; the same node when no pixmap can be named keeps an
absent buffer and its sizes; and the node of the stage window 2 is left
alone. -/
theorem detach_repair_cases :
    (CompState.one_menu.heap 0).priv.xwindow = 10 ∧
    (repair_win Env.menus (meta_comp_window_detach CompState.one_menu 0) 0).map
      (fun s => ((s.heap 0).priv.back_pixmap, (s.heap 0).priv.actor.width,
        (s.heap 0).priv.actor.height)) = some (11, 640, 480) ∧
    (repair_win Env.menus (meta_comp_window_detach CompState.one_menu 0) 0).map
      (fun s => (s.heap 0).priv.shadow.map (fun sh => (sh.width, sh.height))) =
      some (some (640, 480)) ∧
    (repair_win Env.pixmap_unavailable (meta_comp_window_detach CompState.one_menu 0) 0).map
      (fun s => ((s.heap 0).priv.back_pixmap, (s.heap 0).priv.actor.width,
        (s.heap 0).priv.actor.height)) = some (None, 0, 0) ∧
    (CompState.stage_tracked.heap 0).priv.xwindow = Env.quiet.stage_window ∧
    (repair_win Env.quiet (meta_comp_window_detach CompState.stage_tracked 0) 0).map
      (fun s => ((s.heap 0).priv.back_pixmap, (s.heap 0).priv.actor.updates, s.trap_depth)) =
      some (None, 0, 0) :=
  ⟨by decide, by decide, by decide, by decide, by decide, by decide⟩

/-- C19: `meta_comp_window_detach` always leaves the node without backing buffer;
on a node whose buffer is already absent it returns the state it was given;
detaching twice is detaching once; and putting the old buffer handle back into
the detached node gives the old node, all other nodes and all other parts of the
state being untouched. -/
theorem detach_idempotent_total (s : CompState) (self : NodeId) :
    ((meta_comp_window_detach s self).heap self).priv.back_pixmap = None ∧
    ((s.heap self).priv.back_pixmap = None → meta_comp_window_detach s self = s) ∧
    meta_comp_window_detach (meta_comp_window_detach s self) self =
      meta_comp_window_detach s self ∧
    { ((meta_comp_window_detach s self).heap self).priv with
      back_pixmap := (s.heap self).priv.back_pixmap } = (s.heap self).priv ∧
    ((meta_comp_window_detach s self).heap self).parent = (s.heap self).parent ∧
    (∀ k, k ≠ self → (meta_comp_window_detach s self).heap k = s.heap k) ∧
    (meta_comp_window_detach s self).compositor_data = s.compositor_data ∧
    (meta_comp_window_detach s self).next_alloc = s.next_alloc ∧
    (meta_comp_window_detach s self).xroot = s.xroot ∧
    (meta_comp_window_detach s self).queue = s.queue ∧
    (meta_comp_window_detach s self).trap_depth = s.trap_depth ∧
    (meta_comp_window_detach s self).effects = s.effects := by
  have hnone : ∀ t : CompState, (t.heap self).priv.back_pixmap = None →
      meta_comp_window_detach t self = t := by
    intro t h
    unfold meta_comp_window_detach
    rw [if_neg (by simp [h])]
  have hback := detach_back_pixmap s self
  refine ⟨hback, hnone s, hnone _ hback, ?_, ?_, ?_, ?_, ?_, ?_, ?_, ?_, ?_⟩
  all_goals
    unfold meta_comp_window_detach
    split <;> simp [CompState.set_priv]
  intro k hk
  simp [hk]

/-- Detaching node 0 of the three-window registry, whose buffer is absent. -/
theorem detach_idempotent_total_witness :
    (CompState.three_windows.heap 0).priv.back_pixmap = None ∧
    meta_comp_window_detach CompState.three_windows 0 = CompState.three_windows :=
  ⟨by decide, (detach_idempotent_total CompState.three_windows 0).2.1 (by decide)⟩

/-! ## Classification -/

/-- C20 (as stated, fails): for a node with a logical window whose type atom is
`None` and whose cached type is Dock, `meta_comp_window_get_window_type` takes
the classification from the type hints: Normal without hints, Desktop with the
Desktop hint. -/
theorem managed_without_type_atom_uses_hints :
    (meta_comp_window_get_window_type (Env.type_atom_unset [])
      { MetaCompWindowPrivate.plain with window := some 5 }).type = MetaCompWindowType.NORMAL ∧
    (meta_comp_window_get_window_type
      (Env.type_atom_unset [Atom.NET_WM_WINDOW_TYPE_DESKTOP])
      { MetaCompWindowPrivate.plain with window := some 5 }).type = MetaCompWindowType.DESKTOP ∧
    MetaCompWindowType.ofWindowType ((Env.type_atom_unset []).meta_window_get_type 5) =
      MetaCompWindowType.DOCK := by
  decide

/-- C20 (amended): for a node with a logical window whose type atom is set,
`meta_comp_window_get_window_type` stores the logical window's cached type and
changes nothing else, whatever the type hints of the X window are; for a node
with a logical window whose type atom is `None` the classification is resolved
from the type hints, as for a node without logical window. -/
theorem window_type_of_managed (env : Env) (priv : MetaCompWindowPrivate) (w : MetaWindow)
    (hwin : priv.window = some w) :
    (env.meta_window_get_type_atom w ≠ Atom.None →
      meta_comp_window_get_window_type env priv =
        { priv with type := MetaCompWindowType.ofWindowType (env.meta_window_get_type w) } ∧
      ∀ atoms, meta_comp_window_get_window_type
          { env with window_type_atoms := atoms } priv =
        meta_comp_window_get_window_type env priv) ∧
    (env.meta_window_get_type_atom w = Atom.None →
      meta_comp_window_get_window_type env priv =
        { priv with
          type := (window_type_from_atoms MetaCompWindowType.NORMAL
            (env.window_type_atoms priv.xwindow)) }) := by
  refine ⟨fun h => ⟨?_, fun atoms => ?_⟩, fun h => ?_⟩
  · simp [meta_comp_window_get_window_type, hwin, h]
  · simp [meta_comp_window_get_window_type, hwin, h]
  · simp [meta_comp_window_get_window_type, hwin, h]

/-- The classification of a node whose logical window 5 has its type atom set
and the cached type Dock. -/
theorem window_type_of_managed_witness :
    ({ MetaCompWindowPrivate.plain with window := some 5 } : MetaCompWindowPrivate).window =
      some 5 ∧
    (Env.managed MetaWindowType.DOCK).meta_window_get_type_atom 5 ≠ Atom.None ∧
    meta_comp_window_get_window_type (Env.managed MetaWindowType.DOCK)
        { MetaCompWindowPrivate.plain with window := some 5 } =
      { ({ MetaCompWindowPrivate.plain with window := some 5 } : MetaCompWindowPrivate) with
        type := MetaCompWindowType.ofWindowType
          ((Env.managed MetaWindowType.DOCK).meta_window_get_type 5) } ∧
    ∀ atoms, meta_comp_window_get_window_type
        { Env.managed MetaWindowType.DOCK with window_type_atoms := atoms }
        { MetaCompWindowPrivate.plain with window := some 5 } =
      meta_comp_window_get_window_type (Env.managed MetaWindowType.DOCK)
        { MetaCompWindowPrivate.plain with window := some 5 } :=
  ⟨rfl, by decide,
    (window_type_of_managed (Env.managed MetaWindowType.DOCK)
      { MetaCompWindowPrivate.plain with window := some 5 } 5 rfl).1 (by decide)⟩

/-! ## Classification from type hints -/

theorem window_type_from_atoms_table (atoms : List Atom) :
    window_type_from_atoms MetaCompWindowType.NORMAL atoms = first_recognised_hint atoms := by
  induction atoms with
  | nil => rfl
  | cons a rest ih =>
    unfold first_recognised_hint at ih ⊢
    cases a <;> simp [window_type_from_atoms, List.findSome?, type_hint_table, ih]

theorem first_recognised_hint_range (atoms : List Atom) :
    first_recognised_hint atoms ∈
      [MetaCompWindowType.NORMAL, MetaCompWindowType.DESKTOP, MetaCompWindowType.DOCK,
        MetaCompWindowType.DND] := by
  induction atoms with
  | nil => simp [first_recognised_hint]
  | cons a rest ih =>
    unfold first_recognised_hint at ih ⊢
    cases a <;> simp [List.findSome?, type_hint_table] <;> simpa using ih

/-- C21: for a node without a logical window, `meta_comp_window_get_window_type`
stores the table entry of the first atom of the type-hint list that the table
recognises and touches no other field; the stored type is Normal when no atom of
the list (in particular of the empty list, which is also what a failed read
leaves) is recognised, and it is always one of Normal, Desktop, Dock, DragIcon. -/
theorem window_type_first_recognised_hint (env : Env) (priv : MetaCompWindowPrivate)
    (hwindow : priv.window = none) :
    meta_comp_window_get_window_type env priv =
      { priv with type := first_recognised_hint (env.window_type_atoms priv.xwindow) } ∧
    ((∀ a ∈ env.window_type_atoms priv.xwindow, type_hint_table a = none) →
      (meta_comp_window_get_window_type env priv).type = MetaCompWindowType.NORMAL) ∧
    (meta_comp_window_get_window_type env priv).type ∈
      [MetaCompWindowType.NORMAL, MetaCompWindowType.DESKTOP, MetaCompWindowType.DOCK,
        MetaCompWindowType.DND] := by
  have e : meta_comp_window_get_window_type env priv =
      { priv with type := first_recognised_hint (env.window_type_atoms priv.xwindow) } := by
    unfold meta_comp_window_get_window_type
    rw [hwindow]
    dsimp only
    rw [window_type_from_atoms_table]
  refine ⟨e, ?_, ?_⟩
  · intro hall
    rw [e]
    show first_recognised_hint _ = _
    unfold first_recognised_hint
    have : (env.window_type_atoms priv.xwindow).findSome? type_hint_table = none := by
      rw [List.findSome?_eq_none_iff]
      exact hall
    rw [this]
  · rw [e]
    exact first_recognised_hint_range _

theorem window_type_first_recognised_hint_witness :
    MetaCompWindowPrivate.plain.window = none ∧
    (meta_comp_window_get_window_type
        (Env.with_type_atoms [Atom.other 5, Atom.NET_WM_WINDOW_TYPE_DOCK,
          Atom.NET_WM_WINDOW_TYPE_DND]) MetaCompWindowPrivate.plain =
      { MetaCompWindowPrivate.plain with
        type := first_recognised_hint
          ((Env.with_type_atoms [Atom.other 5, Atom.NET_WM_WINDOW_TYPE_DOCK,
            Atom.NET_WM_WINDOW_TYPE_DND]).window_type_atoms MetaCompWindowPrivate.plain.xwindow) } ∧
    ((∀ a ∈ (Env.with_type_atoms [Atom.other 5, Atom.NET_WM_WINDOW_TYPE_DOCK,
          Atom.NET_WM_WINDOW_TYPE_DND]).window_type_atoms MetaCompWindowPrivate.plain.xwindow,
        type_hint_table a = none) →
      (meta_comp_window_get_window_type
        (Env.with_type_atoms [Atom.other 5, Atom.NET_WM_WINDOW_TYPE_DOCK,
          Atom.NET_WM_WINDOW_TYPE_DND]) MetaCompWindowPrivate.plain).type =
        MetaCompWindowType.NORMAL) ∧
    (meta_comp_window_get_window_type
        (Env.with_type_atoms [Atom.other 5, Atom.NET_WM_WINDOW_TYPE_DOCK,
          Atom.NET_WM_WINDOW_TYPE_DND]) MetaCompWindowPrivate.plain).type ∈
      [MetaCompWindowType.NORMAL, MetaCompWindowType.DESKTOP, MetaCompWindowType.DOCK,
        MetaCompWindowType.DND]) :=
  ⟨rfl, window_type_first_recognised_hint _ _ rfl⟩

/-! ## Screen sessions -/

/-- C22: when redirecting the screen's windows fails and the screen has no
compositor data, `clutter_cmp_manage_screen` returns the state it was given, so
the compositor data stays absent; in that state `add_win` and
`clutter_cmp_add_window` return the state unchanged and every lookup finds no
node. On a screen that already has compositor data `clutter_cmp_manage_screen`
returns the state it was given. -/
theorem manage_screen_refused_no_session (env : Env) (s : CompState)
    (hnone : s.compositor_data = none) (herr : env.XCompositeRedirect_error = true) :
    clutter_cmp_manage_screen env s = s ∧
    (clutter_cmp_manage_screen env s).compositor_data = none ∧
    (∀ (env1 : Env) (window : Option MetaWindow) (xwindow : Window),
      add_win env1 (clutter_cmp_manage_screen env s) window xwindow =
        clutter_cmp_manage_screen env s ∧
      clutter_cmp_add_window env1 (clutter_cmp_manage_screen env s) window xwindow =
        clutter_cmp_manage_screen env s ∧
      find_window_for_screen (clutter_cmp_manage_screen env s) xwindow = none ∧
      find_window_in_display (clutter_cmp_manage_screen env s) xwindow = none) ∧
    (∀ (env1 : Env) (t : CompState), t.compositor_data.isSome = true →
      clutter_cmp_manage_screen env1 t = t) := by
  have e : clutter_cmp_manage_screen env s = s := by
    unfold clutter_cmp_manage_screen
    rw [hnone, herr]
    rfl
  rw [e]
  refine ⟨rfl, hnone, ?_, ?_⟩
  · intro env1 window xwindow
    have hadd : ∀ t : CompState, t.compositor_data = none → add_win env1 t window xwindow = t := by
      intro t ht
      unfold add_win
      rw [ht]
    refine ⟨hadd s hnone, ?_, ?_, ?_⟩
    · unfold clutter_cmp_add_window
      rw [hadd (meta_error_trap_push s) hnone, trap_pop_push]
    · unfold find_window_for_screen
      rw [hnone]
    · unfold find_window_in_display find_window_for_screen
      rw [hnone]
  · intro env1 t ht
    unfold clutter_cmp_manage_screen
    rw [if_pos ht]

theorem manage_screen_refused_no_session_witness :
    (CompState.start 1).compositor_data = none ∧
    Env.redirect_refused.XCompositeRedirect_error = true ∧
    (clutter_cmp_manage_screen Env.redirect_refused (CompState.start 1) = CompState.start 1 ∧
    (clutter_cmp_manage_screen Env.redirect_refused (CompState.start 1)).compositor_data = none ∧
    (∀ (env1 : Env) (window : Option MetaWindow) (xwindow : Window),
      add_win env1 (clutter_cmp_manage_screen Env.redirect_refused (CompState.start 1)) window
          xwindow = clutter_cmp_manage_screen Env.redirect_refused (CompState.start 1) ∧
      clutter_cmp_add_window env1
          (clutter_cmp_manage_screen Env.redirect_refused (CompState.start 1)) window xwindow =
        clutter_cmp_manage_screen Env.redirect_refused (CompState.start 1) ∧
      find_window_for_screen (clutter_cmp_manage_screen Env.redirect_refused (CompState.start 1))
        xwindow = none ∧
      find_window_in_display (clutter_cmp_manage_screen Env.redirect_refused (CompState.start 1))
        xwindow = none) ∧
    (∀ (env1 : Env) (t : CompState), t.compositor_data.isSome = true →
      clutter_cmp_manage_screen env1 t = t)) :=
  ⟨rfl, rfl, manage_screen_refused_no_session Env.redirect_refused (CompState.start 1) rfl rfl⟩

/-! ## Events for an unregistered handle -/

/-- An event of one of the six types that look their window up in the handle
map, for a handle the map of a managed screen does not hold, is dropped: the
dispatcher returns the state it was given. -/
theorem process_event_untracked (env : Env) (s : CompState) (h : Window)
    (window : Option MetaWindow) (hmanaged : s.compositor_data.isSome = true)
    (hnone : find_window_in_display s h = none) :
    clutter_cmp_process_event env s (XEvent.MapNotify h) window = some s ∧
    (∀ from_configure : Bool,
      clutter_cmp_process_event env s (XEvent.UnmapNotify h from_configure) window = some s) ∧
    (∀ (above : Window) (x y width height border_width : Int) (override_redirect : Bool),
      clutter_cmp_process_event env s
        (XEvent.ConfigureNotify h above x y width height border_width override_redirect) window =
        some s) ∧
    (∀ place : Place,
      clutter_cmp_process_event env s (XEvent.CirculateNotify h place) window = some s) ∧
    clutter_cmp_process_event env s (XEvent.DamageNotify h) window = some s ∧
    clutter_cmp_process_event env s (XEvent.PropertyNotify h Atom.NET_WM_WINDOW_TYPE) window =
      some s := by
  have hpush : find_window_in_display (meta_error_trap_push s) h = none := hnone
  have hcd : ∃ info, (meta_error_trap_push s).compositor_data = some info := by
    cases hc : s.compositor_data with
    | none => rw [hc] at hmanaged; cases hmanaged
    | some info => exact ⟨info, hc⟩
  obtain ⟨info, hinfo⟩ := hcd
  refine ⟨?_, ?_, ?_, ?_, ?_, ?_⟩
  · unfold clutter_cmp_process_event
    dsimp only
    unfold process_map
    rw [hpush]
    simp [trap_pop_push]
  · intro from_configure
    unfold clutter_cmp_process_event
    dsimp only
    unfold process_unmap
    rw [hpush]
    cases from_configure <;> simp [trap_pop_push]
  · intro above x y width height border_width override_redirect
    unfold clutter_cmp_process_event
    dsimp only
    unfold process_configure_notify
    rw [hpush, hinfo]
    by_cases hroot : h = (meta_error_trap_push s).xroot <;> simp [hroot, trap_pop_push]
  · intro place
    unfold clutter_cmp_process_event
    dsimp only
    unfold process_circulate_notify
    rw [hpush]
    simp [trap_pop_push]
  · unfold clutter_cmp_process_event
    dsimp only
    unfold process_damage
    rw [hpush]
    simp [trap_pop_push]
  · unfold clutter_cmp_process_event
    dsimp only
    unfold process_property_notify
    rw [hpush]
    simp [trap_pop_push]

/-- C23: once `clutter_cmp_destroy_window` has unregistered the node `cw` of a
logical window, the node's handle resolves to no node, and a `MapNotify`,
`UnmapNotify`, `ConfigureNotify`, `CirculateNotify`, `DamageNotify` or
window-type `PropertyNotify` for that handle returns the state it was given:
the node's fields, the order sequence, the handle map, the Dock subset and the
running timelines are all as `clutter_cmp_destroy_window` left them. -/
theorem destroy_window_drops_events (env env1 : Env) (s : CompState) (window : MetaWindow)
    (cw : NodeId) (w1 : Option MetaWindow)
    (htracked : find_window_for_screen s (frame_or_xwindow env window) = some cw)
    (hhandle : (s.heap cw).priv.xwindow = frame_or_xwindow env window) :
    find_window_in_display (clutter_cmp_destroy_window env s window)
      (s.heap cw).priv.xwindow = none ∧
    clutter_cmp_process_event env1 (clutter_cmp_destroy_window env s window)
      (XEvent.MapNotify (s.heap cw).priv.xwindow) w1 =
      some (clutter_cmp_destroy_window env s window) ∧
    (∀ from_configure : Bool,
      clutter_cmp_process_event env1 (clutter_cmp_destroy_window env s window)
        (XEvent.UnmapNotify (s.heap cw).priv.xwindow from_configure) w1 =
        some (clutter_cmp_destroy_window env s window)) ∧
    (∀ (above : Window) (x y width height border_width : Int) (override_redirect : Bool),
      clutter_cmp_process_event env1 (clutter_cmp_destroy_window env s window)
        (XEvent.ConfigureNotify (s.heap cw).priv.xwindow above x y width height border_width
          override_redirect) w1 =
        some (clutter_cmp_destroy_window env s window)) ∧
    (∀ place : Place,
      clutter_cmp_process_event env1 (clutter_cmp_destroy_window env s window)
        (XEvent.CirculateNotify (s.heap cw).priv.xwindow place) w1 =
        some (clutter_cmp_destroy_window env s window)) ∧
    clutter_cmp_process_event env1 (clutter_cmp_destroy_window env s window)
      (XEvent.DamageNotify (s.heap cw).priv.xwindow) w1 =
      some (clutter_cmp_destroy_window env s window) ∧
    clutter_cmp_process_event env1 (clutter_cmp_destroy_window env s window)
      (XEvent.PropertyNotify (s.heap cw).priv.xwindow Atom.NET_WM_WINDOW_TYPE) w1 =
      some (clutter_cmp_destroy_window env s window) := by
  have hcd : ∃ info, s.compositor_data = some info := by
    cases hc : s.compositor_data with
    | none => simp [find_window_for_screen, hc] at htracked
    | some info => exact ⟨info, rfl⟩
  obtain ⟨info, hinfo⟩ := hcd
  obtain ⟨info1, hinfo1, _, _, hnone, _, _⟩ :=
    destroy_window_unregisters env s info window cw hinfo htracked
  rw [hhandle]
  have hnone1 : find_window_in_display (clutter_cmp_destroy_window env s window)
      (frame_or_xwindow env window) = none := hnone
  have hmanaged : (clutter_cmp_destroy_window env s window).compositor_data.isSome = true := by
    rw [hinfo1]
    rfl
  exact ⟨hnone1, process_event_untracked env1 _ _ w1 hmanaged hnone1⟩

theorem destroy_window_drops_events_witness :
    find_window_for_screen CompState.three_windows (frame_or_xwindow Env.quiet 11) = some 1 ∧
    (CompState.three_windows.heap 1).priv.xwindow = frame_or_xwindow Env.quiet 11 ∧
    (find_window_in_display (clutter_cmp_destroy_window Env.quiet CompState.three_windows 11)
      (CompState.three_windows.heap 1).priv.xwindow = none ∧
    clutter_cmp_process_event Env.viewable
      (clutter_cmp_destroy_window Env.quiet CompState.three_windows 11)
      (XEvent.MapNotify (CompState.three_windows.heap 1).priv.xwindow) none =
      some (clutter_cmp_destroy_window Env.quiet CompState.three_windows 11) ∧
    (∀ from_configure : Bool,
      clutter_cmp_process_event Env.viewable
        (clutter_cmp_destroy_window Env.quiet CompState.three_windows 11)
        (XEvent.UnmapNotify (CompState.three_windows.heap 1).priv.xwindow from_configure) none =
        some (clutter_cmp_destroy_window Env.quiet CompState.three_windows 11)) ∧
    (∀ (above : Window) (x y width height border_width : Int) (override_redirect : Bool),
      clutter_cmp_process_event Env.viewable
        (clutter_cmp_destroy_window Env.quiet CompState.three_windows 11)
        (XEvent.ConfigureNotify (CompState.three_windows.heap 1).priv.xwindow above x y width
          height border_width override_redirect) none =
        some (clutter_cmp_destroy_window Env.quiet CompState.three_windows 11)) ∧
    (∀ place : Place,
      clutter_cmp_process_event Env.viewable
        (clutter_cmp_destroy_window Env.quiet CompState.three_windows 11)
        (XEvent.CirculateNotify (CompState.three_windows.heap 1).priv.xwindow place) none =
        some (clutter_cmp_destroy_window Env.quiet CompState.three_windows 11)) ∧
    clutter_cmp_process_event Env.viewable
      (clutter_cmp_destroy_window Env.quiet CompState.three_windows 11)
      (XEvent.DamageNotify (CompState.three_windows.heap 1).priv.xwindow) none =
      some (clutter_cmp_destroy_window Env.quiet CompState.three_windows 11) ∧
    clutter_cmp_process_event Env.viewable
      (clutter_cmp_destroy_window Env.quiet CompState.three_windows 11)
      (XEvent.PropertyNotify (CompState.three_windows.heap 1).priv.xwindow
        Atom.NET_WM_WINDOW_TYPE) none =
      some (clutter_cmp_destroy_window Env.quiet CompState.three_windows 11)) :=
  ⟨by decide, by decide,
    destroy_window_drops_events Env.quiet Env.viewable CompState.three_windows 11 1 none
      (by decide) (by decide)⟩

/-! ## The destroy-pending latch -/

theorem latches_refl (s : CompState) : latches s s :=
  ⟨Nat.le_refl _, fun _ _ h => h⟩

theorem latches_eq {s t t1 : CompState} (h : latches s t) (hh : t1.heap = t.heap)
    (hn : t1.next_alloc = t.next_alloc) : latches s t1 :=
  ⟨hn ▸ h.1, fun k hk hp => by rw [hh]; exact h.2 k hk hp⟩

theorem latches_set_priv {s t : CompState} (cw : NodeId) (p : MetaCompWindowPrivate)
    (hp : (t.heap cw).priv.destroy_pending = true → p.destroy_pending = true)
    (h : latches s t) : latches s (t.set_priv cw p) := by
  refine ⟨h.1, fun k hk hpend => ?_⟩
  have h1 := h.2 k hk hpend
  by_cases hkc : k = cw
  · subst hkc
    simpa [CompState.set_priv] using hp h1
  · simpa [CompState.set_priv, hkc] using h1

theorem latches_set_actor {s t : CompState} (cw : NodeId) (a : ClutterActor)
    (h : latches s t) : latches s (t.set_actor cw a) := by
  refine ⟨h.1, fun k hk hpend => ?_⟩
  have h1 := h.2 k hk hpend
  by_cases hkc : k = cw
  · subst hkc
    simpa [CompState.set_actor] using h1
  · simpa [CompState.set_actor, hkc] using h1

theorem latches_set_info {s t : CompState} (info : MetaCompScreen) (h : latches s t) :
    latches s (t.set_info info) :=
  latches_eq h rfl rfl

theorem latches_set_queue {s t : CompState} (q : List XEvent) (h : latches s t) :
    latches s (t.set_queue q) :=
  latches_eq h rfl rfl

theorem latches_trap_push {s t : CompState} (h : latches s t) :
    latches s (meta_error_trap_push t) :=
  latches_eq h rfl rfl

theorem latches_trap_pop {s t : CompState} (h : latches s t) :
    latches s (meta_error_trap_pop t) :=
  latches_eq h rfl rfl

theorem latches_ite {s a b : CompState} {c : Prop} [Decidable c] (ha : latches s a)
    (hb : latches s b) : latches s (if c then a else b) := by
  split
  · exact ha
  · exact hb

theorem latches_detach {s t : CompState} (self : NodeId) (h : latches s t) :
    latches s (meta_comp_window_detach t self) :=
  latches_ite (latches_set_priv self _ (fun hp => hp) h) h

theorem latches_dispose_damage {s t : CompState} (self : NodeId) (h : latches s t) :
    latches s (dispose_damage t self) :=
  latches_ite (latches_set_priv self _ (fun hp => hp) h) h

theorem latches_dispose {s0 s s1 : CompState} {self : NodeId} (h0 : latches s0 s)
    (h : meta_comp_window_dispose s self = some s1) : latches s0 s1 := by
  unfold meta_comp_window_dispose at h
  split at h
  · cases h; exact h0
  · have hB : latches s0 (dispose_damage (meta_comp_window_detach
        (s.set_priv self { (s.heap self).priv with disposed := true }) self) self) :=
      latches_dispose_damage self
        (latches_detach self (latches_set_priv self _ (fun hp => hp) h0))
    dsimp only at h
    split at h
    · cases h
    · cases h
      exact latches_set_info _ hB

theorem latches_destroy_win {s0 s s1 : CompState} {xwindow : Window} (h0 : latches s0 s)
    (h : destroy_win s xwindow = some s1) : latches s0 s1 := by
  unfold destroy_win at h
  split at h
  · cases h; exact h0
  · exact latches_dispose h0 h

theorem latches_restack_win {s0 s s1 : CompState} {cw : NodeId} {above : Window}
    (h0 : latches s0 s) (h : restack_win s cw above = some s1) : latches s0 s1 := by
  unfold restack_win at h
  split at h
  · cases h
  · dsimp only at h
    split at h
    · cases h; exact latches_set_info _ h0
    · split at h
      · split at h
        · cases h; exact h0
        · split at h
          · cases h
          · cases h; exact latches_set_info _ h0
      · cases h; exact h0

theorem latches_resize_win (s : CompState) (cw : NodeId) (x y width height border_width : Int)
    (override_redirect : Bool) {s0 : CompState} (h : latches s0 s) :
    latches s0 (resize_win s cw x y width height border_width override_redirect) := by
  unfold resize_win
  refine latches_set_priv cw _ (fun hp => hp) (latches_ite (latches_detach cw ?_) ?_) <;>
    exact latches_set_actor cw _ (latches_set_priv cw _ (fun hp => hp) h)

theorem latches_map_win (s : CompState) (id : Window) {s0 : CompState} (h : latches s0 s) :
    latches s0 (map_win s id) := by
  unfold map_win
  split
  · exact h
  · exact latches_set_actor _ _ (latches_set_priv _ _ (fun hp => hp) h)

theorem latches_unmap_win (s : CompState) (id : Window) {s0 : CompState} (h : latches s0 s) :
    latches s0 (unmap_win s id) := by
  unfold unmap_win
  split
  · rename_i cw info _ hcd
    have h1 : latches s0 (if (s.heap cw).priv.window.isSome ∧
        (s.heap cw).priv.window = info.focus_window then
          s.set_info { info with focus_window := none } else s) :=
      latches_ite (latches_set_info _ h) h
    refine latches_ite (latches_set_actor cw _ ?_) ?_ <;>
      exact latches_detach cw (latches_set_priv cw _ (fun hp => hp) h1)
  · exact h

theorem latches_repair_win_update (env : Env) (s : CompState) (cw : NodeId) {s0 : CompState}
    (h : latches s0 s) : latches s0 (repair_win_update env s cw) := by
  unfold repair_win_update
  exact latches_trap_pop (latches_set_priv cw _ (fun hp => hp) h)

theorem latches_repair_win {env : Env} {s0 s s1 : CompState} {cw : NodeId} (h0 : latches s0 s)
    (h : repair_win env s cw = some s1) : latches s0 s1 := by
  unfold repair_win at h
  split at h
  · cases h
  · dsimp only at h
    have hp : latches s0 (meta_error_trap_push s) := latches_trap_push h0
    split at h
    · cases h; exact h0
    · split at h
      · split at h
        · cases h
          exact latches_set_priv cw _ (fun hp => hp) hp
        · cases h
          exact latches_repair_win_update env _ cw
            (latches_set_priv cw _ (fun hp => hp) (latches_set_priv cw _ (fun hp => hp) hp))
      · cases h
        exact latches_repair_win_update env _ cw hp

theorem latches_add_win (env : Env) (s : CompState) (window : Option MetaWindow)
    (xwindow : Window) {s0 : CompState} (h : latches s0 s) :
    latches s0 (add_win env s window xwindow) := by
  unfold add_win
  split
  · exact h
  · split
    · exact h
    · split
      · exact h
      · dsimp only
        refine latches_ite (latches_map_win _ _ ?_) ?_ <;>
        · refine ⟨Nat.le_succ_of_le h.1, fun k hk hpend => ?_⟩
          have hne : k ≠ s.next_alloc := Nat.ne_of_lt (Nat.lt_of_lt_of_le hk h.1)
          simpa [hne] using h.2 k hk hpend

theorem get_window_type_destroy_pending (env : Env) (p : MetaCompWindowPrivate) :
    (meta_comp_window_get_window_type env p).destroy_pending = p.destroy_pending := by
  unfold meta_comp_window_get_window_type
  split
  · split <;> rfl
  · rfl

theorem latches_process_destroy_pending {s0 s s1 : CompState} {cw : NodeId} {next : Window}
    {rest : List XEvent} (h0 : latches s0 s)
    (h : process_destroy ((s.set_queue rest).set_priv cw
      { ((s.set_queue rest).heap cw).priv with destroy_pending := true }) next = some s1) :
    latches s0 s1 :=
  latches_destroy_win (latches_set_priv cw _ (fun _ => rfl) (latches_set_queue rest h0)) h

theorem latches_process_damage {env : Env} {s0 s s1 : CompState} {drawable : Window}
    (h0 : latches s0 s) (h : process_damage env s drawable = some s1) : latches s0 s1 := by
  unfold process_damage at h
  split at h
  · cases h; exact h0
  · split at h
    · cases h; exact h0
    · split at h
      · exact latches_process_destroy_pending h0 h
      · exact latches_repair_win h0 h

theorem latches_process_unmap {s0 s s1 : CompState} {xwin : Window} {from_configure : Bool}
    (h0 : latches s0 s) (h : process_unmap s xwin from_configure = some s1) :
    latches s0 s1 := by
  unfold process_unmap at h
  split at h
  · cases h; exact h0
  · split at h
    · cases h; exact h0
    · split at h
      · cases h; exact h0
      · split at h
        · exact latches_process_destroy_pending h0 h
        · cases h; exact latches_unmap_win s xwin h0

theorem latches_process_configure_notify {s0 s s1 : CompState} {window above : Window}
    {x y width height border_width : Int} {override_redirect : Bool} (h0 : latches s0 s)
    (h : process_configure_notify s window above x y width height border_width
      override_redirect = some s1) : latches s0 s1 := by
  unfold process_configure_notify at h
  split at h
  · rename_i cw hcw
    cases hr : restack_win s cw above with
    | none => simp [hr] at h
    | some s2 =>
      simp only [hr, Option.map_some', Option.some.injEq] at h
      subst h
      exact latches_resize_win s2 cw x y width height border_width override_redirect
        (latches_restack_win h0 hr)
  · split at h
    · split at h
      · cases h
      · cases h; exact h0
    · cases h; exact h0

theorem latches_process_circulate_notify {s0 s s1 : CompState} {window : Window}
    {place : Place} (h0 : latches s0 s) (h : process_circulate_notify s window place = some s1) :
    latches s0 s1 := by
  unfold process_circulate_notify at h
  split at h
  · cases h; exact h0
  · split at h
    · cases h
    · split at h
      · cases h
      · exact latches_restack_win h0 h

theorem latches_process_map {s0 s s1 : CompState} {window : Window} (h0 : latches s0 s)
    (h : process_map s window = some s1) : latches s0 s1 := by
  unfold process_map at h
  split at h
  · cases h; exact h0
  · cases h; exact latches_map_win s window h0

theorem latches_process_property_notify {env : Env} {s0 s s1 : CompState} {window : Window}
    {atom : Atom} (h0 : latches s0 s)
    (h : process_property_notify env s window atom = some s1) : latches s0 s1 := by
  unfold process_property_notify at h
  split at h
  · dsimp only at h
    split at h
    · cases h; exact h0
    · split at h
      · cases h
        exact latches_set_actor _ _ (latches_set_priv _ _ (fun hp => hp) h0)
      · cases h; exact h0
  · split at h
    · split at h
      · cases h; exact h0
      · cases h
        refine latches_set_priv _ _ (fun hp => ?_) h0
        rw [get_window_type_destroy_pending]
        exact hp
    · cases h; exact h0

theorem latches_process_create {env : Env} {s0 s s1 : CompState} {window : Option MetaWindow}
    {event_window event_parent : Window} (h0 : latches s0 s)
    (h : process_create env s window event_window event_parent = some s1) : latches s0 s1 := by
  unfold process_create at h
  split at h
  · split at h
    · cases h; exact latches_add_win env s window event_window h0
    · cases h; exact h0
  · cases h; exact h0

theorem latches_process_reparent {env : Env} {s0 s s1 : CompState} {window : Option MetaWindow}
    {event_window event_parent : Window} (h0 : latches s0 s)
    (h : process_reparent env s window event_window event_parent = some s1) : latches s0 s1 := by
  unfold process_reparent at h
  split at h
  · cases h; exact latches_add_win env s window event_window h0
  · exact latches_destroy_win h0 h

theorem latches_process_event {env : Env} {s s1 : CompState} {event : XEvent}
    {window : Option MetaWindow} (h : clutter_cmp_process_event env s event window = some s1) :
    latches s s1 := by
  unfold clutter_cmp_process_event at h
  dsimp only at h
  have hp : latches s (meta_error_trap_push s) := latches_trap_push (latches_refl s)
  cases hh : (match event with
    | XEvent.CirculateNotify w place => process_circulate_notify (meta_error_trap_push s) w place
    | XEvent.ConfigureNotify w above x y width height border_width override_redirect =>
      process_configure_notify (meta_error_trap_push s) w above x y width height border_width
        override_redirect
    | XEvent.PropertyNotify w atom => process_property_notify env (meta_error_trap_push s) w atom
    | XEvent.Expose => some (meta_error_trap_push s)
    | XEvent.UnmapNotify w from_configure =>
      process_unmap (meta_error_trap_push s) w from_configure
    | XEvent.MapNotify w => process_map (meta_error_trap_push s) w
    | XEvent.ReparentNotify w parent =>
      process_reparent env (meta_error_trap_push s) window w parent
    | XEvent.CreateNotify w parent => process_create env (meta_error_trap_push s) window w parent
    | XEvent.DestroyNotify _ w => process_destroy (meta_error_trap_push s) w
    | XEvent.DamageNotify drawable => process_damage env (meta_error_trap_push s) drawable
    | XEvent.other _ => some (meta_error_trap_push s)) with
  | none => rw [hh] at h; cases h
  | some s2 =>
    rw [hh] at h
    simp only [Option.map_some', Option.some.injEq] at h
    subst h
    refine latches_trap_pop ?_
    cases event with
    | CirculateNotify w place => exact latches_process_circulate_notify hp hh
    | ConfigureNotify w above x y width height border_width override_redirect =>
      exact latches_process_configure_notify hp hh
    | PropertyNotify w atom => exact latches_process_property_notify hp hh
    | Expose => cases hh; exact hp
    | UnmapNotify w from_configure => exact latches_process_unmap hp hh
    | MapNotify w => exact latches_process_map hp hh
    | ReparentNotify w parent => exact latches_process_reparent hp hh
    | CreateNotify w parent => exact latches_process_create hp hh
    | DestroyNotify e w => exact latches_destroy_win hp hh
    | DamageNotify drawable => exact latches_process_damage hp hh
    | other t => cases hh; exact hp

/-- C24: `destroy_pending` is a latch under the dispatcher. For an allocated
node whose flag is set, the flag is set in the state `clutter_cmp_process_event`
returns, whatever the event; and a `DamageNotify`, or an `UnmapNotify`, for a
window that resolves to the node returns the state it was given: nothing is
repaired, detached, hidden or torn down, and the event queue is not read. -/
theorem destroy_pending_latch (env : Env) (s : CompState) (window : Option MetaWindow)
    (k : NodeId) (hk : k < s.next_alloc) (hpend : (s.heap k).priv.destroy_pending = true) :
    (∀ (event : XEvent) (s1 : CompState),
      clutter_cmp_process_event env s event window = some s1 →
      (s1.heap k).priv.destroy_pending = true) ∧
    (∀ w : Window, find_window_in_display s w = some k →
      clutter_cmp_process_event env s (XEvent.DamageNotify w) window = some s ∧
      ∀ from_configure : Bool,
        clutter_cmp_process_event env s (XEvent.UnmapNotify w from_configure) window =
          some s) := by
  refine ⟨fun event s1 h => (latches_process_event h).2 k hk hpend, ?_⟩
  intro w hfind
  have hpush : find_window_in_display (meta_error_trap_push s) w = some k := hfind
  have hpend1 : ((meta_error_trap_push s).heap k).priv.destroy_pending = true := hpend
  refine ⟨?_, fun from_configure => ?_⟩
  · unfold clutter_cmp_process_event
    dsimp only
    unfold process_damage
    rw [hpush]
    dsimp only
    rw [if_pos hpend1]
    simp [trap_pop_push]
  · unfold clutter_cmp_process_event
    dsimp only
    unfold process_unmap
    rw [hpush]
    dsimp only
    rw [if_pos hpend1]
    cases from_configure <;> simp [trap_pop_push]

/-- The node of window 11 in `CompState.pending_node` is tracked, allocated and
flagged, and all three windows are still in the order sequence. -/
theorem pending_node_tracked :
    find_window_in_display CompState.pending_node 11 = some 1 ∧
    CompState.pending_node.registry.windows = [2, 1, 0] ∧
    (CompState.pending_node.heap 1).priv.destroy_pending = true ∧
    (CompState.pending_node.heap 1).priv.disposed = false ∧
    CompState.pending_node.queue = [] :=
  ⟨by decide, by decide, by decide, by decide, by decide⟩

theorem destroy_pending_latch_witness :
    1 < CompState.pending_node.next_alloc ∧
    (CompState.pending_node.heap 1).priv.destroy_pending = true ∧
    ((∀ (event : XEvent) (s1 : CompState),
      clutter_cmp_process_event Env.quiet CompState.pending_node event none = some s1 →
      (s1.heap 1).priv.destroy_pending = true) ∧
    (∀ w : Window, find_window_in_display CompState.pending_node w = some 1 →
      clutter_cmp_process_event Env.quiet CompState.pending_node (XEvent.DamageNotify w) none =
        some CompState.pending_node ∧
      ∀ from_configure : Bool,
        clutter_cmp_process_event Env.quiet CompState.pending_node
          (XEvent.UnmapNotify w from_configure) none = some CompState.pending_node)) :=
  ⟨by decide, by decide,
    destroy_pending_latch Env.quiet CompState.pending_node none 1 (by decide) (by decide)⟩

/-! ## Geometry changes -/

theorem detach_eq_set_priv (s : CompState) (self : NodeId) :
    meta_comp_window_detach s self =
      s.set_priv self { (s.heap self).priv with back_pixmap := None } := by
  unfold meta_comp_window_detach
  split
  · rfl
  · rename_i h
    have hb : (s.heap self).priv.back_pixmap = None := by simpa using h
    cases s with
    | mk heap next_alloc compositor_data xroot queue trap_depth effects =>
      simp only [CompState.set_priv, CompState.mk.injEq, and_true]
      funext k
      by_cases hk : k = self
      · subst hk
        simp only [if_true]
        simp only at hb
        rw [← hb]
      · simp [hk]

theorem g_list_find_get {l : List NodeId} {cw : NodeId} {i : Nat}
    (h : g_list_find l cw = some i) : l.get? i = some cw := by
  induction l generalizing i with
  | nil => cases h
  | cons d rest ih =>
    simp only [g_list_find] at h
    split at h
    · rename_i hd
      cases h
      simp [hd]
    · cases hr : g_list_find rest cw with
      | none => rw [hr] at h; cases h
      | some j =>
        rw [hr] at h
        simp only [Option.map_some', Option.some.injEq] at h
        subst h
        simpa using ih hr

theorem find_above_get {s : CompState} {above : Window} {l : List NodeId} {i : Nat}
    (h : find_above s above l = some i) :
    ∃ n, l.get? i = some n ∧ (s.heap n).priv.xwindow = above := by
  induction l generalizing i with
  | nil => cases h
  | cons d rest ih =>
    simp only [find_above] at h
    split at h
    · rename_i hd
      cases h
      exact ⟨d, by simp, hd⟩
    · cases hr : find_above s above rest with
      | none => rw [hr] at h; cases h
      | some j =>
        rw [hr] at h
        simp only [Option.map_some', Option.some.injEq] at h
        subst h
        obtain ⟨n, hn, hx⟩ := ih hr
        exact ⟨n, by simpa using hn, hx⟩

/-- A `restack_win` above anything but the node's own handle returns, and it
changes nothing but the screen's compositor data. -/
theorem restack_win_returns (s : CompState) (info : MetaCompScreen) (cw : NodeId)
    (above : Window) (hinfo : s.compositor_data = some info)
    (habove : above ≠ (s.heap cw).priv.xwindow) :
    ∃ s1, restack_win s cw above = some s1 ∧ s1.heap = s.heap ∧
      s1.next_alloc = s.next_alloc ∧ s1.xroot = s.xroot ∧ s1.queue = s.queue ∧
      s1.trap_depth = s.trap_depth ∧ s1.effects = s.effects := by
  unfold restack_win
  rw [hinfo]
  dsimp only
  split
  · exact ⟨_, rfl, rfl, rfl, rfl, rfl, rfl, rfl⟩
  · split
    · cases hf : find_above s above info.windows with
      | none => exact ⟨s, rfl, rfl, rfl, rfl, rfl, rfl, rfl⟩
      | some index =>
        dsimp only
        cases hl : link_after_delete index (g_list_find info.windows cw) with
        | some index1 => exact ⟨_, rfl, rfl, rfl, rfl, rfl, rfl, rfl⟩
        | none =>
          exfalso
          cases hs : g_list_find info.windows cw with
          | none => rw [hs] at hl; cases hl
          | some i =>
            rw [hs] at hl
            simp only [link_after_delete] at hl
            split at hl
            · cases hl
            · split at hl
              · rename_i heq
                subst heq
                obtain ⟨n, hn, hx⟩ := find_above_get hf
                rw [g_list_find_get hs] at hn
                cases hn
                exact habove hx.symm
              · cases hl
    · exact ⟨s, rfl, rfl, rfl, rfl, rfl, rfl, rfl⟩

/-- What `resize_win` leaves in the node: the six geometry fields of the event,
the actor at the new position, and the backing buffer released exactly when the
size differs from the stored one. -/
theorem resize_win_node (s : CompState) (cw : NodeId) (x y width height border_width : Int)
    (override_redirect : Bool) :
    ((resize_win s cw x y width height border_width override_redirect).heap cw).priv =
      { (s.heap cw).priv with
        attrs :=
          { (s.heap cw).priv.attrs with
            x := x, y := y, width := width, height := height, border_width := border_width
            override_redirect := override_redirect }
        back_pixmap :=
          if (s.heap cw).priv.attrs.width ≠ width ∨ (s.heap cw).priv.attrs.height ≠ height then
            None
          else (s.heap cw).priv.back_pixmap } ∧
    ((resize_win s cw x y width height border_width override_redirect).heap cw).parent =
      { (s.heap cw).parent with x := x, y := y } := by
  unfold resize_win
  dsimp only
  by_cases hsize : (s.heap cw).priv.attrs.width ≠ width ∨ (s.heap cw).priv.attrs.height ≠ height
  · rw [detach_eq_set_priv]
    simp [CompState.set_priv, CompState.set_actor, hsize]
  · simp [CompState.set_priv, CompState.set_actor, hsize]

/-- C25: a `ConfigureNotify` for a tracked window, whose `above` field names
another window or none, is handled, and afterwards the node stores the event's
x, y, width, height, border width and override-redirect flag, its actor is at
the event's position, and its backing buffer is released if the event's width or
height differs from the stored one and is the buffer it had before if both are
equal; no other field of the node changes. -/
theorem configure_notify_geometry (env : Env) (s : CompState) (window : Option MetaWindow)
    (w above : Window) (cw : NodeId) (x y width height border_width : Int)
    (override_redirect : Bool) (htracked : find_window_in_display s w = some cw)
    (hhandle : (s.heap cw).priv.xwindow = w) (habove : above ≠ w) :
    ∃ s1, clutter_cmp_process_event env s
        (XEvent.ConfigureNotify w above x y width height border_width override_redirect)
        window = some s1 ∧
      (s1.heap cw).priv.attrs.x = x ∧ (s1.heap cw).priv.attrs.y = y ∧
      (s1.heap cw).priv.attrs.width = width ∧ (s1.heap cw).priv.attrs.height = height ∧
      (s1.heap cw).priv.attrs.border_width = border_width ∧
      (s1.heap cw).priv.attrs.override_redirect = override_redirect ∧
      (s1.heap cw).parent.x = x ∧ (s1.heap cw).parent.y = y ∧
      ((s.heap cw).priv.attrs.width ≠ width ∨ (s.heap cw).priv.attrs.height ≠ height →
        (s1.heap cw).priv.back_pixmap = None) ∧
      ((s.heap cw).priv.attrs.width = width ∧ (s.heap cw).priv.attrs.height = height →
        (s1.heap cw).priv.back_pixmap = (s.heap cw).priv.back_pixmap) ∧
      { (s1.heap cw).priv with
        attrs := (s.heap cw).priv.attrs, back_pixmap := (s.heap cw).priv.back_pixmap } =
        (s.heap cw).priv := by
  have hcd : ∃ info, (meta_error_trap_push s).compositor_data = some info := by
    cases hc : s.compositor_data with
    | none => simp [find_window_in_display, find_window_for_screen, hc] at htracked
    | some info => exact ⟨info, hc⟩
  obtain ⟨info, hinfo⟩ := hcd
  have hab : above ≠ ((meta_error_trap_push s).heap cw).priv.xwindow := by
    show above ≠ (s.heap cw).priv.xwindow
    rw [hhandle]
    exact habove
  obtain ⟨s2, hr, hheap, _⟩ := restack_win_returns (meta_error_trap_push s) info cw above hinfo hab
  have hheap2 : s2.heap cw = s.heap cw := by
    rw [hheap]
    rfl
  have hpush : find_window_in_display (meta_error_trap_push s) w = some cw := htracked
  have e : clutter_cmp_process_event env s
      (XEvent.ConfigureNotify w above x y width height border_width override_redirect) window =
      some (meta_error_trap_pop
        (resize_win s2 cw x y width height border_width override_redirect)) := by
    unfold clutter_cmp_process_event
    dsimp only
    unfold process_configure_notify
    rw [hpush]
    dsimp only
    rw [hr]
    rfl
  obtain ⟨hpriv, hparent⟩ :=
    resize_win_node s2 cw x y width height border_width override_redirect
  rw [hheap2] at hpriv hparent
  refine ⟨_, e, ?_⟩
  have hp : ((meta_error_trap_pop
      (resize_win s2 cw x y width height border_width override_redirect)).heap cw).priv =
      ((resize_win s2 cw x y width height border_width override_redirect).heap cw).priv := rfl
  have ha : ((meta_error_trap_pop
      (resize_win s2 cw x y width height border_width override_redirect)).heap cw).parent =
      ((resize_win s2 cw x y width height border_width override_redirect).heap cw).parent := rfl
  rw [hp, ha, hpriv, hparent]
  refine ⟨rfl, rfl, rfl, rfl, rfl, rfl, rfl, rfl, ?_, ?_, rfl⟩
  · intro hsize
    show (if _ then None else _) = None
    rw [if_pos hsize]
  · intro hsize
    show (if _ then None else _) = _
    rw [if_neg (by simp [hsize.1, hsize.2])]

theorem configure_notify_geometry_witness :
    find_window_in_display CompState.three_windows 11 = some 1 ∧
    (CompState.three_windows.heap 1).priv.xwindow = 11 ∧ (10 : Window) ≠ 11 ∧
    ∃ s1, clutter_cmp_process_event Env.quiet CompState.three_windows
        (XEvent.ConfigureNotify 11 10 5 6 7 8 1 true) none = some s1 ∧
      (s1.heap 1).priv.attrs.x = 5 ∧ (s1.heap 1).priv.attrs.y = 6 ∧
      (s1.heap 1).priv.attrs.width = 7 ∧ (s1.heap 1).priv.attrs.height = 8 ∧
      (s1.heap 1).priv.attrs.border_width = 1 ∧
      (s1.heap 1).priv.attrs.override_redirect = true ∧
      (s1.heap 1).parent.x = 5 ∧ (s1.heap 1).parent.y = 6 ∧
      ((CompState.three_windows.heap 1).priv.attrs.width ≠ 7 ∨
          (CompState.three_windows.heap 1).priv.attrs.height ≠ 8 →
        (s1.heap 1).priv.back_pixmap = None) ∧
      ((CompState.three_windows.heap 1).priv.attrs.width = 7 ∧
          (CompState.three_windows.heap 1).priv.attrs.height = 8 →
        (s1.heap 1).priv.back_pixmap = (CompState.three_windows.heap 1).priv.back_pixmap) ∧
      { (s1.heap 1).priv with
        attrs := (CompState.three_windows.heap 1).priv.attrs
        back_pixmap := (CompState.three_windows.heap 1).priv.back_pixmap } =
        (CompState.three_windows.heap 1).priv :=
  ⟨by decide, by decide, by decide,
    configure_notify_geometry Env.quiet CompState.three_windows none 11 10 1 5 6 7 8 1 true
      (by decide) (by decide) (by decide)⟩

/-! ## Unmapping -/

/-- What `unmap_win` does for a tracked window: the focus reference is cleared
exactly when the node's logical window is the focused one, the node is marked
unmapped, its backing buffer released, and its actor hidden unless a minimize
effect is running; nothing else changes. -/
theorem unmap_win_tracked (s : CompState) (info : MetaCompScreen) (id : Window) (cw : NodeId)
    (hinfo : s.compositor_data = some info) (hfind : find_window_for_screen s id = some cw) :
    unmap_win s id =
      (((if (s.heap cw).priv.window.isSome ∧ (s.heap cw).priv.window = info.focus_window then
          s.set_info { info with focus_window := none }
        else s).set_priv cw
        { (s.heap cw).priv with
          attrs := { (s.heap cw).priv.attrs with map_state := MapState.IsUnmapped }
          back_pixmap := None }).set_actor cw
        { (s.heap cw).parent with
          visible :=
            if (s.heap cw).priv.minimize_in_progress then (s.heap cw).parent.visible
            else false }) := by
  unfold unmap_win
  rw [hfind, hinfo]
  dsimp only
  rw [detach_eq_set_priv]
  generalize hs1 : (if (s.heap cw).priv.window.isSome ∧
      (s.heap cw).priv.window = info.focus_window then
        s.set_info { info with focus_window := none } else s) = s1
  have hheap : s1.heap = s.heap := by
    rw [← hs1]
    split <;> rfl
  cases s1 with
  | mk heap1 next_alloc compositor_data xroot queue trap_depth effects =>
    simp only at hheap
    subst hheap
    by_cases hmin : (s.heap cw).priv.minimize_in_progress = true
    · simp only [hmin, CompState.set_priv, CompState.set_actor, if_true, not_true_eq_false,
        if_false, CompState.mk.injEq, true_and, and_true]
      funext k
      by_cases hk : k = cw
      · subst hk
        simp
      · simp [hk]
    · have hmin1 : (s.heap cw).priv.minimize_in_progress = false := by simpa using hmin
      simp only [hmin1, CompState.set_priv, CompState.set_actor, if_true, not_true_eq_false,
        if_false, CompState.mk.injEq, true_and, and_true, not_false_eq_true,
        Bool.false_eq_true]
      funext k
      by_cases hk : k = cw
      · subst hk
        simp
      · simp [hk]

/-- C26: an `UnmapNotify` flagged `from_configure` returns the state it was
given, whatever its window. An `UnmapNotify` not so flagged, for a tracked
window whose node is not destroy-pending while no `DestroyNotify` of the window
is queued, is handled: the node is marked unmapped and its backing buffer is
absent, the focus reference is cleared if the node's logical window is the
focused one and is unchanged otherwise, the actor is hidden if no minimize is
in progress and keeps its visibility otherwise, and the order sequence, the
handle map, the Dock subset, the node's remaining fields and all other nodes are
as before. -/
theorem unmap_notify_effect (env : Env) (s : CompState) (info : MetaCompScreen)
    (window : Option MetaWindow) (w : Window) (cw : NodeId)
    (hinfo : s.compositor_data = some info) (htracked : find_window_in_display s w = some cw)
    (hpend : (s.heap cw).priv.destroy_pending = false)
    (hqueue : XCheckTypedWindowEvent_DestroyNotify w s.queue = none) :
    (∀ w1 : Window,
      clutter_cmp_process_event env s (XEvent.UnmapNotify w1 true) window = some s) ∧
    ∃ s1 info1, clutter_cmp_process_event env s (XEvent.UnmapNotify w false) window = some s1 ∧
      s1.compositor_data = some info1 ∧
      (s1.heap cw).priv.attrs.map_state = MapState.IsUnmapped ∧
      (s1.heap cw).priv.back_pixmap = None ∧
      info1.focus_window =
        (if (s.heap cw).priv.window.isSome ∧ (s.heap cw).priv.window = info.focus_window then
          none
        else info.focus_window) ∧
      (s1.heap cw).parent.visible =
        (if (s.heap cw).priv.minimize_in_progress then (s.heap cw).parent.visible else false) ∧
      info1.windows = info.windows ∧ info1.windows_by_xid = info.windows_by_xid ∧
      info1.dock_windows = info.dock_windows ∧
      { (s1.heap cw).priv with
        attrs := (s.heap cw).priv.attrs, back_pixmap := (s.heap cw).priv.back_pixmap } =
        (s.heap cw).priv ∧
      { (s1.heap cw).priv.attrs with map_state := (s.heap cw).priv.attrs.map_state } =
        (s.heap cw).priv.attrs ∧
      (∀ k, k ≠ cw → s1.heap k = s.heap k) ∧
      s1.queue = s.queue ∧ s1.trap_depth = s.trap_depth ∧ s1.effects = s.effects := by
  refine ⟨fun w1 => ?_, ?_⟩
  · unfold clutter_cmp_process_event
    dsimp only
    unfold process_unmap
    simp [trap_pop_push]
  · have hpush : find_window_in_display (meta_error_trap_push s) w = some cw := htracked
    have hpend1 : ¬ ((meta_error_trap_push s).heap cw).priv.destroy_pending = true := by
      show ¬ (s.heap cw).priv.destroy_pending = true
      rw [hpend]
      simp
    have hqueue1 : XCheckTypedWindowEvent_DestroyNotify w (meta_error_trap_push s).queue = none :=
      hqueue
    have e : clutter_cmp_process_event env s (XEvent.UnmapNotify w false) window =
        some (meta_error_trap_pop (unmap_win (meta_error_trap_push s) w)) := by
      unfold clutter_cmp_process_event
      dsimp only
      unfold process_unmap
      rw [if_neg (by simp), hpush]
      dsimp only
      rw [if_neg hpend1, hqueue1]
      rfl
    rw [e, unmap_win_tracked (meta_error_trap_push s) info w cw hinfo hpush]
    have hh : (meta_error_trap_push s).heap = s.heap := rfl
    rw [hh]
    by_cases hfocus : (s.heap cw).priv.window.isSome ∧ (s.heap cw).priv.window = info.focus_window
    · rw [if_pos hfocus, if_pos hfocus]
      refine ⟨_, { info with focus_window := none }, rfl, rfl, ?_, ?_, rfl, ?_, rfl, rfl, rfl,
        ?_, ?_, ?_, rfl, ?_, rfl⟩
      · simp [meta_error_trap_pop, CompState.set_actor, CompState.set_priv]
      · simp [meta_error_trap_pop, CompState.set_actor, CompState.set_priv]
      · simp [meta_error_trap_pop, CompState.set_actor, CompState.set_priv]
      · simp [meta_error_trap_pop, CompState.set_actor, CompState.set_priv]
      · simp [meta_error_trap_pop, CompState.set_actor, CompState.set_priv]
      · intro k hk
        simp [meta_error_trap_pop, CompState.set_actor, CompState.set_priv, CompState.set_info,
          meta_error_trap_push, hk]
      · simp [meta_error_trap_pop, CompState.set_actor, CompState.set_priv, CompState.set_info,
          meta_error_trap_push]
    · rw [if_neg hfocus, if_neg hfocus]
      refine ⟨_, info, rfl, hinfo, ?_, ?_, rfl, ?_, rfl, rfl, rfl, ?_, ?_, ?_, rfl, ?_, rfl⟩
      · simp [meta_error_trap_pop, CompState.set_actor, CompState.set_priv]
      · simp [meta_error_trap_pop, CompState.set_actor, CompState.set_priv]
      · simp [meta_error_trap_pop, CompState.set_actor, CompState.set_priv]
      · simp [meta_error_trap_pop, CompState.set_actor, CompState.set_priv]
      · simp [meta_error_trap_pop, CompState.set_actor, CompState.set_priv]
      · intro k hk
        simp [meta_error_trap_pop, CompState.set_actor, CompState.set_priv, CompState.set_info,
          meta_error_trap_push, hk]
      · simp [meta_error_trap_pop, CompState.set_actor, CompState.set_priv, CompState.set_info,
          meta_error_trap_push]

/-- Unmapping window 13 of `CompState.focused_window`: node 3 is viewable, shown
and bound to pixmap 14, and its logical window 5 has the focus. -/
theorem unmap_notify_effect_witness :
    CompState.focused_window.compositor_data = some CompState.focused_window.registry ∧
    find_window_in_display CompState.focused_window 13 = some 3 ∧
    (CompState.focused_window.heap 3).priv.destroy_pending = false ∧
    XCheckTypedWindowEvent_DestroyNotify 13 CompState.focused_window.queue = none ∧
    ((∀ w1 : Window,
      clutter_cmp_process_event Env.quiet CompState.focused_window (XEvent.UnmapNotify w1 true)
        none = some CompState.focused_window) ∧
    ∃ s1 info1, clutter_cmp_process_event Env.quiet CompState.focused_window
        (XEvent.UnmapNotify 13 false) none = some s1 ∧
      s1.compositor_data = some info1 ∧
      (s1.heap 3).priv.attrs.map_state = MapState.IsUnmapped ∧
      (s1.heap 3).priv.back_pixmap = None ∧
      info1.focus_window =
        (if (CompState.focused_window.heap 3).priv.window.isSome ∧
            (CompState.focused_window.heap 3).priv.window =
              CompState.focused_window.registry.focus_window then
          none
        else CompState.focused_window.registry.focus_window) ∧
      (s1.heap 3).parent.visible =
        (if (CompState.focused_window.heap 3).priv.minimize_in_progress then
          (CompState.focused_window.heap 3).parent.visible
        else false) ∧
      info1.windows = CompState.focused_window.registry.windows ∧
      info1.windows_by_xid = CompState.focused_window.registry.windows_by_xid ∧
      info1.dock_windows = CompState.focused_window.registry.dock_windows ∧
      { (s1.heap 3).priv with
        attrs := (CompState.focused_window.heap 3).priv.attrs
        back_pixmap := (CompState.focused_window.heap 3).priv.back_pixmap } =
        (CompState.focused_window.heap 3).priv ∧
      { (s1.heap 3).priv.attrs with
        map_state := (CompState.focused_window.heap 3).priv.attrs.map_state } =
        (CompState.focused_window.heap 3).priv.attrs ∧
      (∀ k, k ≠ 3 → s1.heap k = CompState.focused_window.heap k) ∧
      s1.queue = CompState.focused_window.queue ∧
      s1.trap_depth = CompState.focused_window.trap_depth ∧
      s1.effects = CompState.focused_window.effects) :=
  ⟨rfl, by decide, by decide, by decide,
    unmap_notify_effect Env.quiet CompState.focused_window _ none 13 3 rfl (by decide)
      (by decide) (by decide)⟩

/-- The state `CompState.focused_window` before the unmap: node 3 is tracked as
window 13 of the logical window 5, which has the focus; it is viewable, shown
and bound to pixmap 14. -/
theorem focused_window_facts :
    (CompState.focused_window.heap 3).priv.window = some 5 ∧
    CompState.focused_window.registry.focus_window = some 5 ∧
    (CompState.focused_window.heap 3).priv.back_pixmap = 14 ∧
    (CompState.focused_window.heap 3).parent.visible = true ∧
    (CompState.focused_window.heap 3).priv.attrs.map_state = MapState.IsViewable ∧
    (CompState.focused_window.heap 3).priv.minimize_in_progress = false ∧
    CompState.focused_window.registry.windows = [3, 2, 1, 0] :=
  ⟨by decide, by decide, by decide, by decide, by decide, by decide, by decide⟩

/-! ## Circulation and restacking above the node's own handle -/

theorem find_above_own_handle (s : CompState) (l : List NodeId) (cw : NodeId)
    (hdist : l.Pairwise (fun a b => (s.heap a).priv.xwindow ≠ (s.heap b).priv.xwindow))
    (hcw : cw ∈ l) : find_above s (s.heap cw).priv.xwindow l = g_list_find l cw := by
  induction l with
  | nil => cases hcw
  | cons d rest ih =>
    rw [List.pairwise_cons] at hdist
    by_cases hd : d = cw
    · subst hd
      simp [find_above, g_list_find]
    · have hin : cw ∈ rest := by
        rcases List.mem_cons.1 hcw with h | h
        · exact absurd h.symm hd
        · exact h
      have hx : (s.heap d).priv.xwindow ≠ (s.heap cw).priv.xwindow := hdist.1 cw hin
      simp [find_above, g_list_find, hd, hx, ih hdist.2 hin]

/-- In a registry whose nodes have pairwise distinct handles, `restack_win` of a
node of the order sequence above its own handle has no defined result: the
node's cell is found as the sibling, freed by `g_list_delete_link`, and then
handed to `g_list_insert_before`. -/
theorem restack_win_own_handle (s : CompState) (info : MetaCompScreen) (cw : NodeId)
    (hinfo : s.compositor_data = some info)
    (hdist : info.windows.Pairwise
      (fun a b => (s.heap a).priv.xwindow ≠ (s.heap b).priv.xwindow))
    (hcw : cw ∈ info.windows) (hne : (s.heap cw).priv.xwindow ≠ None) :
    restack_win s cw (s.heap cw).priv.xwindow = none := by
  have hnd := nodup_of_distinct_handles s info.windows hdist
  obtain ⟨A, B, hl⟩ := List.append_of_mem hcw
  have hnB : cw ∉ B := by
    rw [hl] at hnd
    exact (List.nodup_cons.1 (List.nodup_append.1 hnd).2.1).1
  have hnA : cw ∉ A := by
    intro h
    rw [hl] at hnd
    exact (List.nodup_append.1 hnd).2.2 h (List.mem_cons_self _ _)
  have hfind : g_list_find info.windows cw = some A.length := by
    rw [hl]
    exact g_list_find_append A B cw hnA
  have hnext : g_list_next_data info.windows (some A.length) = B.head? := by
    rw [hl]
    exact g_list_next_data_append A B cw
  have hprev : (match B.head? with
      | some ncw => (s.heap ncw).priv.xwindow
      | none => None) ≠ (s.heap cw).priv.xwindow := by
    cases hB : B.head? with
    | none => exact fun e => hne e.symm
    | some ncw =>
      have hmem : ncw ∈ B := List.mem_of_mem_head? hB
      have hin : ncw ∈ info.windows := by
        rw [hl]
        simp [hmem]
      have hneq : ncw ≠ cw := fun e => hnB (e ▸ hmem)
      exact distinct_handles s info.windows hdist hin hcw hneq
  have hfa : find_above s (s.heap cw).priv.xwindow info.windows = some A.length := by
    rw [find_above_own_handle s info.windows cw hdist hcw, hfind]
  unfold restack_win
  rw [hinfo]
  dsimp only
  rw [if_neg hne, hfind, hnext, if_pos hprev, hfa]
  simp [link_after_delete]

/-- Where `process_circulate_notify` is defined: for a tracked window whose
node is not the first of the order sequence, while the first node's handle is a
window handle no later node shares, `PlaceOnTop` makes the node the first
element; `PlaceOnBottom` makes the node of any tracked window the last element
of a sequence that is not empty. The other nodes keep their order, and nothing
but the order sequence changes. -/
theorem circulate_notify_reorders (s : CompState) (info : MetaCompScreen) (w : Window)
    (cw top : NodeId) (rest : List NodeId) (hinfo : s.compositor_data = some info)
    (hfind : find_window_in_display s w = some cw) (hl : info.windows = top :: rest) :
    process_circulate_notify s w Place.PlaceOnBottom =
      some (s.set_info { info with windows := info.windows.erase cw ++ [cw] }) ∧
    (cw ≠ top → (s.heap top).priv.xwindow ≠ None →
      (∀ m ∈ rest, (s.heap m).priv.xwindow ≠ (s.heap top).priv.xwindow) →
      process_circulate_notify s w Place.PlaceOnTop =
        some (s.set_info { info with windows := cw :: info.windows.erase cw })) := by
  refine ⟨?_, fun hcw htop hrest => ?_⟩
  · unfold process_circulate_notify
    rw [hfind]
    dsimp only
    rw [hinfo]
    dsimp only
    rw [hl]
    dsimp only
    rw [if_neg (by decide)]
    unfold restack_win
    rw [hinfo]
    dsimp only
    rw [if_pos rfl, g_list_delete_link_find, hl]
    rfl
  · have hsib : ∃ j, g_list_find info.windows cw = j ∧ (j = none ∨ ∃ i, j = some (i + 1)) := by
      rw [hl]
      cases hr : g_list_find rest cw with
      | none => exact ⟨none, by simp [g_list_find, Ne.symm hcw, hr], Or.inl rfl⟩
      | some i => exact ⟨some (i + 1), by simp [g_list_find, Ne.symm hcw, hr], Or.inr ⟨i, rfl⟩⟩
    obtain ⟨j, hj, hjcase⟩ := hsib
    have hprev : (match g_list_next_data info.windows j with
        | some ncw => (s.heap ncw).priv.xwindow
        | none => None) ≠ (s.heap top).priv.xwindow := by
      cases hn : g_list_next_data info.windows j with
      | none => exact fun e => htop e.symm
      | some ncw =>
        rcases hjcase with rfl | ⟨i, rfl⟩
        · cases hn
        · rw [hl] at hn
          simp only [g_list_next_data, List.get?_cons_succ] at hn
          exact hrest ncw (List.get?_mem hn)
    have hfa : find_above s (s.heap top).priv.xwindow info.windows = some 0 := by
      rw [hl]
      simp [find_above]
    have hlink : link_after_delete 0 j = some 0 := by
      rcases hjcase with rfl | ⟨i, rfl⟩
      · rfl
      · simp [link_after_delete]
    unfold process_circulate_notify
    rw [hfind]
    dsimp only
    rw [hinfo]
    dsimp only
    rw [hl]
    dsimp only
    rw [if_pos rfl]
    unfold restack_win
    rw [hinfo]
    dsimp only
    rw [if_neg htop, hj, if_pos hprev, hfa]
    dsimp only
    rw [hlink]
    dsimp only
    rw [← hj, g_list_delete_link_find]
    simp [g_list_insert_before, hl]

/-- C27: in the three-window registry, whose order
sequence is `[2, 1, 0]`, a `CirculateNotify` with `PlaceOnTop` for window 12,
the window of the first node, has no defined result: `restack_win` is called
above the node's own handle. The same event for window 11 makes node 1 the
first element, and `PlaceOnBottom` for window 12 makes node 2 the last. -/
theorem circulate_first_node_to_top :
    CompState.three_windows.registry.windows = [2, 1, 0] ∧
    find_window_in_display CompState.three_windows 12 = some 2 ∧
    (clutter_cmp_process_event Env.quiet CompState.three_windows
      (XEvent.CirculateNotify 12 Place.PlaceOnTop) none).isNone = true ∧
    (clutter_cmp_process_event Env.quiet CompState.three_windows
      (XEvent.CirculateNotify 11 Place.PlaceOnTop) none).map
      (fun s => s.registry.windows) = some [1, 2, 0] ∧
    (clutter_cmp_process_event Env.quiet CompState.three_windows
      (XEvent.CirculateNotify 12 Place.PlaceOnBottom) none).map
      (fun s => s.registry.windows) = some [1, 0, 2] :=
  ⟨by decide, by decide, by decide, by decide, by decide⟩

/-- C30: in the three-window registry, whose nodes
have pairwise distinct handles, `restack_win` of node 1 above its own handle 11
has no defined result, so the order sequence `[2, 1, 0]` is not permuted;
above `None`, above the untracked handle 99 and above the handles of the two
other nodes the call returns a permutation. -/
theorem restack_own_handle_undefined :
    CompState.three_windows.registry.windows = [2, 1, 0] ∧
    CompState.three_windows.registry.windows.Pairwise
      (fun a b => (CompState.three_windows.heap a).priv.xwindow ≠
        (CompState.three_windows.heap b).priv.xwindow) ∧
    (CompState.three_windows.heap 1).priv.xwindow = 11 ∧
    (restack_win CompState.three_windows 1 11).isNone = true ∧
    (restack_win CompState.three_windows 1 None).map (fun s => s.registry.windows) =
      some [2, 0, 1] ∧
    (restack_win CompState.three_windows 1 99).map (fun s => s.registry.windows) =
      some [2, 1, 0] ∧
    (restack_win CompState.three_windows 1 10).map (fun s => s.registry.windows) =
      some [2, 1, 0] ∧
    (restack_win CompState.three_windows 1 12).map (fun s => s.registry.windows) =
      some [1, 2, 0] :=
  ⟨by decide, by decide, by decide, by decide, by decide, by decide, by decide, by decide⟩

/-! ## End values of the destroy transition -/

theorem restack_win_trap_depth {s s1 : CompState} {cw : NodeId} {above : Window}
    (h : restack_win s cw above = some s1) : s1.trap_depth = s.trap_depth := by
  unfold restack_win at h
  split at h
  · cases h
  · dsimp only at h
    split at h
    · cases h; rfl
    · split at h
      · split at h
        · cases h; rfl
        · split at h
          · cases h
          · cases h; rfl
      · cases h; rfl

theorem resize_win_trap_depth (s : CompState) (cw : NodeId) (x y width height border_width : Int)
    (override_redirect : Bool) :
    (resize_win s cw x y width height border_width override_redirect).trap_depth =
      s.trap_depth := by
  unfold resize_win
  dsimp only
  rw [detach_eq_set_priv]
  show (if _ then _ else _ : CompState).trap_depth = _
  split <;> rfl

theorem map_win_trap_depth (s : CompState) (id : Window) :
    (map_win s id).trap_depth = s.trap_depth := by
  unfold map_win
  split <;> rfl

theorem unmap_win_trap_depth (s : CompState) (id : Window) :
    (unmap_win s id).trap_depth = s.trap_depth := by
  unfold unmap_win
  split
  · dsimp only
    rw [detach_eq_set_priv]
    split
    · show (if _ then _ else _ : CompState).trap_depth = _
      split <;> rfl
    · show (if _ then _ else _ : CompState).trap_depth = _
      split <;> rfl
  · rfl

theorem add_win_trap_depth (env : Env) (s : CompState) (window : Option MetaWindow)
    (xwindow : Window) : (add_win env s window xwindow).trap_depth = s.trap_depth := by
  unfold add_win
  split
  · rfl
  · split
    · rfl
    · split
      · rfl
      · dsimp only
        split
        · rw [map_win_trap_depth]
        · rfl

theorem destroy_win_trap_depth {s s1 : CompState} {xwindow : Window}
    (h : destroy_win s xwindow = some s1) : s1.trap_depth = s.trap_depth := by
  unfold destroy_win at h
  split at h
  · cases h; rfl
  · exact (dispose_queue h).2.1

/-- The nesting depth `repair_win` returns with: the depth on entry, except on
the path where the backing pixmap is unbound and cannot be named, which returns
one level deeper. -/
theorem repair_win_trap_depth {env : Env} {s s1 : CompState} {cw : NodeId}
    (h : repair_win env s cw = some s1) :
    s1.trap_depth = s.trap_depth ∨
    (s1.trap_depth = s.trap_depth + 1 ∧ (s.heap cw).priv.back_pixmap = None ∧
      env.XCompositeNameWindowPixmap (s.heap cw).priv.xwindow = None) := by
  unfold repair_win at h
  split at h
  · cases h
  · dsimp only at h
    split at h
    · cases h; exact Or.inl rfl
    · split at h
      · rename_i hback
        split at h
        · rename_i hname
          cases h
          exact Or.inr ⟨rfl, hback, hname⟩
        · cases h
          exact Or.inl (by simp [repair_win_update, meta_error_trap_pop, meta_error_trap_push,
            CompState.set_priv])
      · cases h
        exact Or.inl (by simp [repair_win_update, meta_error_trap_pop, meta_error_trap_push,
          CompState.set_priv])

theorem process_flagged_destroy_trap_depth {s s1 : CompState} {cw : NodeId} {next : Window}
    {rest : List XEvent}
    (h : process_destroy ((s.set_queue rest).set_priv cw
      { ((s.set_queue rest).heap cw).priv with destroy_pending := true }) next = some s1) :
    s1.trap_depth = s.trap_depth := by
  have h1 : destroy_win ((s.set_queue rest).set_priv cw
      { ((s.set_queue rest).heap cw).priv with destroy_pending := true }) next = some s1 := h
  exact (destroy_win_trap_depth h1).trans rfl

/-- The nesting depth `clutter_cmp_process_event` returns with is the depth on
entry, except for a `DamageNotify` of a tracked window whose backing pixmap is
unbound and cannot be named: the dispatcher then returns one level deeper. -/
theorem process_event_trap_depth {env : Env} {s s1 : CompState} {event : XEvent}
    {window : Option MetaWindow} (h : clutter_cmp_process_event env s event window = some s1) :
    s1.trap_depth = s.trap_depth ∨
    (s1.trap_depth = s.trap_depth + 1 ∧
      ∃ w cw, event = XEvent.DamageNotify w ∧ find_window_in_display s w = some cw ∧
        (s.heap cw).priv.back_pixmap = None ∧
        env.XCompositeNameWindowPixmap (s.heap cw).priv.xwindow = None) := by
  unfold clutter_cmp_process_event at h
  dsimp only at h
  have hpop : ∀ t : CompState, t.trap_depth = (meta_error_trap_push s).trap_depth →
      (meta_error_trap_pop t).trap_depth = s.trap_depth := by
    intro t ht
    simp [meta_error_trap_pop, ht, meta_error_trap_push]
  cases event with
  | CirculateNotify w place =>
    left
    cases hh : process_circulate_notify (meta_error_trap_push s) w place with
    | none => simp [hh] at h
    | some s2 =>
      simp only [hh, Option.map_some', Option.some.injEq] at h
      subst h
      refine hpop _ ?_
      unfold process_circulate_notify at hh
      split at hh
      · cases hh; rfl
      · split at hh
        · cases hh
        · split at hh
          · cases hh
          · exact restack_win_trap_depth hh
  | ConfigureNotify w above x y width height border_width override_redirect =>
    left
    cases hh : process_configure_notify (meta_error_trap_push s) w above x y width height
        border_width override_redirect with
    | none => simp [hh] at h
    | some s2 =>
      simp only [hh, Option.map_some', Option.some.injEq] at h
      subst h
      refine hpop _ ?_
      unfold process_configure_notify at hh
      split at hh
      · rename_i cw hcw
        cases hr : restack_win (meta_error_trap_push s) cw above with
        | none => simp [hr] at hh
        | some s3 =>
          simp only [hr, Option.map_some', Option.some.injEq] at hh
          subst hh
          rw [resize_win_trap_depth]
          exact restack_win_trap_depth hr
      · split at hh
        · split at hh
          · cases hh
          · cases hh; rfl
        · cases hh; rfl
  | PropertyNotify w atom =>
    left
    cases hh : process_property_notify env (meta_error_trap_push s) w atom with
    | none => simp [hh] at h
    | some s2 =>
      simp only [hh, Option.map_some', Option.some.injEq] at h
      subst h
      refine hpop _ ?_
      unfold process_property_notify at hh
      split at hh
      · dsimp only at hh
        split at hh
        · cases hh; rfl
        · split at hh
          · cases hh; rfl
          · cases hh; rfl
      · split at hh
        · split at hh
          · cases hh; rfl
          · cases hh; rfl
        · cases hh; rfl
  | Expose =>
    left
    simp only [Option.map_some', Option.some.injEq] at h
    subst h
    exact hpop _ rfl
  | UnmapNotify w from_configure =>
    left
    cases hh : process_unmap (meta_error_trap_push s) w from_configure with
    | none => simp [hh] at h
    | some s2 =>
      simp only [hh, Option.map_some', Option.some.injEq] at h
      subst h
      refine hpop _ ?_
      unfold process_unmap at hh
      split at hh
      · cases hh; rfl
      · split at hh
        · cases hh; rfl
        · split at hh
          · cases hh; rfl
          · split at hh
            · exact process_flagged_destroy_trap_depth hh
            · cases hh; exact unmap_win_trap_depth _ _
  | MapNotify w =>
    left
    cases hh : process_map (meta_error_trap_push s) w with
    | none => simp [hh] at h
    | some s2 =>
      simp only [hh, Option.map_some', Option.some.injEq] at h
      subst h
      refine hpop _ ?_
      unfold process_map at hh
      split at hh
      · cases hh; rfl
      · cases hh; exact map_win_trap_depth _ _
  | ReparentNotify w parent =>
    left
    cases hh : process_reparent env (meta_error_trap_push s) window w parent with
    | none => simp [hh] at h
    | some s2 =>
      simp only [hh, Option.map_some', Option.some.injEq] at h
      subst h
      refine hpop _ ?_
      unfold process_reparent at hh
      split at hh
      · cases hh; exact add_win_trap_depth _ _ _ _
      · exact destroy_win_trap_depth hh
  | CreateNotify w parent =>
    left
    cases hh : process_create env (meta_error_trap_push s) window w parent with
    | none => simp [hh] at h
    | some s2 =>
      simp only [hh, Option.map_some', Option.some.injEq] at h
      subst h
      refine hpop _ ?_
      unfold process_create at hh
      split at hh
      · split at hh
        · cases hh; exact add_win_trap_depth _ _ _ _
        · cases hh; rfl
      · cases hh; rfl
  | DestroyNotify e w =>
    left
    cases hh : process_destroy (meta_error_trap_push s) w with
    | none => simp [hh] at h
    | some s2 =>
      simp only [hh, Option.map_some', Option.some.injEq] at h
      subst h
      exact hpop _ (destroy_win_trap_depth hh)
  | DamageNotify drawable =>
    cases hh : process_damage env (meta_error_trap_push s) drawable with
    | none => simp [hh] at h
    | some s2 =>
      simp only [hh, Option.map_some', Option.some.injEq] at h
      subst h
      unfold process_damage at hh
      split at hh
      · cases hh; exact Or.inl (hpop _ rfl)
      · rename_i cw hcw
        split at hh
        · cases hh; exact Or.inl (hpop _ rfl)
        · split at hh
          · exact Or.inl (hpop _ (process_flagged_destroy_trap_depth hh))
          · rcases repair_win_trap_depth hh with hd | ⟨hd, hback, hname⟩
            · exact Or.inl (hpop _ hd)
            · refine Or.inr ⟨?_, drawable, cw, rfl, hcw, hback, hname⟩
              simp [meta_error_trap_pop, hd, meta_error_trap_push]
  | other t =>
    left
    simp only [Option.map_some', Option.some.injEq] at h
    subst h
    exact hpop _ rfl

/-- C29: with the trap nesting at depth 0, a
`DamageNotify` for window 10 of the three-window registry, whose backing pixmap
is unbound, returns at depth 1 when the window's pixmap cannot be named:
`repair_win` returns one level deeper than it was entered, and the dispatcher's
own pop closes only the dispatcher's push. When the pixmap can be named the
same event returns at depth 0. -/
theorem damage_without_pixmap_leaves_trap :
    CompState.three_windows.trap_depth = 0 ∧
    (CompState.three_windows.heap 0).priv.back_pixmap = None ∧
    (clutter_cmp_process_event Env.pixmap_unavailable CompState.three_windows
      (XEvent.DamageNotify 10) none).map (fun s => s.trap_depth) = some 1 ∧
    (repair_win Env.pixmap_unavailable CompState.three_windows 0).map
      (fun s => s.trap_depth) = some 1 ∧
    (clutter_cmp_process_event Env.quiet CompState.three_windows
      (XEvent.DamageNotify 10) none).map (fun s => s.trap_depth) = some 0 :=
  ⟨by decide, by decide, by decide, by decide, by decide⟩

end CompositorClutter
